import Mathlib

/-!
# Verification of the GPS Best-First route search

This file gives a shallow embedding of `src/informedsearch/GPS-BestFirst.py`:
the `City`/`Map` data model, the `Route` record, and the
`GPSGreedyBestFirst` engine (`next_route`, `add_route`,
`add_routes_for_neighbours`, `search`), together with theorems about them.

Modelling conventions:
* Python float arithmetic is embedded as exact real arithmetic: the city
  coordinates are the exact decimal rationals of the source, and
  `x ** (1/2)` becomes `Real.sqrt`.
* The engine's mutable attributes `__fringe` and `__visited` become an
  explicit state record `GPSState` that each operation threads through.
* Python's `while self.__fringe:` loop is modelled by a fuel-indexed loop
  `searchLoop`; `search` supplies the fuel `potM fringe + 1`, and the
  termination theorem below (`searchLoop_no_fuelOut`) shows this fuel is
  never exhausted on well-formed states, so the model agrees with the
  unbounded Python loop wherever the latter terminates.
* `Map[id]` (enum member lookup, raising `KeyError` on a miss) is modelled
  by the `Option`-valued `find_city`; the enum member names coincide with
  the stored city ids, so lookup by member name and lookup by id agree.
-/

namespace GPSBestFirst

/-- A node of the graph: id, latitude, longitude, neighbour ids
(`City` in the source). -/
structure City where
  id : String
  lat : ℚ
  lon : ℚ
  neighbours : List String
deriving Repr, DecidableEq

/-- The nine members of the `Map` enum, in source order. -/
def cities : List City :=
  [⟨"Goiania", -16.69, -49.25, ["Hidrolandia", "BelaVista"]⟩,
   ⟨"Hidrolandia", -16.97, -49.22, ["Goiania", "ProfJamil", "BelaVista"]⟩,
   ⟨"BelaVista", -16.97, -48.97, ["Goiania", "Hidrolandia", "Piracanjuba", "Cristianopolis"]⟩,
   ⟨"ProfJamil", -17.25, -49.25, ["Hidrolandia", "Morrinhos", "Piracanjuba"]⟩,
   ⟨"Cristianopolis", -17.19, -48.70, ["BelaVista", "Piracanjuba", "CaldasNovas"]⟩,
   ⟨"Piracanjuba", -17.30, -49.02, ["BelaVista", "ProfJamil", "CaldasNovas", "Cristianopolis", "Formiga"]⟩,
   ⟨"Formiga", -17.65, -49.08, ["Piracanjuba"]⟩,
   ⟨"Morrinhos", -17.73, -49.12, ["ProfJamil", "CaldasNovas"]⟩,
   ⟨"CaldasNovas", -17.74, -48.62, ["Cristianopolis", "Piracanjuba", "Morrinhos"]⟩]

/-- The list of node keys of the graph. -/
def keys : List String := cities.map City.id

/-- First city of the enum whose id matches, if any (the scan pattern of
`Map.get_neighbours`, and also `Map[id]` since member names equal ids). -/
def find_city (id : String) : Option City :=
  cities.find? (fun c => c.id == id)

/-- Model of `Map.get_neighbours`: scan the enum for a city with the given id and
return its neighbour list; return `[]` if there is none (no error). -/
def get_neighbours (id : String) : List String :=
  match find_city id with
  | some c => c.neighbours
  | none => []

/-- Squared Euclidean distance between two cities, from their exact
rational coordinates: `(latA - latB)^2 + (lonA - lonB)^2`. -/
def sq_dist (a b : City) : ℚ :=
  (a.lat - b.lat) ^ 2 + (a.lon - b.lon) ^ 2

/-- Model of `Map.calc_cartesian_distance`: `Map[id_a]` / `Map[id_b]` raise
`KeyError` for an unknown name, modelled by `none`; otherwise the result
is the Euclidean distance of the two coordinate pairs. -/
noncomputable def calc_cartesian_distance (id_a id_b : String) : Option ℝ :=
  match find_city id_a, find_city id_b with
  | some ca, some cb => some (Real.sqrt ((sq_dist ca cb : ℚ) : ℝ))
  | _, _ => none

/-- Total city lookup with a junk default.  Every id the search loop ever
passes to the distance function names an enum member
(`nbrs_subset_keys` below), so the default is never reached there. -/
def cityD (id : String) : City :=
  (find_city id).getD ⟨"", 0, 0, []⟩

/-- Total Euclidean distance used inside the search loop, where all keys
are valid; `calc_eq_dist` relates it to `calc_cartesian_distance`. -/
noncomputable def dist (a b : String) : ℝ :=
  Real.sqrt ((sq_dist (cityD a) (cityD b) : ℚ) : ℝ)

/-- A candidate path (`Route` in the source): node-key sequence, cumulative
cost, estimate to destination.  Cost and estimate are reals. -/
structure Route where
  cities_ids : List String
  cost : ℝ
  evaluation : ℝ

/-- Model of `Route.heuristic`: the score `cost + evaluation`. -/
noncomputable def Route.heuristic (r : Route) : ℝ :=
  r.cost + r.evaluation

/-- Model of `Route.last_city_id`: Python `cities_ids[-1]`.  Routes handled by the
engine are never empty; the default covers the impossible case. -/
def Route.last_city_id (r : Route) : String :=
  r.cities_ids.getLastD ""

/-- The engine's mutable state: `__fringe` and `__visited`
(`__visited` is a Python list, appended to with possible repeats). -/
structure GPSState where
  fringe : List Route
  visited : List String

/-- Model of `GPSGreedyBestFirst.__init__`: empty fringe, empty visited list. -/
def initState : GPSState := ⟨[], []⟩

/-- Model of `next_route`: `self.__fringe.pop(-1)` returns the last element; the
caller (`search`) also drops it from the fringe.  Called only on a
non-empty fringe (the loop guard), so the default is never reached. -/
def next_route (fringe : List Route) : Route :=
  fringe.getLastD ⟨[], 0, 0⟩

/-- Model of `add_route`: scan the fringe from index 0 and insert the new route
immediately before the first stored route whose heuristic is strictly
smaller (`curr_route.heuristic < route.heuristic`); if the scan finds
none, append at the end (the `for … else` branch). -/
noncomputable def add_route : List Route → Route → List Route
  | [], r => [r]
  | c :: rest, r =>
      if c.heuristic < r.heuristic then r :: c :: rest
      else c :: add_route rest r

/-- Model of `add_routes_for_neighbours`: for each neighbour of the route's last
city, skip it if already visited, otherwise insert the extended route
with cost `distance_from_last_city + route.cost` and evaluation
`calc_cartesian_distance(destination.id, neighbour_id)`.  All ids reaching
the distance function here name enum members, so the total `dist` agrees
with the raising `calc_cartesian_distance` (`calc_eq_dist`).
The `neighbour_route` built in the loop body of
`add_routes_for_neighbours`: extended city list, cost
`distance_from_last_city + route.cost`, evaluation
`distance_to_destination`. -/
noncomputable def child (route : Route) (destination nb : String) : Route :=
  ⟨route.cities_ids ++ [nb],
   dist route.last_city_id nb + route.cost,
   dist destination nb⟩

noncomputable def add_routes_for_neighbours
    (fringe : List Route) (visited : List String)
    (route : Route) (destination : String) : List Route :=
  (get_neighbours route.last_city_id).foldl
    (fun f nb =>
      if visited.contains nb then f
      else add_route f (child route destination nb))
    fringe

/-- Result of one `search` call: the returned route, Python `None`
(`notFound`), a raised `KeyError` (`error`), or fuel exhaustion of the
model's loop counter (shown unreachable on well-formed states). -/
inductive SearchResult where
  | found : Route → SearchResult
  | notFound : SearchResult
  | error : SearchResult
  | fuelOut : SearchResult

/-- The `while self.__fringe:` loop of `search`: pop the last route, stop
if it reaches the destination, otherwise append its last city to visited
and insert routes for the unvisited neighbours. -/
noncomputable def searchLoop (o d : String) : ℕ → GPSState → SearchResult × GPSState
  | _, ⟨[], v⟩ => (.notFound, ⟨[], v⟩)
  | 0, ⟨c :: f, v⟩ => (.fuelOut, ⟨c :: f, v⟩)
  | n + 1, ⟨c :: f, v⟩ =>
      let cur := next_route (c :: f)
      let rest := (c :: f).dropLast
      if cur.last_city_id == d then (.found cur, ⟨rest, v⟩)
      else
        let v2 := v ++ [cur.last_city_id]
        searchLoop o d n ⟨add_routes_for_neighbours rest v2 cur d, v2⟩

/-- Unvisited node keys of a route: the graph keys not on the route. -/
def availList (r : Route) : List String :=
  keys.filter (fun k => !(r.cities_ids.contains k))

/-- Size of `availList`. -/
def avail (r : Route) : ℕ := (availList r).length

/-- Potential `potAux n` bounds the number of duplicate-free extensions over `n`
fresh keys: `potAux 0 = 1`, `potAux (n+1) = 1 + (n+1) * potAux n`. -/
def potAux : ℕ → ℕ
  | 0 => 1
  | n + 1 => 1 + (n + 1) * potAux n

/-- Potential of a route. -/
def pot (r : Route) : ℕ := potAux (avail r)

/-- Potential of a fringe: it strictly decreases at every loop iteration
(`potM_step` below), so it bounds the number of iterations. -/
def potM (f : List Route) : ℕ := (f.map pot).sum

/-- Model of `GPSGreedyBestFirst.search`: compute the initial estimate (raising —
`error` — on an unknown origin or destination), insert the route
`[origin]` with cost 0 into the (carried-over) fringe, then run the loop.
The supplied fuel `potM … + 1` is shown never to run out on well-formed
states (`search_no_fuelOut`), so the model matches the unbounded loop. -/
noncomputable def search (s : GPSState) (o d : String) : SearchResult × GPSState :=
  match calc_cartesian_distance o d with
  | none => (.error, s)
  | some e =>
      let f := add_route s.fringe ⟨[o], 0, e⟩
      searchLoop o d (potM f + 1) ⟨f, s.visited⟩

/-- Well-formedness of an engine state: every fringe route is non-empty
and all its cities except the last have been visited.  It holds for
`initState` and is preserved by `search` (`Inv_search`). -/
def Inv (s : GPSState) : Prop :=
  ∀ r ∈ s.fringe, r.cities_ids ≠ [] ∧
    ∀ c ∈ r.cities_ids.dropLast, c ∈ s.visited

/-- The insertion rule exactly as the specification words it (claim C1):
scan from index 0 and insert the new route immediately before the first
existing route whose score is strictly GREATER than the new route's
score; if none is found, append at the end.  This follows the spec's
words; `add_route` above follows the code, and the two disagree
(`add_route_spec_rule_cex`). -/
noncomputable def insert_before_first_greater : List Route → Route → List Route
  | [], r => [r]
  | c :: rest, r =>
      if r.heuristic < c.heuristic then r :: c :: rest
      else c :: insert_before_first_greater rest r

/-! ## Concrete facts about the graph data -/

theorem keys_nodup : keys.Nodup := by decide

theorem cities_no_self : ∀ c ∈ cities, c.id ∉ c.neighbours := by decide

theorem cities_nbrs_sub : ∀ c ∈ cities, ∀ x ∈ c.neighbours, x ∈ keys := by decide

theorem cities_nbrs_nodup : ∀ c ∈ cities, c.neighbours.Nodup := by decide

theorem find_city_id {id : String} {c : City} (h : find_city id = some c) :
    c.id = id := by
  have := List.find?_some h
  simpa using this

theorem find_city_mem {id : String} {c : City} (h : find_city id = some c) :
    c ∈ cities :=
  List.mem_of_find?_eq_some h

theorem find_city_of_mem {id : String} (h : id ∈ keys) :
    ∃ c, find_city id = some c ∧ c.id = id := by
  have hex : ∃ c ∈ cities, (c.id == id) = true := by
    rcases List.mem_map.mp h with ⟨c, hc, rfl⟩
    exact ⟨c, hc, by simp⟩
  have : (cities.find? (fun c => c.id == id)).isSome := List.find?_isSome.mpr hex
  rcases Option.isSome_iff_exists.mp this with ⟨c, hc⟩
  exact ⟨c, hc, find_city_id hc⟩

theorem find_city_none_iff {id : String} :
    find_city id = none ↔ id ∉ keys := by
  constructor
  · intro h hmem
    rcases find_city_of_mem hmem with ⟨c, hc, _⟩
    rw [h] at hc; cases hc
  · intro h
    cases hfc : find_city id with
    | none => rfl
    | some c =>
        exact absurd (List.mem_map.mpr ⟨c, find_city_mem hfc, find_city_id hfc⟩) h

theorem calc_eq_dist {a b : String} {ca cb : City}
    (ha : find_city a = some ca) (hb : find_city b = some cb) :
    calc_cartesian_distance a b = some (dist a b) := by
  unfold calc_cartesian_distance dist cityD
  rw [ha, hb]
  simp

theorem calc_none_iff {a b : String} :
    calc_cartesian_distance a b = none ↔ a ∉ keys ∨ b ∉ keys := by
  unfold calc_cartesian_distance
  cases hfa : find_city a with
  | none =>
      simp [find_city_none_iff.mp hfa]
  | some ca =>
      cases hfb : find_city b with
      | none => simp [find_city_none_iff.mp hfb]
      | some cb =>
          simp only [reduceCtorEq, false_iff]
          push_neg
          exact ⟨find_city_none_iff.not_left.mp (by simp [hfa]),
                 find_city_none_iff.not_left.mp (by simp [hfb])⟩

theorem sq_dist_self (c : City) : sq_dist c c = 0 := by
  simp [sq_dist]

theorem dist_self (a : String) : dist a a = 0 := by
  simp [dist, sq_dist_self]

theorem dist_nonneg (a b : String) : 0 ≤ dist a b :=
  Real.sqrt_nonneg _

theorem get_neighbours_no_self (k : String) : k ∉ get_neighbours k := by
  unfold get_neighbours
  cases h : find_city k with
  | none => simp
  | some c =>
      have : c.id ∉ c.neighbours := cities_no_self c (find_city_mem h)
      rw [find_city_id h] at this
      simpa using this

theorem nbrs_subset_keys {k x : String} (h : x ∈ get_neighbours k) : x ∈ keys := by
  unfold get_neighbours at h
  cases hf : find_city k with
  | none => rw [hf] at h; cases h
  | some c =>
      rw [hf] at h
      exact cities_nbrs_sub c (find_city_mem hf) x h

theorem get_neighbours_nodup (k : String) : (get_neighbours k).Nodup := by
  unfold get_neighbours
  cases h : find_city k with
  | none => simp
  | some c => exact cities_nbrs_nodup c (find_city_mem h)

theorem mem_nbrs_ne {k x : String} (h : x ∈ get_neighbours k) : x ≠ k := by
  intro hx
  exact get_neighbours_no_self k (hx ▸ h)

/-! ## Structural properties of `add_route` -/

/-- Non-increasing score order on the fringe. -/
def SortedDesc (f : List Route) : Prop :=
  f.Pairwise (fun a b => b.heuristic ≤ a.heuristic)

theorem add_route_perm (f : List Route) (r : Route) :
    (add_route f r).Perm (r :: f) := by
  induction f with
  | nil => simp [add_route]
  | cons c rest ih =>
      unfold add_route
      by_cases h : c.heuristic < r.heuristic
      · simp [h]
      · simp only [h, if_false]
        exact (ih.cons c).trans (List.Perm.swap r c rest)

theorem mem_add_route {f : List Route} {r x : Route} :
    x ∈ add_route f r ↔ x = r ∨ x ∈ f := by
  rw [(add_route_perm f r).mem_iff]; simp

theorem add_route_sorted {f : List Route} {r : Route} (hf : SortedDesc f) :
    SortedDesc (add_route f r) := by
  induction f with
  | nil => simp [add_route, SortedDesc]
  | cons c rest ih =>
      rcases List.pairwise_cons.mp hf with ⟨hc, hrest⟩
      unfold add_route
      by_cases h : c.heuristic < r.heuristic
      · simp only [h, if_true]
        refine List.pairwise_cons.mpr ⟨?_, hf⟩
        intro y hy
        rcases List.mem_cons.mp hy with rfl | hy
        · exact le_of_lt h
        · exact (hc y hy).trans (le_of_lt h)
      · simp only [h, if_false]
        refine List.pairwise_cons.mpr ⟨?_, ih hrest⟩
        intro y hy
        rcases mem_add_route.mp hy with rfl | hy
        · exact not_lt.mp h
        · exact hc y hy

theorem add_route_append_of_min {f : List Route} {r : Route}
    (h : ∀ x ∈ f, r.heuristic ≤ x.heuristic) :
    add_route f r = f ++ [r] := by
  induction f with
  | nil => rfl
  | cons c rest ih =>
      unfold add_route
      have hc : ¬ c.heuristic < r.heuristic :=
        not_lt.mpr (h c (List.mem_cons_self c rest))
      simp only [hc, if_false, List.cons_append, List.cons.injEq, true_and]
      exact ih (fun x hx => h x (List.mem_cons_of_mem c hx))

theorem add_route_filter {f : List Route} {r : Route} {p : Route → Bool}
    (hr : p r = false) : (add_route f r).filter p = f.filter p := by
  induction f with
  | nil => simp [add_route, hr]
  | cons c rest ih =>
      unfold add_route
      by_cases h : c.heuristic < r.heuristic
      · simp [h, List.filter_cons, hr]
      · simp only [h, if_false, List.filter_cons]
        cases p c <;> simp [ih]

/-! ## The expansion fold: permutation, sortedness, extraction -/

theorem foldl_add_perm (v : List String) (mk : String → Route) :
    ∀ (nbs : List String) (f0 : List Route),
      (nbs.foldl (fun f nb => if v.contains nb then f else add_route f (mk nb)) f0).Perm
        (f0 ++ ((nbs.filter (fun nb => !(v.contains nb))).map mk)) := by
  intro nbs
  induction nbs with
  | nil => intro f0; simp
  | cons nb rest ih =>
      intro f0
      rw [List.foldl_cons, List.filter_cons]
      by_cases h : v.contains nb
      · rw [if_pos h]
        have h2 : (!(v.contains nb)) = false := by rw [h]; rfl
        rw [h2, if_neg (by simp)]
        exact ih f0
      · have hb : v.contains nb = false := Bool.not_eq_true _ |>.mp h
        rw [if_neg h]
        have h2 : (!(v.contains nb)) = true := by rw [hb]; rfl
        rw [h2, if_pos rfl, List.map_cons]
        refine (ih (add_route f0 (mk nb))).trans ?_
        have h3 := (add_route_perm f0 (mk nb)).append_right
          ((rest.filter (fun nb => !(v.contains nb))).map mk)
        refine h3.trans ?_
        simpa using (@List.perm_middle _ (mk nb) f0
          ((rest.filter (fun nb => !(v.contains nb))).map mk)).symm

theorem add_routes_perm (fringe : List Route) (visited : List String)
    (route : Route) (destination : String) :
    (add_routes_for_neighbours fringe visited route destination).Perm
      (fringe ++ (((get_neighbours route.last_city_id).filter
        (fun nb => !(visited.contains nb))).map (child route destination))) :=
  foldl_add_perm visited (child route destination) (get_neighbours route.last_city_id) fringe

theorem foldl_add_sorted (v : List String) (mk : String → Route) :
    ∀ (nbs : List String) (f0 : List Route), SortedDesc f0 →
      SortedDesc (nbs.foldl (fun f nb => if v.contains nb then f else add_route f (mk nb)) f0) := by
  intro nbs
  induction nbs with
  | nil => intro f0 h; simpa using h
  | cons nb rest ih =>
      intro f0 h
      rw [List.foldl_cons]
      by_cases hc : v.contains nb
      · rw [if_pos hc]; exact ih f0 h
      · rw [if_neg hc]; exact ih _ (add_route_sorted h)

theorem add_routes_sorted {fringe : List Route} {visited : List String}
    {route : Route} {destination : String} (h : SortedDesc fringe) :
    SortedDesc (add_routes_for_neighbours fringe visited route destination) :=
  foldl_add_sorted visited (child route destination)
    (get_neighbours route.last_city_id) fringe h

theorem getLast?_of_strict_min :
    ∀ (l : List Route) (x : Route), SortedDesc l → x ∈ l →
      (∀ y ∈ l, y = x ∨ x.heuristic < y.heuristic) → l.getLast? = some x := by
  intro l
  induction l with
  | nil => intro x _ hx; cases hx
  | cons c tail ih =>
      intro x hs hx hmin
      cases tail with
      | nil =>
          rcases List.mem_cons.mp hx with rfl | hx
          · rfl
          · cases hx
      | cons c2 tail2 =>
          have hxt : x ∈ c2 :: tail2 := by
            rcases List.mem_cons.mp hx with rfl | hxt
            · rcases hmin c2 (by simp) with rfl | hlt
              · simp
              · have hle : c2.heuristic ≤ x.heuristic :=
                  (List.pairwise_cons.mp hs).1 c2 (by simp)
                exact absurd hlt (not_lt.mpr hle)
            · exact hxt
          have : (c2 :: tail2).getLast? = some x :=
            ih x (List.pairwise_cons.mp hs).2 hxt
              (fun y hy => hmin y (List.mem_cons_of_mem c hy))
          rw [List.getLast?_cons_cons]
          exact this

theorem next_route_of_strict_min {l : List Route} {x : Route}
    (hs : SortedDesc l) (hx : x ∈ l)
    (hmin : ∀ y ∈ l, y = x ∨ x.heuristic < y.heuristic) :
    next_route l = x := by
  unfold next_route
  rw [List.getLastD_eq_getLast?, getLast?_of_strict_min l x hs hx hmin]
  rfl

/-! ## Termination: the fringe potential -/

theorem contains_eq (l : List String) (a : String) :
    l.contains a = decide (a ∈ l) :=
  List.elem_eq_mem a l

theorem potAux_pos (n : ℕ) : 1 ≤ potAux n := by
  cases n with
  | zero => exact le_refl 1
  | succ m => simp [potAux]

theorem pot_pos (r : Route) : 1 ≤ pot r := potAux_pos _

theorem availList_nodup (r : Route) : (availList r).Nodup :=
  keys_nodup.filter _

theorem next_route_eq_getLast (l : List Route) (h : l ≠ []) :
    next_route l = l.getLast h := by
  unfold next_route
  rw [List.getLastD_eq_getLast?, List.getLast?_eq_getLast l h]
  rfl

theorem route_eq_dropLast_append (r : Route) (h : r.cities_ids ≠ []) :
    r.cities_ids = r.cities_ids.dropLast ++ [r.last_city_id] := by
  conv_lhs => rw [← List.dropLast_append_getLast h]
  unfold Route.last_city_id
  rw [List.getLastD_eq_getLast?, List.getLast?_eq_getLast _ h]
  rfl

theorem mem_cities_cases {r : Route} {x : String} (hne : r.cities_ids ≠ [])
    (hx : x ∈ r.cities_ids) :
    x ∈ r.cities_ids.dropLast ∨ x = r.last_city_id := by
  rw [route_eq_dropLast_append r hne] at hx
  rcases List.mem_append.mp hx with h | h
  · exact Or.inl h
  · exact Or.inr (by simpa using h)

theorem availList_child {r : Route} {nb d : String} :
    availList (child r d nb) = (availList r).filter (fun k => !(k == nb)) := by
  unfold availList child
  rw [List.filter_filter]
  apply List.filter_congr
  intro k _
  show (!((r.cities_ids ++ [nb]).contains k)) = ((!(k == nb)) && !(r.cities_ids.contains k))
  have h1 : (r.cities_ids ++ [nb]).contains k
      = (r.cities_ids.contains k || (k == nb)) := by
    show ((r.cities_ids ++ [nb]).elem k) = (r.cities_ids.elem k || (k == nb))
    rw [List.elem_eq_mem, List.elem_eq_mem]
    simp only [List.mem_append, List.mem_singleton, Bool.decide_or]
    rfl
  rw [h1, Bool.not_or, Bool.and_comm]

theorem avail_child {r : Route} {nb d : String} (hk : nb ∈ keys)
    (hnotin : nb ∉ r.cities_ids) :
    avail (child r d nb) + 1 = avail r := by
  have hmem : nb ∈ availList r := by
    unfold availList
    refine List.mem_filter.mpr ⟨hk, ?_⟩
    rw [contains_eq]
    simpa using hnotin
  have herase : (availList r).filter (fun k => !(k == nb)) = (availList r).erase nb := by
    rw [(availList_nodup r).erase_eq_filter]
    apply List.filter_congr
    intro k _
    simp [bne]
  have hlen : ((availList r).erase nb).length = (availList r).length - 1 :=
    List.length_erase_of_mem hmem
  have hpos : 1 ≤ (availList r).length := List.length_pos.mpr (by
    intro h; rw [h] at hmem; cases hmem)
  unfold avail
  rw [availList_child, herase, hlen]
  omega

theorem sum_map_const_of {α : Type} {l : List α} {f : α → ℕ} {c : ℕ}
    (h : ∀ x ∈ l, f x = c) : (l.map f).sum = l.length * c := by
  induction l with
  | nil => simp
  | cons a rest ih =>
      rw [List.map_cons, List.sum_cons, h a (List.mem_cons_self a rest),
        ih (fun x hx => h x (List.mem_cons_of_mem a hx)), List.length_cons]
      ring

theorem potM_perm {f g : List Route} (h : f.Perm g) : potM f = potM g :=
  (h.map pot).sum_eq

theorem potM_append (f g : List Route) : potM (f ++ g) = potM f + potM g := by
  unfold potM
  rw [List.map_append, List.sum_append]

/-- Expanding a popped route strictly decreases the fringe potential. -/
theorem potM_expand {rest : List Route} {v2 : List String} {cur : Route} {d : String}
    (hne : cur.cities_ids ≠ [])
    (hsub : ∀ c ∈ cur.cities_ids.dropLast, c ∈ v2)
    (hlast : cur.last_city_id ∈ v2) :
    potM (add_routes_for_neighbours rest v2 cur d) + 1 ≤ potM rest + pot cur := by
  set nbs := (get_neighbours cur.last_city_id).filter (fun nb => !(v2.contains nb)) with hnbs
  have hperm := add_routes_perm rest v2 cur d
  rw [potM_perm hperm, potM_append]
  have hcond : ∀ nb ∈ nbs, nb ∈ keys ∧ nb ∉ cur.cities_ids := by
    intro nb hnb
    rcases List.mem_filter.mp hnb with ⟨hmemn, hnv⟩
    have hnv : nb ∉ v2 := by
      rw [contains_eq] at hnv
      simpa using hnv
    refine ⟨nbrs_subset_keys hmemn, ?_⟩
    intro hmemc
    rcases mem_cities_cases hne hmemc with h | h
    · exact hnv (hsub nb h)
    · exact hnv (h ▸ hlast)
  have hconst : ∀ nb ∈ nbs, pot (child cur d nb) = potAux (avail cur - 1) := by
    intro nb hnb
    rcases hcond nb hnb with ⟨hk, hni⟩
    have := avail_child (r := cur) (d := d) hk hni
    unfold pot
    rw [show avail (child cur d nb) = avail cur - 1 by omega]
  have hsum : ((nbs.map (child cur d)).map pot).sum = nbs.length * potAux (avail cur - 1) := by
    rw [List.map_map]
    exact sum_map_const_of (fun nb hnb => hconst nb hnb)
  have hlen : nbs.length ≤ avail cur := by
    have hnodup : nbs.Nodup := (get_neighbours_nodup _).filter _
    have hsubav : nbs ⊆ availList cur := by
      intro nb hnb
      rcases hcond nb hnb with ⟨hk, hni⟩
      unfold availList
      refine List.mem_filter.mpr ⟨hk, ?_⟩
      rw [contains_eq]
      simpa using hni
    exact (hnodup.subperm hsubav).length_le
  show potM rest + potM (nbs.map (child cur d)) + 1 ≤ potM rest + pot cur
  have hbound : potM (nbs.map (child cur d)) + 1 ≤ pot cur := by
    unfold potM
    rw [hsum]
    cases hav : avail cur with
    | zero =>
        have : nbs.length = 0 := by omega
        rw [this]
        simpa using pot_pos cur
    | succ m =>
        have hlen2 : nbs.length ≤ m + 1 := hav ▸ hlen
        unfold pot
        rw [hav]
        show nbs.length * potAux (m + 1 - 1) + 1 ≤ potAux (m + 1)
        have : nbs.length * potAux m ≤ (m + 1) * potAux m :=
          Nat.mul_le_mul_right _ hlen2
        simp only [Nat.add_sub_cancel, potAux]
        omega
  omega

/-- One loop iteration preserves the state invariant. -/
theorem Inv_step {c : Route} {f : List Route} {v : List String} {d : String}
    (hInv : Inv ⟨c :: f, v⟩) :
    Inv ⟨add_routes_for_neighbours ((c :: f).dropLast)
          (v ++ [(next_route (c :: f)).last_city_id]) (next_route (c :: f)) d,
        v ++ [(next_route (c :: f)).last_city_id]⟩ := by
  set cur := next_route (c :: f) with hcur
  set v2 := v ++ [cur.last_city_id] with hv2
  have hcurmem : cur ∈ c :: f := by
    rw [hcur, next_route_eq_getLast (c :: f) (by simp)]
    exact List.getLast_mem _
  have hcurne : cur.cities_ids ≠ [] := (hInv cur hcurmem).1
  intro r hr
  have hperm := add_routes_perm ((c :: f).dropLast) v2 cur d
  rcases List.mem_append.mp (hperm.subset hr) with hmem | hmem
  · have : r ∈ c :: f := (List.dropLast_sublist (c :: f)).subset hmem
    refine ⟨(hInv r this).1, fun x hx => List.mem_append_left _ ((hInv r this).2 x hx)⟩
  · rcases List.mem_map.mp hmem with ⟨nb, _, rfl⟩
    refine ⟨by simp [child], ?_⟩
    intro x hx
    have hx2 : x ∈ cur.cities_ids := by
      have : (child cur d nb).cities_ids.dropLast = cur.cities_ids := by
        simp [child]
      rwa [this] at hx
    rcases mem_cities_cases hcurne hx2 with h | h
    · exact List.mem_append_left _ ((hInv cur hcurmem).2 x h)
    · rw [h, hv2]
      exact List.mem_append_right _ (by simp)

/-- The loop's supplied fuel is never exhausted on well-formed states:
the Python `while` loop terminates. -/
theorem searchLoop_no_fuelOut :
    ∀ (fuel : ℕ) (s : GPSState) (o d : String), Inv s →
      potM s.fringe < fuel → (searchLoop o d fuel s).1 ≠ .fuelOut := by
  intro fuel
  induction fuel with
  | zero =>
      intro s o d _ hpot
      exact absurd hpot (by omega)
  | succ n ih =>
      intro s o d hInv hpot
      obtain ⟨fr, v⟩ := s
      cases fr with
      | nil => simp [searchLoop]
      | cons c f =>
          rw [searchLoop]
          by_cases hgoal : (next_route (c :: f)).last_city_id == d
          · simp only [hgoal, if_true]
            intro h; cases h
          · simp only [hgoal, if_false]
            set cur := next_route (c :: f) with hcur
            set v2 := v ++ [cur.last_city_id] with hv2
            have hcurmem : cur ∈ c :: f := by
              rw [hcur, next_route_eq_getLast (c :: f) (by simp)]
              exact List.getLast_mem _
            have hs : Inv (⟨c :: f, v⟩ : GPSState) := hInv
            have hcurne : cur.cities_ids ≠ [] := (hs cur hcurmem).1
            have hsub : ∀ x ∈ cur.cities_ids.dropLast, x ∈ v2 :=
              fun x hx => List.mem_append_left _ ((hs cur hcurmem).2 x hx)
            have hlast : cur.last_city_id ∈ v2 := List.mem_append_right _ (by simp)
            have hsplit : potM (c :: f) = potM ((c :: f).dropLast) + pot cur := by
              conv_lhs => rw [show (c :: f) = (c :: f).dropLast ++ [cur] by
                rw [hcur, next_route_eq_getLast (c :: f) (by simp)]
                exact (List.dropLast_append_getLast (by simp)).symm]
              rw [potM_append]
              rfl
            have hdec := @potM_expand ((c :: f).dropLast) v2 cur d
              hcurne hsub hlast
            refine ih ⟨add_routes_for_neighbours ((c :: f).dropLast) v2 cur d, v2⟩ o d
              (Inv_step hs) ?_
            show potM (add_routes_for_neighbours ((c :: f).dropLast) v2 cur d) < n
            have hpot2 : potM (c :: f) < n + 1 := hpot
            omega

/-! ## Generic behaviour of the search loop -/

theorem child_last (r : Route) (d nb : String) :
    (child r d nb).last_city_id = nb := by
  unfold child Route.last_city_id
  simp

theorem searchLoop_mono :
    ∀ (fuel : ℕ) (s : GPSState) (o d : String) (res : SearchResult) (sf : GPSState),
      searchLoop o d fuel s = (res, sf) → res ≠ .fuelOut →
      ∀ m, searchLoop o d (fuel + m) s = (res, sf) := by
  intro fuel
  induction fuel with
  | zero =>
      intro s o d res sf h hres m
      obtain ⟨fr, v⟩ := s
      cases fr with
      | nil =>
          rw [searchLoop] at h
          rw [show 0 + m = m from by omega]
          cases m with
          | zero => rw [searchLoop]; exact h
          | succ k => rw [searchLoop]; exact h
      | cons c f =>
          rw [searchLoop] at h
          exact absurd (congrArg Prod.fst h).symm hres
  | succ n ih =>
      intro s o d res sf h hres m
      obtain ⟨fr, v⟩ := s
      cases fr with
      | nil =>
          rw [searchLoop] at h
          cases m with
          | zero => rw [searchLoop]; exact h
          | succ k => rw [show n + 1 + (k + 1) = (n + k + 1) + 1 from by omega,
              searchLoop]; exact h
      | cons c f =>
          rw [searchLoop] at h
          rw [show n + 1 + m = (n + m) + 1 from by omega, searchLoop]
          by_cases hgoal : (next_route (c :: f)).last_city_id == d
          · simp only [hgoal, if_true] at h ⊢
            exact h
          · simp only [hgoal, if_false] at h ⊢
            exact ih _ o d res sf h hres m

theorem searchLoop_visited_prefix :
    ∀ (fuel : ℕ) (s : GPSState) (o d : String),
      s.visited <+: ((searchLoop o d fuel s).2.visited) := by
  intro fuel
  induction fuel with
  | zero =>
      intro s o d
      obtain ⟨fr, v⟩ := s
      cases fr with
      | nil => rw [searchLoop]
      | cons c f => rw [searchLoop]
  | succ n ih =>
      intro s o d
      obtain ⟨fr, v⟩ := s
      cases fr with
      | nil => rw [searchLoop]
      | cons c f =>
          rw [searchLoop]
          by_cases hgoal : (next_route (c :: f)).last_city_id == d
          · simp only [hgoal, if_true]
            exact List.prefix_refl v
          · simp only [hgoal, if_false]
            refine List.IsPrefix.trans ?_ (ih _ o d)
            exact ⟨[(next_route (c :: f)).last_city_id], rfl⟩

/-- Once the destination key is on the visited list and no fringe route
ends at it, the loop can never return a found route: every route inserted
from then on targets an unvisited key. -/
theorem searchLoop_stuck :
    ∀ (fuel : ℕ) (s : GPSState) (o d : String),
      d ∈ s.visited → (∀ r ∈ s.fringe, r.last_city_id ≠ d) →
      (searchLoop o d fuel s).1 = .notFound ∨ (searchLoop o d fuel s).1 = .fuelOut := by
  intro fuel
  induction fuel with
  | zero =>
      intro s o d _ _
      obtain ⟨fr, v⟩ := s
      cases fr with
      | nil => rw [searchLoop]; exact Or.inl rfl
      | cons c f => rw [searchLoop]; exact Or.inr rfl
  | succ n ih =>
      intro s o d hd hfr
      obtain ⟨fr, v⟩ := s
      cases fr with
      | nil => rw [searchLoop]; exact Or.inl rfl
      | cons c f =>
          rw [searchLoop]
          have hcur : next_route (c :: f) ∈ c :: f := by
            rw [next_route_eq_getLast (c :: f) (by simp)]
            exact List.getLast_mem _
          have hne : (next_route (c :: f)).last_city_id ≠ d := hfr _ hcur
          have hgoal : ((next_route (c :: f)).last_city_id == d) = false := by
            simpa using hne
          simp only [hgoal, Bool.false_eq_true, if_false]
          set cur := next_route (c :: f) with hcurdef
          set v2 := v ++ [cur.last_city_id] with hv2
          refine ih _ o d (List.mem_append_left _ hd) ?_
          intro r hr
          have hperm := add_routes_perm ((c :: f).dropLast) v2 cur d
          rcases List.mem_append.mp (hperm.subset hr) with hmem | hmem
          · exact hfr r ((List.dropLast_sublist (c :: f)).subset hmem)
          · rcases List.mem_map.mp hmem with ⟨nb, hnb, rfl⟩
            rcases List.mem_filter.mp hnb with ⟨_, hnv⟩
            have hnv2 : nb ∉ v2 := by
              rw [contains_eq] at hnv
              simpa using hnv
            rw [child_last]
            intro hcontra
            exact hnv2 (hcontra ▸ List.mem_append_left _ hd)

/-- In a run that ends with `None`, every route on the fringe is
eventually popped and its last city appended to the visited list: the
initial visited list together with the fringe's last cities embeds into
the final visited list as a multiset. -/
theorem searchLoop_visited_multiset :
    ∀ (fuel : ℕ) (s : GPSState) (o d : String) (sf : GPSState),
      searchLoop o d fuel s = (.notFound, sf) →
      (↑s.visited + ↑(s.fringe.map Route.last_city_id) : Multiset String) ≤ ↑sf.visited := by
  intro fuel
  induction fuel with
  | zero =>
      intro s o d sf h
      obtain ⟨fr, v⟩ := s
      cases fr with
      | nil =>
          rw [searchLoop] at h
          cases h
          simp
      | cons c f => rw [searchLoop] at h; cases h
  | succ n ih =>
      intro s o d sf h
      obtain ⟨fr, v⟩ := s
      cases fr with
      | nil =>
          rw [searchLoop] at h
          cases h
          simp
      | cons c f =>
          rw [searchLoop] at h
          by_cases hgoal : (next_route (c :: f)).last_city_id == d
          · simp only [hgoal, if_true] at h
            cases h
          · simp only [hgoal, if_false] at h
            set cur := next_route (c :: f) with hcurdef
            set v2 := v ++ [cur.last_city_id] with hv2
            have hih := ih _ o d sf h
            have hsplit : (c :: f) = (c :: f).dropLast ++ [cur] := by
              rw [hcurdef, next_route_eq_getLast (c :: f) (by simp)]
              exact (List.dropLast_append_getLast (by simp)).symm
            have hperm := add_routes_perm ((c :: f).dropLast) v2 cur d
            have hsub : (↑(((c :: f).dropLast).map Route.last_city_id) : Multiset String) ≤
                ↑((add_routes_for_neighbours ((c :: f).dropLast) v2 cur d).map
                  Route.last_city_id) := by
              rw [Multiset.coe_le]
              exact ((List.sublist_append_left _ _).map _).subperm.trans
                (hperm.map Route.last_city_id).symm.subperm
            have hmap : (c :: f).map Route.last_city_id
                = ((c :: f).dropLast).map Route.last_city_id ++ [cur.last_city_id] := by
              conv_lhs => rw [hsplit]
              rw [List.map_append]
              rfl
            have hcoe1 : (↑((c :: f).map Route.last_city_id) : Multiset String)
                = ↑(((c :: f).dropLast).map Route.last_city_id) + ↑[cur.last_city_id] := by
              rw [hmap]; rfl
            have hcoe2 : (↑v2 : Multiset String) = ↑v + ↑[cur.last_city_id] := by
              rw [hv2]; rfl
            calc (↑v + ↑((c :: f).map Route.last_city_id) : Multiset String)
                = ↑v2 + ↑(((c :: f).dropLast).map Route.last_city_id) := by
                  rw [hcoe1, hcoe2]
                  abel
              _ ≤ ↑v2 + ↑((add_routes_for_neighbours ((c :: f).dropLast) v2 cur d).map
                    Route.last_city_id) := by
                  exact add_le_add_left hsub _
              _ ≤ ↑sf.visited := hih

theorem searchLoop_visited_length :
    ∀ (fuel : ℕ) (s : GPSState) (o d : String) (sf : GPSState),
      searchLoop o d fuel s = (.notFound, sf) →
      sf.visited.length ≤ s.visited.length + fuel := by
  intro fuel
  induction fuel with
  | zero =>
      intro s o d sf h
      obtain ⟨fr, v⟩ := s
      cases fr with
      | nil => rw [searchLoop] at h; cases h; simp
      | cons c f => rw [searchLoop] at h; cases h
  | succ n ih =>
      intro s o d sf h
      obtain ⟨fr, v⟩ := s
      cases fr with
      | nil => rw [searchLoop] at h; cases h; simp
      | cons c f =>
          rw [searchLoop] at h
          by_cases hgoal : (next_route (c :: f)).last_city_id == d
          · simp only [hgoal, if_true] at h
            cases h
          · simp only [hgoal, if_false] at h
            have hlen := ih _ o d sf h
            have h0 : (({ fringe := c :: f, visited := v } : GPSState)).visited.length
                = v.length := rfl
            simp only [List.length_append, List.length_cons, List.length_nil] at hlen
            omega

/-! ## Visited-set exclusion -/

theorem foldl_add_filter (v : List String) (mk : String → Route) (p : Route → Bool)
    (hp : ∀ nb, v.contains nb = false → p (mk nb) = false) :
    ∀ (nbs : List String) (f0 : List Route),
      (nbs.foldl (fun f nb => if v.contains nb then f else add_route f (mk nb)) f0).filter p
        = f0.filter p := by
  intro nbs
  induction nbs with
  | nil => intro f0; rfl
  | cons nb rest ih =>
      intro f0
      rw [List.foldl_cons]
      by_cases h : v.contains nb
      · rw [if_pos h]; exact ih f0
      · rw [if_neg h]
        rw [ih (add_route f0 (mk nb))]
        exact add_route_filter (hp nb (Bool.not_eq_true _ |>.mp h))

/-- Throughout the loop, routes ending at an already-visited key are only
ever removed from the fringe, never inserted. -/
theorem searchLoop_filter_sublist :
    ∀ (fuel : ℕ) (s : GPSState) (o d k : String), k ∈ s.visited →
      ((searchLoop o d fuel s).2.fringe.filter (fun r => r.last_city_id == k)).Sublist
        (s.fringe.filter (fun r => r.last_city_id == k)) := by
  intro fuel
  induction fuel with
  | zero =>
      intro s o d k _
      obtain ⟨fr, v⟩ := s
      cases fr with
      | nil => rw [searchLoop]
      | cons c f => rw [searchLoop]
  | succ n ih =>
      intro s o d k hk
      obtain ⟨fr, v⟩ := s
      cases fr with
      | nil => rw [searchLoop]
      | cons c f =>
          rw [searchLoop]
          by_cases hgoal : (next_route (c :: f)).last_city_id == d
          · simp only [hgoal, if_true]
            exact ((List.dropLast_sublist (c :: f)).filter _)
          · simp only [hgoal, if_false]
            set cur := next_route (c :: f) with hcurdef
            set v2 := v ++ [cur.last_city_id] with hv2
            have hk2 : k ∈ v2 := List.mem_append_left _ hk
            refine (ih _ o d k hk2).trans ?_
            have heq : (add_routes_for_neighbours ((c :: f).dropLast) v2 cur d).filter
                (fun r => r.last_city_id == k)
                = ((c :: f).dropLast).filter (fun r => r.last_city_id == k) := by
              unfold add_routes_for_neighbours
              apply foldl_add_filter
              intro nb hnb
              rw [child_last]
              have hnbv : nb ∉ v2 := by
                rw [contains_eq] at hnb
                simpa using hnb
              have : nb ≠ k := fun hcontra => hnbv (hcontra ▸ hk2)
              simpa using this
            rw [heq]
            exact ((List.dropLast_sublist (c :: f)).filter _)

/-! ## Sortedness through the whole loop, and the popped minimum -/

theorem ids_unique : ∀ c1 ∈ cities, ∀ c2 ∈ cities, c1.id = c2.id → c1 = c2 :=
  List.inj_on_of_nodup_map keys_nodup

theorem find_city_eq_of_mem {c : City} (hc : c ∈ cities) :
    find_city c.id = some c := by
  rcases find_city_of_mem (List.mem_map.mpr ⟨c, hc, rfl⟩) with ⟨c2, hfc, hid⟩
  rw [hfc, ids_unique c2 (find_city_mem hfc) c hc hid]

theorem searchLoop_sorted :
    ∀ (fuel : ℕ) (s : GPSState) (o d : String), SortedDesc s.fringe →
      SortedDesc ((searchLoop o d fuel s).2.fringe) := by
  intro fuel
  induction fuel with
  | zero =>
      intro s o d hs
      obtain ⟨fr, v⟩ := s
      cases fr with
      | nil => rw [searchLoop]; exact hs
      | cons c f => rw [searchLoop]; exact hs
  | succ n ih =>
      intro s o d hs
      obtain ⟨fr, v⟩ := s
      cases fr with
      | nil => rw [searchLoop]; exact hs
      | cons c f =>
          rw [searchLoop]
          by_cases hgoal : (next_route (c :: f)).last_city_id == d
          · simp only [hgoal, if_true]
            exact hs.sublist (List.dropLast_sublist (c :: f))
          · simp only [hgoal, if_false]
            exact ih _ o d (add_routes_sorted (hs.sublist (List.dropLast_sublist (c :: f))))

theorem sorted_next_route_min :
    ∀ (f : List Route), f ≠ [] → SortedDesc f →
      ∀ r ∈ f, (next_route f).heuristic ≤ r.heuristic := by
  intro f
  induction f with
  | nil => intro h; cases h rfl
  | cons c tail ih =>
      intro _ hs r hr
      cases tail with
      | nil =>
          rcases List.mem_cons.mp hr with rfl | hmem
          · exact le_refl _
          · cases hmem
      | cons c2 tail2 =>
          have hnext : next_route (c :: c2 :: tail2) = next_route (c2 :: tail2) := by
            unfold next_route
            rw [List.getLastD_eq_getLast?, List.getLastD_eq_getLast?,
              List.getLast?_cons_cons]
          rw [hnext]
          rcases List.mem_cons.mp hr with rfl | hmem
          · have hmem2 : next_route (c2 :: tail2) ∈ c2 :: tail2 := by
              rw [next_route_eq_getLast (c2 :: tail2) (by simp)]
              exact List.getLast_mem _
            exact (List.pairwise_cons.mp hs).1 _ hmem2
          · exact ih (by simp) (List.pairwise_cons.mp hs).2 r hmem

/-! ## Claim-level theorems -/

/-- C1 (counterexample): the claim's insertion rule — insert before the
first route of strictly greater score — disagrees with the code's
`add_route` already on a one-route fringe: with scores `5` then `3`,
`add_route` appends (yielding `[5, 3]`), while the claimed rule would
put the new route first (`[3, 5]`). -/
theorem add_route_spec_rule_cex :
    add_route [⟨["a"], 5, 0⟩] ⟨["b"], 3, 0⟩
      ≠ insert_before_first_greater [⟨["a"], 5, 0⟩] ⟨["b"], 3, 0⟩ := by
  have hlt : Route.heuristic ⟨["b"], 3, 0⟩ < Route.heuristic ⟨["a"], 5, 0⟩ := by
    unfold Route.heuristic
    norm_num
  have hnlt : ¬ Route.heuristic ⟨["a"], 5, 0⟩ < Route.heuristic ⟨["b"], 3, 0⟩ := by
    unfold Route.heuristic
    norm_num
  have h1 : add_route [⟨["a"], 5, 0⟩] ⟨["b"], 3, 0⟩
      = [⟨["a"], 5, 0⟩, ⟨["b"], 3, 0⟩] := by
    rw [add_route, if_neg hnlt, add_route]
  have h2 : insert_before_first_greater [⟨["a"], 5, 0⟩] ⟨["b"], 3, 0⟩
      = [⟨["b"], 3, 0⟩, ⟨["a"], 5, 0⟩] := by
    rw [insert_before_first_greater, if_pos hlt]
  rw [h1, h2]
  intro h
  have hinj := (List.cons.injEq _ _ _ _).mp h
  have hfields := Route.mk.injEq _ _ _ _ _ _ |>.mp hinj.1
  have hcontra : (5 : ℝ) = 3 := hfields.2.1
  norm_num at hcontra

/-- C1 (amended): `add_route` scans from index 0 and inserts the new
route immediately before the first stored route whose score is strictly
SMALLER than the new route's score; if there is none it appends at the
end.  Equivalently, the fringe splits as the maximal front segment of
routes with score not smaller than the new score, then the new route,
then the rest. -/
theorem add_route_insert_before_first_smaller :
    ∀ (f : List Route) (r : Route),
      add_route f r
        = f.takeWhile (fun c => !decide (c.heuristic < r.heuristic))
            ++ r :: f.dropWhile (fun c => !decide (c.heuristic < r.heuristic)) := by
  intro f r
  induction f with
  | nil => rfl
  | cons c rest ih =>
      unfold add_route
      by_cases h : c.heuristic < r.heuristic
      · rw [if_pos h, List.takeWhile_cons, List.dropWhile_cons]
        have hb : (!decide (c.heuristic < r.heuristic)) = false := by
          simp [h]
        rw [hb]
        rfl
      · rw [if_neg h, List.takeWhile_cons, List.dropWhile_cons]
        have hb : (!decide (c.heuristic < r.heuristic)) = true := by
          simp [h]
        rw [hb]
        simp only [if_true]
        rw [List.cons_append, ih]

/-- C3: the fringe keeps non-increasing score order at all times
(`add_route` preserves it, and so does every step of the search loop),
hence `next_route`, which pops the last element, always returns a route
of minimal score; and a route whose score is less than or equal to every
stored score is appended at the very end, so among equal minimal scores
the most recently inserted route is the one popped next. -/
theorem fringe_sorted_pop_min :
    (∀ (f : List Route) (r : Route), SortedDesc f → SortedDesc (add_route f r)) ∧
    (∀ (o d : String) (fuel : ℕ) (s : GPSState), SortedDesc s.fringe →
      SortedDesc ((searchLoop o d fuel s).2.fringe)) ∧
    (∀ (f : List Route), f ≠ [] → SortedDesc f →
      ∀ r ∈ f, (next_route f).heuristic ≤ r.heuristic) ∧
    (∀ (f : List Route) (r : Route), (∀ x ∈ f, r.heuristic ≤ x.heuristic) →
      add_route f r = f ++ [r]) :=
  ⟨fun _ r hs => add_route_sorted hs,
   fun o d fuel s hs => searchLoop_sorted fuel s o d hs,
   sorted_next_route_min,
   fun _ _ h => add_route_append_of_min h⟩

/-- Witness for C3 at concrete inputs. -/
theorem fringe_sorted_pop_min_witness :
    SortedDesc (add_route [⟨["a"], 5, 0⟩] ⟨["b"], 3, 0⟩) ∧
    SortedDesc ((searchLoop "a" "b" 0 ⟨[⟨["a"], 5, 0⟩], []⟩).2.fringe) ∧
    (next_route [⟨["a"], 5, 0⟩, ⟨["b"], 3, 0⟩]).heuristic
      ≤ (⟨["a"], 5, 0⟩ : Route).heuristic ∧
    add_route [⟨["a"], 5, 0⟩] ⟨["b"], 3, 0⟩
      = [⟨["a"], 5, 0⟩] ++ [⟨["b"], 3, 0⟩] := by
  refine ⟨fringe_sorted_pop_min.1 _ _ ?_, fringe_sorted_pop_min.2.1 _ _ _ _ ?_,
    fringe_sorted_pop_min.2.2.1 _ (by simp) ?_ _ (by simp), fringe_sorted_pop_min.2.2.2 _ _ ?_⟩
  · unfold SortedDesc
    simp
  · unfold SortedDesc
    simp
  · unfold SortedDesc
    refine List.pairwise_cons.mpr ⟨?_, by simp⟩
    intro y hy
    rcases List.mem_cons.mp hy with rfl | hy
    · unfold Route.heuristic
      norm_num
    · cases hy
  · intro x hx
    rcases List.mem_cons.mp hx with rfl | hx
    · unfold Route.heuristic
      norm_num
    · cases hx

/-- C9: `get_neighbours` never raises (it is a total function in the
model): it returns the stored adjacency list of the city carrying the
requested id, and the empty list when no city has that id. -/
theorem get_neighbours_spec :
    ∀ id : String,
      (∀ c ∈ cities, c.id = id → get_neighbours id = c.neighbours) ∧
      (id ∉ keys → get_neighbours id = []) := by
  intro id
  constructor
  · intro c hc hcid
    unfold get_neighbours
    rw [← hcid, find_city_eq_of_mem hc]
  · intro hid
    unfold get_neighbours
    rw [find_city_none_iff.mpr hid]

/-- Witness for C9: a present key returns its adjacency list, an absent
key returns the empty list. -/
theorem mem_cities_Goiania :
    (⟨"Goiania", -16.69, -49.25, ["Hidrolandia", "BelaVista"]⟩ : City) ∈ cities := by
  unfold cities
  exact List.mem_cons_self _ _

theorem mem_cities_Hidrolandia :
    (⟨"Hidrolandia", -16.97, -49.22, ["Goiania", "ProfJamil", "BelaVista"]⟩ : City) ∈ cities := by
  unfold cities
  exact List.mem_cons_of_mem _ (List.mem_cons_self _ _)

theorem get_neighbours_spec_witness :
    get_neighbours "Goiania" = ["Hidrolandia", "BelaVista"] ∧
    get_neighbours "Uberlandia" = [] := by
  refine ⟨(get_neighbours_spec "Goiania").1
    ⟨"Goiania", -16.69, -49.25, ["Hidrolandia", "BelaVista"]⟩ mem_cities_Goiania rfl,
    (get_neighbours_spec "Uberlandia").2 (by decide)⟩

/-- C10: `calc_cartesian_distance` fails (raises, modelled `none`) exactly
when one of the two keys names no city; on present keys it returns
`sqrt ((latA - latB)^2 + (lonA - lonB)^2)` computed from the two stored
coordinate pairs, never a default. -/
theorem calc_cartesian_distance_spec :
    ∀ a b : String,
      (calc_cartesian_distance a b = none ↔ a ∉ keys ∨ b ∉ keys) ∧
      (∀ ca ∈ cities, ∀ cb ∈ cities, ca.id = a → cb.id = b →
        calc_cartesian_distance a b
          = some (Real.sqrt (((ca.lat - cb.lat) ^ 2 + (ca.lon - cb.lon) ^ 2 : ℚ) : ℝ))) := by
  intro a b
  refine ⟨calc_none_iff, ?_⟩
  intro ca hca cb hcb hcaid hcbid
  unfold calc_cartesian_distance
  rw [← hcaid, ← hcbid, find_city_eq_of_mem hca, find_city_eq_of_mem hcb]
  rfl

/-- Witness for C10: a concrete present pair and the `none` direction on
an absent key. -/
theorem calc_cartesian_distance_spec_witness :
    calc_cartesian_distance "Goiania" "Hidrolandia"
      = some (Real.sqrt ((((-16.69 : ℚ) - (-16.97)) ^ 2
          + ((-49.25 : ℚ) - (-49.22)) ^ 2 : ℚ) : ℝ)) ∧
    calc_cartesian_distance "Uberlandia" "Goiania" = none := by
  constructor
  · exact (calc_cartesian_distance_spec "Goiania" "Hidrolandia").2
      ⟨"Goiania", -16.69, -49.25, ["Hidrolandia", "BelaVista"]⟩ mem_cities_Goiania
      ⟨"Hidrolandia", -16.97, -49.22, ["Goiania", "ProfJamil", "BelaVista"]⟩ mem_cities_Hidrolandia
      rfl rfl
  · exact (calc_cartesian_distance_spec "Uberlandia" "Goiania").1.mpr
      (Or.inl (by decide))

/-- C8: during one search, once a key `k` is on the visited list (and `k`
is not the origin that the call itself enqueues before the loop starts),
no route ending at `k` is ever inserted into the fringe: the routes
ending at `k` still on the fringe afterwards are a sublist of those that
were already there. -/
theorem visited_exclusion :
    ∀ (s : GPSState) (o d k : String), k ∈ s.visited → k ≠ o →
      (((search s o d).2.fringe.filter (fun r => r.last_city_id == k)).Sublist
        (s.fringe.filter (fun r => r.last_city_id == k))) := by
  intro s o d k hk hko
  unfold search
  cases hcd : calc_cartesian_distance o d with
  | none => exact List.Sublist.refl _
  | some e =>
      have hini : (Route.last_city_id ⟨[o], 0, e⟩ == k) = false := by
        have : Route.last_city_id ⟨[o], 0, e⟩ = o := rfl
        rw [this]
        simpa using fun h => hko h.symm
      have heq : (add_route s.fringe ⟨[o], 0, e⟩).filter (fun r => r.last_city_id == k)
          = s.fringe.filter (fun r => r.last_city_id == k) :=
        add_route_filter hini
      have := searchLoop_filter_sublist (potM (add_route s.fringe ⟨[o], 0, e⟩) + 1)
        ⟨add_route s.fringe ⟨[o], 0, e⟩, s.visited⟩ o d k hk
      rw [heq] at this
      exact this

/-- Witness for C8 at a concrete dirty state. -/
theorem visited_exclusion_witness :
    (((search ⟨[], ["Goiania"]⟩ "BelaVista" "Hidrolandia").2.fringe.filter
        (fun r => r.last_city_id == "Goiania")).Sublist
      (((⟨[], ["Goiania"]⟩ : GPSState)).fringe.filter
        (fun r => r.last_city_id == "Goiania"))) :=
  visited_exclusion ⟨[], ["Goiania"]⟩ "BelaVista" "Hidrolandia" "Goiania"
    (by decide) (by decide)

/-- C5: searching from a node to itself on a freshly initialized engine
returns the one-element route `[k]` with cost 0 (and estimate
`distance(k, k) = 0`): the very first popped route passes the goal test;
the final state still has an empty fringe and an empty visited list. -/
theorem search_same_origin_destination :
    ∀ k ∈ keys, search initState k k = (.found ⟨[k], 0, 0⟩, ⟨[], []⟩) := by
  intro k hk
  rcases find_city_of_mem hk with ⟨ck, hck, _⟩
  have hcalc : calc_cartesian_distance k k = some (dist k k) := calc_eq_dist hck hck
  have hdist : dist k k = 0 := dist_self k
  unfold search
  rw [hcalc]
  show searchLoop k k (potM [⟨[k], 0, dist k k⟩] + 1) ⟨[⟨[k], 0, dist k k⟩], []⟩
      = (.found ⟨[k], 0, 0⟩, ⟨[], []⟩)
  rw [searchLoop]
  have hnext : next_route [(⟨[k], 0, dist k k⟩ : Route)] = ⟨[k], 0, dist k k⟩ := rfl
  have hlast : (⟨[k], 0, dist k k⟩ : Route).last_city_id = k := rfl
  simp only [hnext, hlast, beq_self_eq_true, if_true]
  rw [hdist]
  rfl

/-- Witness for C5 at the concrete key `"Goiania"`. -/
theorem search_same_origin_destination_witness :
    search initState "Goiania" "Goiania"
      = (.found ⟨["Goiania"], 0, 0⟩, ⟨[], []⟩) :=
  search_same_origin_destination "Goiania" (by decide)

/-! ## Distance evaluation and strict triangle certificates -/

theorem dist_eq_of_cities {a b : String} {ca cb : City}
    (hca : find_city a = some ca) (hcb : find_city b = some cb) :
    dist a b = Real.sqrt ((sq_dist ca cb : ℚ) : ℝ) := by
  unfold dist cityD
  rw [hca, hcb]
  simp

theorem sqrt_le_of_sq_le {x u : ℝ} (hu : 0 ≤ u) (h : x ≤ u ^ 2) : Real.sqrt x ≤ u := by
  calc Real.sqrt x ≤ Real.sqrt (u ^ 2) := Real.sqrt_le_sqrt h
    _ = u := Real.sqrt_sq hu

theorem le_sqrt_of_sq_le {x w : ℝ} (hw : 0 ≤ w) (h : w ^ 2 ≤ x) : w ≤ Real.sqrt x := by
  calc w = Real.sqrt (w ^ 2) := (Real.sqrt_sq hw).symm
    _ ≤ Real.sqrt x := Real.sqrt_le_sqrt h

theorem fc_Goiania :
    find_city "Goiania" = some ⟨"Goiania", -16.69, -49.25, ["Hidrolandia", "BelaVista"]⟩ := by
  rfl

theorem fc_Hidrolandia :
    find_city "Hidrolandia" = some ⟨"Hidrolandia", -16.97, -49.22, ["Goiania", "ProfJamil", "BelaVista"]⟩ := by
  rfl

theorem fc_BelaVista :
    find_city "BelaVista" = some ⟨"BelaVista", -16.97, -48.97, ["Goiania", "Hidrolandia", "Piracanjuba", "Cristianopolis"]⟩ := by
  rfl

theorem fc_ProfJamil :
    find_city "ProfJamil" = some ⟨"ProfJamil", -17.25, -49.25, ["Hidrolandia", "Morrinhos", "Piracanjuba"]⟩ := by
  rfl

theorem fc_Cristianopolis :
    find_city "Cristianopolis" = some ⟨"Cristianopolis", -17.19, -48.70, ["BelaVista", "Piracanjuba", "CaldasNovas"]⟩ := by
  rfl

theorem fc_Piracanjuba :
    find_city "Piracanjuba" = some ⟨"Piracanjuba", -17.30, -49.02, ["BelaVista", "ProfJamil", "CaldasNovas", "Cristianopolis", "Formiga"]⟩ := by
  rfl

theorem fc_Formiga :
    find_city "Formiga" = some ⟨"Formiga", -17.65, -49.08, ["Piracanjuba"]⟩ := by
  rfl

theorem fc_Morrinhos :
    find_city "Morrinhos" = some ⟨"Morrinhos", -17.73, -49.12, ["ProfJamil", "CaldasNovas"]⟩ := by
  rfl

theorem fc_CaldasNovas :
    find_city "CaldasNovas" = some ⟨"CaldasNovas", -17.74, -48.62, ["Cristianopolis", "Piracanjuba", "Morrinhos"]⟩ := by
  rfl

theorem nbrs_Goiania :
    get_neighbours "Goiania" = ["Hidrolandia", "BelaVista"] := by
  rfl

theorem nbrs_Hidrolandia :
    get_neighbours "Hidrolandia" = ["Goiania", "ProfJamil", "BelaVista"] := by
  rfl

theorem nbrs_BelaVista :
    get_neighbours "BelaVista" = ["Goiania", "Hidrolandia", "Piracanjuba", "Cristianopolis"] := by
  rfl

theorem nbrs_ProfJamil :
    get_neighbours "ProfJamil" = ["Hidrolandia", "Morrinhos", "Piracanjuba"] := by
  rfl

theorem nbrs_Cristianopolis :
    get_neighbours "Cristianopolis" = ["BelaVista", "Piracanjuba", "CaldasNovas"] := by
  rfl

theorem nbrs_Piracanjuba :
    get_neighbours "Piracanjuba" = ["BelaVista", "ProfJamil", "CaldasNovas", "Cristianopolis", "Formiga"] := by
  rfl

theorem nbrs_Formiga :
    get_neighbours "Formiga" = ["Piracanjuba"] := by
  rfl

theorem nbrs_Morrinhos :
    get_neighbours "Morrinhos" = ["ProfJamil", "CaldasNovas"] := by
  rfl

theorem nbrs_CaldasNovas :
    get_neighbours "CaldasNovas" = ["Cristianopolis", "Piracanjuba", "Morrinhos"] := by
  rfl

theorem dq_BelaVista_CaldasNovas :
    dist "BelaVista" "CaldasNovas" = Real.sqrt ((3577/5000 : ℚ) : ℝ) := by
  rw [dist_eq_of_cities fc_BelaVista fc_CaldasNovas]
  have h : sq_dist ⟨"BelaVista", -16.97, -48.97, ["Goiania", "Hidrolandia", "Piracanjuba", "Cristianopolis"]⟩
      ⟨"CaldasNovas", -17.74, -48.62, ["Cristianopolis", "Piracanjuba", "Morrinhos"]⟩ = 3577/5000 := by
    norm_num [sq_dist]
  rw [h]

theorem dq_BelaVista_Cristianopolis :
    dist "BelaVista" "Cristianopolis" = Real.sqrt ((1213/10000 : ℚ) : ℝ) := by
  rw [dist_eq_of_cities fc_BelaVista fc_Cristianopolis]
  have h : sq_dist ⟨"BelaVista", -16.97, -48.97, ["Goiania", "Hidrolandia", "Piracanjuba", "Cristianopolis"]⟩
      ⟨"Cristianopolis", -17.19, -48.70, ["BelaVista", "Piracanjuba", "CaldasNovas"]⟩ = 1213/10000 := by
    norm_num [sq_dist]
  rw [h]

theorem dq_BelaVista_Formiga :
    dist "BelaVista" "Formiga" = Real.sqrt ((949/2000 : ℚ) : ℝ) := by
  rw [dist_eq_of_cities fc_BelaVista fc_Formiga]
  have h : sq_dist ⟨"BelaVista", -16.97, -48.97, ["Goiania", "Hidrolandia", "Piracanjuba", "Cristianopolis"]⟩
      ⟨"Formiga", -17.65, -49.08, ["Piracanjuba"]⟩ = 949/2000 := by
    norm_num [sq_dist]
  rw [h]

theorem dq_BelaVista_Goiania :
    dist "BelaVista" "Goiania" = Real.sqrt ((98/625 : ℚ) : ℝ) := by
  rw [dist_eq_of_cities fc_BelaVista fc_Goiania]
  have h : sq_dist ⟨"BelaVista", -16.97, -48.97, ["Goiania", "Hidrolandia", "Piracanjuba", "Cristianopolis"]⟩
      ⟨"Goiania", -16.69, -49.25, ["Hidrolandia", "BelaVista"]⟩ = 98/625 := by
    norm_num [sq_dist]
  rw [h]

theorem dq_BelaVista_Hidrolandia :
    dist "BelaVista" "Hidrolandia" = Real.sqrt ((1/16 : ℚ) : ℝ) := by
  rw [dist_eq_of_cities fc_BelaVista fc_Hidrolandia]
  have h : sq_dist ⟨"BelaVista", -16.97, -48.97, ["Goiania", "Hidrolandia", "Piracanjuba", "Cristianopolis"]⟩
      ⟨"Hidrolandia", -16.97, -49.22, ["Goiania", "ProfJamil", "BelaVista"]⟩ = 1/16 := by
    norm_num [sq_dist]
  rw [h]

theorem dq_BelaVista_Piracanjuba :
    dist "BelaVista" "Piracanjuba" = Real.sqrt ((557/5000 : ℚ) : ℝ) := by
  rw [dist_eq_of_cities fc_BelaVista fc_Piracanjuba]
  have h : sq_dist ⟨"BelaVista", -16.97, -48.97, ["Goiania", "Hidrolandia", "Piracanjuba", "Cristianopolis"]⟩
      ⟨"Piracanjuba", -17.30, -49.02, ["BelaVista", "ProfJamil", "CaldasNovas", "Cristianopolis", "Formiga"]⟩ = 557/5000 := by
    norm_num [sq_dist]
  rw [h]

theorem dq_BelaVista_ProfJamil :
    dist "BelaVista" "ProfJamil" = Real.sqrt ((98/625 : ℚ) : ℝ) := by
  rw [dist_eq_of_cities fc_BelaVista fc_ProfJamil]
  have h : sq_dist ⟨"BelaVista", -16.97, -48.97, ["Goiania", "Hidrolandia", "Piracanjuba", "Cristianopolis"]⟩
      ⟨"ProfJamil", -17.25, -49.25, ["Hidrolandia", "Morrinhos", "Piracanjuba"]⟩ = 98/625 := by
    norm_num [sq_dist]
  rw [h]

theorem dq_CaldasNovas_BelaVista :
    dist "CaldasNovas" "BelaVista" = Real.sqrt ((3577/5000 : ℚ) : ℝ) := by
  rw [dist_eq_of_cities fc_CaldasNovas fc_BelaVista]
  have h : sq_dist ⟨"CaldasNovas", -17.74, -48.62, ["Cristianopolis", "Piracanjuba", "Morrinhos"]⟩
      ⟨"BelaVista", -16.97, -48.97, ["Goiania", "Hidrolandia", "Piracanjuba", "Cristianopolis"]⟩ = 3577/5000 := by
    norm_num [sq_dist]
  rw [h]

theorem dq_CaldasNovas_Cristianopolis :
    dist "CaldasNovas" "Cristianopolis" = Real.sqrt ((3089/10000 : ℚ) : ℝ) := by
  rw [dist_eq_of_cities fc_CaldasNovas fc_Cristianopolis]
  have h : sq_dist ⟨"CaldasNovas", -17.74, -48.62, ["Cristianopolis", "Piracanjuba", "Morrinhos"]⟩
      ⟨"Cristianopolis", -17.19, -48.70, ["BelaVista", "Piracanjuba", "CaldasNovas"]⟩ = 3089/10000 := by
    norm_num [sq_dist]
  rw [h]

theorem dq_CaldasNovas_Formiga :
    dist "CaldasNovas" "Formiga" = Real.sqrt ((2197/10000 : ℚ) : ℝ) := by
  rw [dist_eq_of_cities fc_CaldasNovas fc_Formiga]
  have h : sq_dist ⟨"CaldasNovas", -17.74, -48.62, ["Cristianopolis", "Piracanjuba", "Morrinhos"]⟩
      ⟨"Formiga", -17.65, -49.08, ["Piracanjuba"]⟩ = 2197/10000 := by
    norm_num [sq_dist]
  rw [h]

theorem dq_CaldasNovas_Morrinhos :
    dist "CaldasNovas" "Morrinhos" = Real.sqrt ((2501/10000 : ℚ) : ℝ) := by
  rw [dist_eq_of_cities fc_CaldasNovas fc_Morrinhos]
  have h : sq_dist ⟨"CaldasNovas", -17.74, -48.62, ["Cristianopolis", "Piracanjuba", "Morrinhos"]⟩
      ⟨"Morrinhos", -17.73, -49.12, ["ProfJamil", "CaldasNovas"]⟩ = 2501/10000 := by
    norm_num [sq_dist]
  rw [h]

theorem dq_CaldasNovas_Piracanjuba :
    dist "CaldasNovas" "Piracanjuba" = Real.sqrt ((221/625 : ℚ) : ℝ) := by
  rw [dist_eq_of_cities fc_CaldasNovas fc_Piracanjuba]
  have h : sq_dist ⟨"CaldasNovas", -17.74, -48.62, ["Cristianopolis", "Piracanjuba", "Morrinhos"]⟩
      ⟨"Piracanjuba", -17.30, -49.02, ["BelaVista", "ProfJamil", "CaldasNovas", "Cristianopolis", "Formiga"]⟩ = 221/625 := by
    norm_num [sq_dist]
  rw [h]

theorem dq_CaldasNovas_ProfJamil :
    dist "CaldasNovas" "ProfJamil" = Real.sqrt ((637/1000 : ℚ) : ℝ) := by
  rw [dist_eq_of_cities fc_CaldasNovas fc_ProfJamil]
  have h : sq_dist ⟨"CaldasNovas", -17.74, -48.62, ["Cristianopolis", "Piracanjuba", "Morrinhos"]⟩
      ⟨"ProfJamil", -17.25, -49.25, ["Hidrolandia", "Morrinhos", "Piracanjuba"]⟩ = 637/1000 := by
    norm_num [sq_dist]
  rw [h]

theorem dq_Cristianopolis_BelaVista :
    dist "Cristianopolis" "BelaVista" = Real.sqrt ((1213/10000 : ℚ) : ℝ) := by
  rw [dist_eq_of_cities fc_Cristianopolis fc_BelaVista]
  have h : sq_dist ⟨"Cristianopolis", -17.19, -48.70, ["BelaVista", "Piracanjuba", "CaldasNovas"]⟩
      ⟨"BelaVista", -16.97, -48.97, ["Goiania", "Hidrolandia", "Piracanjuba", "Cristianopolis"]⟩ = 1213/10000 := by
    norm_num [sq_dist]
  rw [h]

theorem dq_Cristianopolis_CaldasNovas :
    dist "Cristianopolis" "CaldasNovas" = Real.sqrt ((3089/10000 : ℚ) : ℝ) := by
  rw [dist_eq_of_cities fc_Cristianopolis fc_CaldasNovas]
  have h : sq_dist ⟨"Cristianopolis", -17.19, -48.70, ["BelaVista", "Piracanjuba", "CaldasNovas"]⟩
      ⟨"CaldasNovas", -17.74, -48.62, ["Cristianopolis", "Piracanjuba", "Morrinhos"]⟩ = 3089/10000 := by
    norm_num [sq_dist]
  rw [h]

theorem dq_Cristianopolis_Formiga :
    dist "Cristianopolis" "Formiga" = Real.sqrt ((89/250 : ℚ) : ℝ) := by
  rw [dist_eq_of_cities fc_Cristianopolis fc_Formiga]
  have h : sq_dist ⟨"Cristianopolis", -17.19, -48.70, ["BelaVista", "Piracanjuba", "CaldasNovas"]⟩
      ⟨"Formiga", -17.65, -49.08, ["Piracanjuba"]⟩ = 89/250 := by
    norm_num [sq_dist]
  rw [h]

theorem dq_Cristianopolis_Goiania :
    dist "Cristianopolis" "Goiania" = Real.sqrt ((221/400 : ℚ) : ℝ) := by
  rw [dist_eq_of_cities fc_Cristianopolis fc_Goiania]
  have h : sq_dist ⟨"Cristianopolis", -17.19, -48.70, ["BelaVista", "Piracanjuba", "CaldasNovas"]⟩
      ⟨"Goiania", -16.69, -49.25, ["Hidrolandia", "BelaVista"]⟩ = 221/400 := by
    norm_num [sq_dist]
  rw [h]

theorem dq_Cristianopolis_Hidrolandia :
    dist "Cristianopolis" "Hidrolandia" = Real.sqrt ((797/2500 : ℚ) : ℝ) := by
  rw [dist_eq_of_cities fc_Cristianopolis fc_Hidrolandia]
  have h : sq_dist ⟨"Cristianopolis", -17.19, -48.70, ["BelaVista", "Piracanjuba", "CaldasNovas"]⟩
      ⟨"Hidrolandia", -16.97, -49.22, ["Goiania", "ProfJamil", "BelaVista"]⟩ = 797/2500 := by
    norm_num [sq_dist]
  rw [h]

theorem dq_Cristianopolis_Morrinhos :
    dist "Cristianopolis" "Morrinhos" = Real.sqrt ((117/250 : ℚ) : ℝ) := by
  rw [dist_eq_of_cities fc_Cristianopolis fc_Morrinhos]
  have h : sq_dist ⟨"Cristianopolis", -17.19, -48.70, ["BelaVista", "Piracanjuba", "CaldasNovas"]⟩
      ⟨"Morrinhos", -17.73, -49.12, ["ProfJamil", "CaldasNovas"]⟩ = 117/250 := by
    norm_num [sq_dist]
  rw [h]

theorem dq_Cristianopolis_Piracanjuba :
    dist "Cristianopolis" "Piracanjuba" = Real.sqrt ((229/2000 : ℚ) : ℝ) := by
  rw [dist_eq_of_cities fc_Cristianopolis fc_Piracanjuba]
  have h : sq_dist ⟨"Cristianopolis", -17.19, -48.70, ["BelaVista", "Piracanjuba", "CaldasNovas"]⟩
      ⟨"Piracanjuba", -17.30, -49.02, ["BelaVista", "ProfJamil", "CaldasNovas", "Cristianopolis", "Formiga"]⟩ = 229/2000 := by
    norm_num [sq_dist]
  rw [h]

theorem dq_Cristianopolis_ProfJamil :
    dist "Cristianopolis" "ProfJamil" = Real.sqrt ((3061/10000 : ℚ) : ℝ) := by
  rw [dist_eq_of_cities fc_Cristianopolis fc_ProfJamil]
  have h : sq_dist ⟨"Cristianopolis", -17.19, -48.70, ["BelaVista", "Piracanjuba", "CaldasNovas"]⟩
      ⟨"ProfJamil", -17.25, -49.25, ["Hidrolandia", "Morrinhos", "Piracanjuba"]⟩ = 3061/10000 := by
    norm_num [sq_dist]
  rw [h]

theorem dq_Formiga_BelaVista :
    dist "Formiga" "BelaVista" = Real.sqrt ((949/2000 : ℚ) : ℝ) := by
  rw [dist_eq_of_cities fc_Formiga fc_BelaVista]
  have h : sq_dist ⟨"Formiga", -17.65, -49.08, ["Piracanjuba"]⟩
      ⟨"BelaVista", -16.97, -48.97, ["Goiania", "Hidrolandia", "Piracanjuba", "Cristianopolis"]⟩ = 949/2000 := by
    norm_num [sq_dist]
  rw [h]

theorem dq_Formiga_CaldasNovas :
    dist "Formiga" "CaldasNovas" = Real.sqrt ((2197/10000 : ℚ) : ℝ) := by
  rw [dist_eq_of_cities fc_Formiga fc_CaldasNovas]
  have h : sq_dist ⟨"Formiga", -17.65, -49.08, ["Piracanjuba"]⟩
      ⟨"CaldasNovas", -17.74, -48.62, ["Cristianopolis", "Piracanjuba", "Morrinhos"]⟩ = 2197/10000 := by
    norm_num [sq_dist]
  rw [h]

theorem dq_Formiga_Cristianopolis :
    dist "Formiga" "Cristianopolis" = Real.sqrt ((89/250 : ℚ) : ℝ) := by
  rw [dist_eq_of_cities fc_Formiga fc_Cristianopolis]
  have h : sq_dist ⟨"Formiga", -17.65, -49.08, ["Piracanjuba"]⟩
      ⟨"Cristianopolis", -17.19, -48.70, ["BelaVista", "Piracanjuba", "CaldasNovas"]⟩ = 89/250 := by
    norm_num [sq_dist]
  rw [h]

theorem dq_Formiga_ProfJamil :
    dist "Formiga" "ProfJamil" = Real.sqrt ((1889/10000 : ℚ) : ℝ) := by
  rw [dist_eq_of_cities fc_Formiga fc_ProfJamil]
  have h : sq_dist ⟨"Formiga", -17.65, -49.08, ["Piracanjuba"]⟩
      ⟨"ProfJamil", -17.25, -49.25, ["Hidrolandia", "Morrinhos", "Piracanjuba"]⟩ = 1889/10000 := by
    norm_num [sq_dist]
  rw [h]

theorem dq_Goiania_BelaVista :
    dist "Goiania" "BelaVista" = Real.sqrt ((98/625 : ℚ) : ℝ) := by
  rw [dist_eq_of_cities fc_Goiania fc_BelaVista]
  have h : sq_dist ⟨"Goiania", -16.69, -49.25, ["Hidrolandia", "BelaVista"]⟩
      ⟨"BelaVista", -16.97, -48.97, ["Goiania", "Hidrolandia", "Piracanjuba", "Cristianopolis"]⟩ = 98/625 := by
    norm_num [sq_dist]
  rw [h]

theorem dq_Goiania_Cristianopolis :
    dist "Goiania" "Cristianopolis" = Real.sqrt ((221/400 : ℚ) : ℝ) := by
  rw [dist_eq_of_cities fc_Goiania fc_Cristianopolis]
  have h : sq_dist ⟨"Goiania", -16.69, -49.25, ["Hidrolandia", "BelaVista"]⟩
      ⟨"Cristianopolis", -17.19, -48.70, ["BelaVista", "Piracanjuba", "CaldasNovas"]⟩ = 221/400 := by
    norm_num [sq_dist]
  rw [h]

theorem dq_Goiania_Hidrolandia :
    dist "Goiania" "Hidrolandia" = Real.sqrt ((793/10000 : ℚ) : ℝ) := by
  rw [dist_eq_of_cities fc_Goiania fc_Hidrolandia]
  have h : sq_dist ⟨"Goiania", -16.69, -49.25, ["Hidrolandia", "BelaVista"]⟩
      ⟨"Hidrolandia", -16.97, -49.22, ["Goiania", "ProfJamil", "BelaVista"]⟩ = 793/10000 := by
    norm_num [sq_dist]
  rw [h]

theorem dq_Goiania_Piracanjuba :
    dist "Goiania" "Piracanjuba" = Real.sqrt ((17/40 : ℚ) : ℝ) := by
  rw [dist_eq_of_cities fc_Goiania fc_Piracanjuba]
  have h : sq_dist ⟨"Goiania", -16.69, -49.25, ["Hidrolandia", "BelaVista"]⟩
      ⟨"Piracanjuba", -17.30, -49.02, ["BelaVista", "ProfJamil", "CaldasNovas", "Cristianopolis", "Formiga"]⟩ = 17/40 := by
    norm_num [sq_dist]
  rw [h]

theorem dq_Goiania_ProfJamil :
    dist "Goiania" "ProfJamil" = Real.sqrt ((196/625 : ℚ) : ℝ) := by
  rw [dist_eq_of_cities fc_Goiania fc_ProfJamil]
  have h : sq_dist ⟨"Goiania", -16.69, -49.25, ["Hidrolandia", "BelaVista"]⟩
      ⟨"ProfJamil", -17.25, -49.25, ["Hidrolandia", "Morrinhos", "Piracanjuba"]⟩ = 196/625 := by
    norm_num [sq_dist]
  rw [h]

theorem dq_Hidrolandia_BelaVista :
    dist "Hidrolandia" "BelaVista" = Real.sqrt ((1/16 : ℚ) : ℝ) := by
  rw [dist_eq_of_cities fc_Hidrolandia fc_BelaVista]
  have h : sq_dist ⟨"Hidrolandia", -16.97, -49.22, ["Goiania", "ProfJamil", "BelaVista"]⟩
      ⟨"BelaVista", -16.97, -48.97, ["Goiania", "Hidrolandia", "Piracanjuba", "Cristianopolis"]⟩ = 1/16 := by
    norm_num [sq_dist]
  rw [h]

theorem dq_Hidrolandia_Cristianopolis :
    dist "Hidrolandia" "Cristianopolis" = Real.sqrt ((797/2500 : ℚ) : ℝ) := by
  rw [dist_eq_of_cities fc_Hidrolandia fc_Cristianopolis]
  have h : sq_dist ⟨"Hidrolandia", -16.97, -49.22, ["Goiania", "ProfJamil", "BelaVista"]⟩
      ⟨"Cristianopolis", -17.19, -48.70, ["BelaVista", "Piracanjuba", "CaldasNovas"]⟩ = 797/2500 := by
    norm_num [sq_dist]
  rw [h]

theorem dq_Hidrolandia_Goiania :
    dist "Hidrolandia" "Goiania" = Real.sqrt ((793/10000 : ℚ) : ℝ) := by
  rw [dist_eq_of_cities fc_Hidrolandia fc_Goiania]
  have h : sq_dist ⟨"Hidrolandia", -16.97, -49.22, ["Goiania", "ProfJamil", "BelaVista"]⟩
      ⟨"Goiania", -16.69, -49.25, ["Hidrolandia", "BelaVista"]⟩ = 793/10000 := by
    norm_num [sq_dist]
  rw [h]

theorem dq_Hidrolandia_Morrinhos :
    dist "Hidrolandia" "Morrinhos" = Real.sqrt ((1469/2500 : ℚ) : ℝ) := by
  rw [dist_eq_of_cities fc_Hidrolandia fc_Morrinhos]
  have h : sq_dist ⟨"Hidrolandia", -16.97, -49.22, ["Goiania", "ProfJamil", "BelaVista"]⟩
      ⟨"Morrinhos", -17.73, -49.12, ["ProfJamil", "CaldasNovas"]⟩ = 1469/2500 := by
    norm_num [sq_dist]
  rw [h]

theorem dq_Hidrolandia_Piracanjuba :
    dist "Hidrolandia" "Piracanjuba" = Real.sqrt ((1489/10000 : ℚ) : ℝ) := by
  rw [dist_eq_of_cities fc_Hidrolandia fc_Piracanjuba]
  have h : sq_dist ⟨"Hidrolandia", -16.97, -49.22, ["Goiania", "ProfJamil", "BelaVista"]⟩
      ⟨"Piracanjuba", -17.30, -49.02, ["BelaVista", "ProfJamil", "CaldasNovas", "Cristianopolis", "Formiga"]⟩ = 1489/10000 := by
    norm_num [sq_dist]
  rw [h]

theorem dq_Hidrolandia_ProfJamil :
    dist "Hidrolandia" "ProfJamil" = Real.sqrt ((793/10000 : ℚ) : ℝ) := by
  rw [dist_eq_of_cities fc_Hidrolandia fc_ProfJamil]
  have h : sq_dist ⟨"Hidrolandia", -16.97, -49.22, ["Goiania", "ProfJamil", "BelaVista"]⟩
      ⟨"ProfJamil", -17.25, -49.25, ["Hidrolandia", "Morrinhos", "Piracanjuba"]⟩ = 793/10000 := by
    norm_num [sq_dist]
  rw [h]

theorem dq_Morrinhos_CaldasNovas :
    dist "Morrinhos" "CaldasNovas" = Real.sqrt ((2501/10000 : ℚ) : ℝ) := by
  rw [dist_eq_of_cities fc_Morrinhos fc_CaldasNovas]
  have h : sq_dist ⟨"Morrinhos", -17.73, -49.12, ["ProfJamil", "CaldasNovas"]⟩
      ⟨"CaldasNovas", -17.74, -48.62, ["Cristianopolis", "Piracanjuba", "Morrinhos"]⟩ = 2501/10000 := by
    norm_num [sq_dist]
  rw [h]

theorem dq_Morrinhos_Cristianopolis :
    dist "Morrinhos" "Cristianopolis" = Real.sqrt ((117/250 : ℚ) : ℝ) := by
  rw [dist_eq_of_cities fc_Morrinhos fc_Cristianopolis]
  have h : sq_dist ⟨"Morrinhos", -17.73, -49.12, ["ProfJamil", "CaldasNovas"]⟩
      ⟨"Cristianopolis", -17.19, -48.70, ["BelaVista", "Piracanjuba", "CaldasNovas"]⟩ = 117/250 := by
    norm_num [sq_dist]
  rw [h]

theorem dq_Morrinhos_Hidrolandia :
    dist "Morrinhos" "Hidrolandia" = Real.sqrt ((1469/2500 : ℚ) : ℝ) := by
  rw [dist_eq_of_cities fc_Morrinhos fc_Hidrolandia]
  have h : sq_dist ⟨"Morrinhos", -17.73, -49.12, ["ProfJamil", "CaldasNovas"]⟩
      ⟨"Hidrolandia", -16.97, -49.22, ["Goiania", "ProfJamil", "BelaVista"]⟩ = 1469/2500 := by
    norm_num [sq_dist]
  rw [h]

theorem dq_Morrinhos_Piracanjuba :
    dist "Morrinhos" "Piracanjuba" = Real.sqrt ((1949/10000 : ℚ) : ℝ) := by
  rw [dist_eq_of_cities fc_Morrinhos fc_Piracanjuba]
  have h : sq_dist ⟨"Morrinhos", -17.73, -49.12, ["ProfJamil", "CaldasNovas"]⟩
      ⟨"Piracanjuba", -17.30, -49.02, ["BelaVista", "ProfJamil", "CaldasNovas", "Cristianopolis", "Formiga"]⟩ = 1949/10000 := by
    norm_num [sq_dist]
  rw [h]

theorem dq_Morrinhos_ProfJamil :
    dist "Morrinhos" "ProfJamil" = Real.sqrt ((2473/10000 : ℚ) : ℝ) := by
  rw [dist_eq_of_cities fc_Morrinhos fc_ProfJamil]
  have h : sq_dist ⟨"Morrinhos", -17.73, -49.12, ["ProfJamil", "CaldasNovas"]⟩
      ⟨"ProfJamil", -17.25, -49.25, ["Hidrolandia", "Morrinhos", "Piracanjuba"]⟩ = 2473/10000 := by
    norm_num [sq_dist]
  rw [h]

theorem dq_Piracanjuba_BelaVista :
    dist "Piracanjuba" "BelaVista" = Real.sqrt ((557/5000 : ℚ) : ℝ) := by
  rw [dist_eq_of_cities fc_Piracanjuba fc_BelaVista]
  have h : sq_dist ⟨"Piracanjuba", -17.30, -49.02, ["BelaVista", "ProfJamil", "CaldasNovas", "Cristianopolis", "Formiga"]⟩
      ⟨"BelaVista", -16.97, -48.97, ["Goiania", "Hidrolandia", "Piracanjuba", "Cristianopolis"]⟩ = 557/5000 := by
    norm_num [sq_dist]
  rw [h]

theorem dq_Piracanjuba_CaldasNovas :
    dist "Piracanjuba" "CaldasNovas" = Real.sqrt ((221/625 : ℚ) : ℝ) := by
  rw [dist_eq_of_cities fc_Piracanjuba fc_CaldasNovas]
  have h : sq_dist ⟨"Piracanjuba", -17.30, -49.02, ["BelaVista", "ProfJamil", "CaldasNovas", "Cristianopolis", "Formiga"]⟩
      ⟨"CaldasNovas", -17.74, -48.62, ["Cristianopolis", "Piracanjuba", "Morrinhos"]⟩ = 221/625 := by
    norm_num [sq_dist]
  rw [h]

theorem dq_Piracanjuba_Cristianopolis :
    dist "Piracanjuba" "Cristianopolis" = Real.sqrt ((229/2000 : ℚ) : ℝ) := by
  rw [dist_eq_of_cities fc_Piracanjuba fc_Cristianopolis]
  have h : sq_dist ⟨"Piracanjuba", -17.30, -49.02, ["BelaVista", "ProfJamil", "CaldasNovas", "Cristianopolis", "Formiga"]⟩
      ⟨"Cristianopolis", -17.19, -48.70, ["BelaVista", "Piracanjuba", "CaldasNovas"]⟩ = 229/2000 := by
    norm_num [sq_dist]
  rw [h]

theorem dq_Piracanjuba_Formiga :
    dist "Piracanjuba" "Formiga" = Real.sqrt ((1261/10000 : ℚ) : ℝ) := by
  rw [dist_eq_of_cities fc_Piracanjuba fc_Formiga]
  have h : sq_dist ⟨"Piracanjuba", -17.30, -49.02, ["BelaVista", "ProfJamil", "CaldasNovas", "Cristianopolis", "Formiga"]⟩
      ⟨"Formiga", -17.65, -49.08, ["Piracanjuba"]⟩ = 1261/10000 := by
    norm_num [sq_dist]
  rw [h]

theorem dq_Piracanjuba_Goiania :
    dist "Piracanjuba" "Goiania" = Real.sqrt ((17/40 : ℚ) : ℝ) := by
  rw [dist_eq_of_cities fc_Piracanjuba fc_Goiania]
  have h : sq_dist ⟨"Piracanjuba", -17.30, -49.02, ["BelaVista", "ProfJamil", "CaldasNovas", "Cristianopolis", "Formiga"]⟩
      ⟨"Goiania", -16.69, -49.25, ["Hidrolandia", "BelaVista"]⟩ = 17/40 := by
    norm_num [sq_dist]
  rw [h]

theorem dq_Piracanjuba_Hidrolandia :
    dist "Piracanjuba" "Hidrolandia" = Real.sqrt ((1489/10000 : ℚ) : ℝ) := by
  rw [dist_eq_of_cities fc_Piracanjuba fc_Hidrolandia]
  have h : sq_dist ⟨"Piracanjuba", -17.30, -49.02, ["BelaVista", "ProfJamil", "CaldasNovas", "Cristianopolis", "Formiga"]⟩
      ⟨"Hidrolandia", -16.97, -49.22, ["Goiania", "ProfJamil", "BelaVista"]⟩ = 1489/10000 := by
    norm_num [sq_dist]
  rw [h]

theorem dq_Piracanjuba_Morrinhos :
    dist "Piracanjuba" "Morrinhos" = Real.sqrt ((1949/10000 : ℚ) : ℝ) := by
  rw [dist_eq_of_cities fc_Piracanjuba fc_Morrinhos]
  have h : sq_dist ⟨"Piracanjuba", -17.30, -49.02, ["BelaVista", "ProfJamil", "CaldasNovas", "Cristianopolis", "Formiga"]⟩
      ⟨"Morrinhos", -17.73, -49.12, ["ProfJamil", "CaldasNovas"]⟩ = 1949/10000 := by
    norm_num [sq_dist]
  rw [h]

theorem dq_Piracanjuba_ProfJamil :
    dist "Piracanjuba" "ProfJamil" = Real.sqrt ((277/5000 : ℚ) : ℝ) := by
  rw [dist_eq_of_cities fc_Piracanjuba fc_ProfJamil]
  have h : sq_dist ⟨"Piracanjuba", -17.30, -49.02, ["BelaVista", "ProfJamil", "CaldasNovas", "Cristianopolis", "Formiga"]⟩
      ⟨"ProfJamil", -17.25, -49.25, ["Hidrolandia", "Morrinhos", "Piracanjuba"]⟩ = 277/5000 := by
    norm_num [sq_dist]
  rw [h]

theorem dq_ProfJamil_BelaVista :
    dist "ProfJamil" "BelaVista" = Real.sqrt ((98/625 : ℚ) : ℝ) := by
  rw [dist_eq_of_cities fc_ProfJamil fc_BelaVista]
  have h : sq_dist ⟨"ProfJamil", -17.25, -49.25, ["Hidrolandia", "Morrinhos", "Piracanjuba"]⟩
      ⟨"BelaVista", -16.97, -48.97, ["Goiania", "Hidrolandia", "Piracanjuba", "Cristianopolis"]⟩ = 98/625 := by
    norm_num [sq_dist]
  rw [h]

theorem dq_ProfJamil_CaldasNovas :
    dist "ProfJamil" "CaldasNovas" = Real.sqrt ((637/1000 : ℚ) : ℝ) := by
  rw [dist_eq_of_cities fc_ProfJamil fc_CaldasNovas]
  have h : sq_dist ⟨"ProfJamil", -17.25, -49.25, ["Hidrolandia", "Morrinhos", "Piracanjuba"]⟩
      ⟨"CaldasNovas", -17.74, -48.62, ["Cristianopolis", "Piracanjuba", "Morrinhos"]⟩ = 637/1000 := by
    norm_num [sq_dist]
  rw [h]

theorem dq_ProfJamil_Cristianopolis :
    dist "ProfJamil" "Cristianopolis" = Real.sqrt ((3061/10000 : ℚ) : ℝ) := by
  rw [dist_eq_of_cities fc_ProfJamil fc_Cristianopolis]
  have h : sq_dist ⟨"ProfJamil", -17.25, -49.25, ["Hidrolandia", "Morrinhos", "Piracanjuba"]⟩
      ⟨"Cristianopolis", -17.19, -48.70, ["BelaVista", "Piracanjuba", "CaldasNovas"]⟩ = 3061/10000 := by
    norm_num [sq_dist]
  rw [h]

theorem dq_ProfJamil_Formiga :
    dist "ProfJamil" "Formiga" = Real.sqrt ((1889/10000 : ℚ) : ℝ) := by
  rw [dist_eq_of_cities fc_ProfJamil fc_Formiga]
  have h : sq_dist ⟨"ProfJamil", -17.25, -49.25, ["Hidrolandia", "Morrinhos", "Piracanjuba"]⟩
      ⟨"Formiga", -17.65, -49.08, ["Piracanjuba"]⟩ = 1889/10000 := by
    norm_num [sq_dist]
  rw [h]

theorem dq_ProfJamil_Goiania :
    dist "ProfJamil" "Goiania" = Real.sqrt ((196/625 : ℚ) : ℝ) := by
  rw [dist_eq_of_cities fc_ProfJamil fc_Goiania]
  have h : sq_dist ⟨"ProfJamil", -17.25, -49.25, ["Hidrolandia", "Morrinhos", "Piracanjuba"]⟩
      ⟨"Goiania", -16.69, -49.25, ["Hidrolandia", "BelaVista"]⟩ = 196/625 := by
    norm_num [sq_dist]
  rw [h]

theorem dq_ProfJamil_Hidrolandia :
    dist "ProfJamil" "Hidrolandia" = Real.sqrt ((793/10000 : ℚ) : ℝ) := by
  rw [dist_eq_of_cities fc_ProfJamil fc_Hidrolandia]
  have h : sq_dist ⟨"ProfJamil", -17.25, -49.25, ["Hidrolandia", "Morrinhos", "Piracanjuba"]⟩
      ⟨"Hidrolandia", -16.97, -49.22, ["Goiania", "ProfJamil", "BelaVista"]⟩ = 793/10000 := by
    norm_num [sq_dist]
  rw [h]

theorem dq_ProfJamil_Morrinhos :
    dist "ProfJamil" "Morrinhos" = Real.sqrt ((2473/10000 : ℚ) : ℝ) := by
  rw [dist_eq_of_cities fc_ProfJamil fc_Morrinhos]
  have h : sq_dist ⟨"ProfJamil", -17.25, -49.25, ["Hidrolandia", "Morrinhos", "Piracanjuba"]⟩
      ⟨"Morrinhos", -17.73, -49.12, ["ProfJamil", "CaldasNovas"]⟩ = 2473/10000 := by
    norm_num [sq_dist]
  rw [h]

theorem dq_ProfJamil_Piracanjuba :
    dist "ProfJamil" "Piracanjuba" = Real.sqrt ((277/5000 : ℚ) : ℝ) := by
  rw [dist_eq_of_cities fc_ProfJamil fc_Piracanjuba]
  have h : sq_dist ⟨"ProfJamil", -17.25, -49.25, ["Hidrolandia", "Morrinhos", "Piracanjuba"]⟩
      ⟨"Piracanjuba", -17.30, -49.02, ["BelaVista", "ProfJamil", "CaldasNovas", "Cristianopolis", "Formiga"]⟩ = 277/5000 := by
    norm_num [sq_dist]
  rw [h]

theorem tri_Goiania_Hidrolandia_BelaVista :
    dist "Goiania" "Hidrolandia" < dist "Goiania" "BelaVista" + dist "Hidrolandia" "BelaVista" := by
  rw [dq_Goiania_Hidrolandia, dq_Goiania_BelaVista, dq_Hidrolandia_BelaVista]
  have h1 : Real.sqrt ((793/10000 : ℚ) : ℝ) ≤ (28160255681/100000000000 : ℝ) :=
    sqrt_le_of_sq_le (by norm_num) (by push_cast; norm_num)
  have h2 : (1237436867/3125000000 : ℝ) ≤ Real.sqrt ((98/625 : ℚ) : ℝ) :=
    le_sqrt_of_sq_le (by norm_num) (by push_cast; norm_num)
  have h3 : (1/4 : ℝ) ≤ Real.sqrt ((1/16 : ℚ) : ℝ) :=
    le_sqrt_of_sq_le (by norm_num) (by push_cast; norm_num)
  linarith

theorem tri_Goiania_BelaVista_Hidrolandia :
    dist "Goiania" "BelaVista" < dist "Goiania" "Hidrolandia" + dist "BelaVista" "Hidrolandia" := by
  rw [dq_Goiania_BelaVista, dq_Goiania_Hidrolandia, dq_BelaVista_Hidrolandia]
  have h1 : Real.sqrt ((98/625 : ℚ) : ℝ) ≤ (494974747/1250000000 : ℝ) :=
    sqrt_le_of_sq_le (by norm_num) (by push_cast; norm_num)
  have h2 : (88000799/312500000 : ℝ) ≤ Real.sqrt ((793/10000 : ℚ) : ℝ) :=
    le_sqrt_of_sq_le (by norm_num) (by push_cast; norm_num)
  have h3 : (1/4 : ℝ) ≤ Real.sqrt ((1/16 : ℚ) : ℝ) :=
    le_sqrt_of_sq_le (by norm_num) (by push_cast; norm_num)
  linarith

theorem tri_Hidrolandia_Goiania_ProfJamil :
    dist "Hidrolandia" "Goiania" < dist "Hidrolandia" "ProfJamil" + dist "Goiania" "ProfJamil" := by
  rw [dq_Hidrolandia_Goiania, dq_Hidrolandia_ProfJamil, dq_Goiania_ProfJamil]
  have h1 : Real.sqrt ((793/10000 : ℚ) : ℝ) ≤ (28160255681/100000000000 : ℝ) :=
    sqrt_le_of_sq_le (by norm_num) (by push_cast; norm_num)
  have h2 : (88000799/312500000 : ℝ) ≤ Real.sqrt ((793/10000 : ℚ) : ℝ) :=
    le_sqrt_of_sq_le (by norm_num) (by push_cast; norm_num)
  have h3 : (14/25 : ℝ) ≤ Real.sqrt ((196/625 : ℚ) : ℝ) :=
    le_sqrt_of_sq_le (by norm_num) (by push_cast; norm_num)
  linarith

theorem tri_Hidrolandia_Goiania_BelaVista :
    dist "Hidrolandia" "Goiania" < dist "Hidrolandia" "BelaVista" + dist "Goiania" "BelaVista" := by
  rw [dq_Hidrolandia_Goiania, dq_Hidrolandia_BelaVista, dq_Goiania_BelaVista]
  have h1 : Real.sqrt ((793/10000 : ℚ) : ℝ) ≤ (28160255681/100000000000 : ℝ) :=
    sqrt_le_of_sq_le (by norm_num) (by push_cast; norm_num)
  have h2 : (1/4 : ℝ) ≤ Real.sqrt ((1/16 : ℚ) : ℝ) :=
    le_sqrt_of_sq_le (by norm_num) (by push_cast; norm_num)
  have h3 : (1237436867/3125000000 : ℝ) ≤ Real.sqrt ((98/625 : ℚ) : ℝ) :=
    le_sqrt_of_sq_le (by norm_num) (by push_cast; norm_num)
  linarith

theorem tri_Hidrolandia_ProfJamil_Goiania :
    dist "Hidrolandia" "ProfJamil" < dist "Hidrolandia" "Goiania" + dist "ProfJamil" "Goiania" := by
  rw [dq_Hidrolandia_ProfJamil, dq_Hidrolandia_Goiania, dq_ProfJamil_Goiania]
  have h1 : Real.sqrt ((793/10000 : ℚ) : ℝ) ≤ (28160255681/100000000000 : ℝ) :=
    sqrt_le_of_sq_le (by norm_num) (by push_cast; norm_num)
  have h2 : (88000799/312500000 : ℝ) ≤ Real.sqrt ((793/10000 : ℚ) : ℝ) :=
    le_sqrt_of_sq_le (by norm_num) (by push_cast; norm_num)
  have h3 : (14/25 : ℝ) ≤ Real.sqrt ((196/625 : ℚ) : ℝ) :=
    le_sqrt_of_sq_le (by norm_num) (by push_cast; norm_num)
  linarith

theorem tri_Hidrolandia_ProfJamil_BelaVista :
    dist "Hidrolandia" "ProfJamil" < dist "Hidrolandia" "BelaVista" + dist "ProfJamil" "BelaVista" := by
  rw [dq_Hidrolandia_ProfJamil, dq_Hidrolandia_BelaVista, dq_ProfJamil_BelaVista]
  have h1 : Real.sqrt ((793/10000 : ℚ) : ℝ) ≤ (28160255681/100000000000 : ℝ) :=
    sqrt_le_of_sq_le (by norm_num) (by push_cast; norm_num)
  have h2 : (1/4 : ℝ) ≤ Real.sqrt ((1/16 : ℚ) : ℝ) :=
    le_sqrt_of_sq_le (by norm_num) (by push_cast; norm_num)
  have h3 : (1237436867/3125000000 : ℝ) ≤ Real.sqrt ((98/625 : ℚ) : ℝ) :=
    le_sqrt_of_sq_le (by norm_num) (by push_cast; norm_num)
  linarith

theorem tri_Hidrolandia_BelaVista_Goiania :
    dist "Hidrolandia" "BelaVista" < dist "Hidrolandia" "Goiania" + dist "BelaVista" "Goiania" := by
  rw [dq_Hidrolandia_BelaVista, dq_Hidrolandia_Goiania, dq_BelaVista_Goiania]
  have h1 : Real.sqrt ((1/16 : ℚ) : ℝ) ≤ (40000001/160000000 : ℝ) :=
    sqrt_le_of_sq_le (by norm_num) (by push_cast; norm_num)
  have h2 : (88000799/312500000 : ℝ) ≤ Real.sqrt ((793/10000 : ℚ) : ℝ) :=
    le_sqrt_of_sq_le (by norm_num) (by push_cast; norm_num)
  have h3 : (1237436867/3125000000 : ℝ) ≤ Real.sqrt ((98/625 : ℚ) : ℝ) :=
    le_sqrt_of_sq_le (by norm_num) (by push_cast; norm_num)
  linarith

theorem tri_Hidrolandia_BelaVista_ProfJamil :
    dist "Hidrolandia" "BelaVista" < dist "Hidrolandia" "ProfJamil" + dist "BelaVista" "ProfJamil" := by
  rw [dq_Hidrolandia_BelaVista, dq_Hidrolandia_ProfJamil, dq_BelaVista_ProfJamil]
  have h1 : Real.sqrt ((1/16 : ℚ) : ℝ) ≤ (40000001/160000000 : ℝ) :=
    sqrt_le_of_sq_le (by norm_num) (by push_cast; norm_num)
  have h2 : (88000799/312500000 : ℝ) ≤ Real.sqrt ((793/10000 : ℚ) : ℝ) :=
    le_sqrt_of_sq_le (by norm_num) (by push_cast; norm_num)
  have h3 : (1237436867/3125000000 : ℝ) ≤ Real.sqrt ((98/625 : ℚ) : ℝ) :=
    le_sqrt_of_sq_le (by norm_num) (by push_cast; norm_num)
  linarith

theorem tri_BelaVista_Goiania_Hidrolandia :
    dist "BelaVista" "Goiania" < dist "BelaVista" "Hidrolandia" + dist "Goiania" "Hidrolandia" := by
  rw [dq_BelaVista_Goiania, dq_BelaVista_Hidrolandia, dq_Goiania_Hidrolandia]
  have h1 : Real.sqrt ((98/625 : ℚ) : ℝ) ≤ (494974747/1250000000 : ℝ) :=
    sqrt_le_of_sq_le (by norm_num) (by push_cast; norm_num)
  have h2 : (1/4 : ℝ) ≤ Real.sqrt ((1/16 : ℚ) : ℝ) :=
    le_sqrt_of_sq_le (by norm_num) (by push_cast; norm_num)
  have h3 : (88000799/312500000 : ℝ) ≤ Real.sqrt ((793/10000 : ℚ) : ℝ) :=
    le_sqrt_of_sq_le (by norm_num) (by push_cast; norm_num)
  linarith

theorem tri_BelaVista_Goiania_Piracanjuba :
    dist "BelaVista" "Goiania" < dist "BelaVista" "Piracanjuba" + dist "Goiania" "Piracanjuba" := by
  rw [dq_BelaVista_Goiania, dq_BelaVista_Piracanjuba, dq_Goiania_Piracanjuba]
  have h1 : Real.sqrt ((98/625 : ℚ) : ℝ) ≤ (494974747/1250000000 : ℝ) :=
    sqrt_le_of_sq_le (by norm_num) (by push_cast; norm_num)
  have h2 : (4172079817/12500000000 : ℝ) ≤ Real.sqrt ((557/5000 : ℚ) : ℝ) :=
    le_sqrt_of_sq_le (by norm_num) (by push_cast; norm_num)
  have h3 : (8149003/12500000 : ℝ) ≤ Real.sqrt ((17/40 : ℚ) : ℝ) :=
    le_sqrt_of_sq_le (by norm_num) (by push_cast; norm_num)
  linarith

theorem tri_BelaVista_Goiania_Cristianopolis :
    dist "BelaVista" "Goiania" < dist "BelaVista" "Cristianopolis" + dist "Goiania" "Cristianopolis" := by
  rw [dq_BelaVista_Goiania, dq_BelaVista_Cristianopolis, dq_Goiania_Cristianopolis]
  have h1 : Real.sqrt ((98/625 : ℚ) : ℝ) ≤ (494974747/1250000000 : ℝ) :=
    sqrt_le_of_sq_le (by norm_num) (by push_cast; norm_num)
  have h2 : (17414074767/50000000000 : ℝ) ≤ Real.sqrt ((1213/10000 : ℚ) : ℝ) :=
    le_sqrt_of_sq_le (by norm_num) (by push_cast; norm_num)
  have h3 : (2973213749/4000000000 : ℝ) ≤ Real.sqrt ((221/400 : ℚ) : ℝ) :=
    le_sqrt_of_sq_le (by norm_num) (by push_cast; norm_num)
  linarith

theorem tri_BelaVista_Hidrolandia_Goiania :
    dist "BelaVista" "Hidrolandia" < dist "BelaVista" "Goiania" + dist "Hidrolandia" "Goiania" := by
  rw [dq_BelaVista_Hidrolandia, dq_BelaVista_Goiania, dq_Hidrolandia_Goiania]
  have h1 : Real.sqrt ((1/16 : ℚ) : ℝ) ≤ (40000001/160000000 : ℝ) :=
    sqrt_le_of_sq_le (by norm_num) (by push_cast; norm_num)
  have h2 : (1237436867/3125000000 : ℝ) ≤ Real.sqrt ((98/625 : ℚ) : ℝ) :=
    le_sqrt_of_sq_le (by norm_num) (by push_cast; norm_num)
  have h3 : (88000799/312500000 : ℝ) ≤ Real.sqrt ((793/10000 : ℚ) : ℝ) :=
    le_sqrt_of_sq_le (by norm_num) (by push_cast; norm_num)
  linarith

theorem tri_BelaVista_Hidrolandia_Piracanjuba :
    dist "BelaVista" "Hidrolandia" < dist "BelaVista" "Piracanjuba" + dist "Hidrolandia" "Piracanjuba" := by
  rw [dq_BelaVista_Hidrolandia, dq_BelaVista_Piracanjuba, dq_Hidrolandia_Piracanjuba]
  have h1 : Real.sqrt ((1/16 : ℚ) : ℝ) ≤ (40000001/160000000 : ℝ) :=
    sqrt_le_of_sq_le (by norm_num) (by push_cast; norm_num)
  have h2 : (4172079817/12500000000 : ℝ) ≤ Real.sqrt ((557/5000 : ℚ) : ℝ) :=
    le_sqrt_of_sq_le (by norm_num) (by push_cast; norm_num)
  have h3 : (38587562763/100000000000 : ℝ) ≤ Real.sqrt ((1489/10000 : ℚ) : ℝ) :=
    le_sqrt_of_sq_le (by norm_num) (by push_cast; norm_num)
  linarith

theorem tri_BelaVista_Hidrolandia_Cristianopolis :
    dist "BelaVista" "Hidrolandia" < dist "BelaVista" "Cristianopolis" + dist "Hidrolandia" "Cristianopolis" := by
  rw [dq_BelaVista_Hidrolandia, dq_BelaVista_Cristianopolis, dq_Hidrolandia_Cristianopolis]
  have h1 : Real.sqrt ((1/16 : ℚ) : ℝ) ≤ (40000001/160000000 : ℝ) :=
    sqrt_le_of_sq_le (by norm_num) (by push_cast; norm_num)
  have h2 : (17414074767/50000000000 : ℝ) ≤ Real.sqrt ((1213/10000 : ℚ) : ℝ) :=
    le_sqrt_of_sq_le (by norm_num) (by push_cast; norm_num)
  have h3 : (14115594213/25000000000 : ℝ) ≤ Real.sqrt ((797/2500 : ℚ) : ℝ) :=
    le_sqrt_of_sq_le (by norm_num) (by push_cast; norm_num)
  linarith

theorem tri_BelaVista_Piracanjuba_Goiania :
    dist "BelaVista" "Piracanjuba" < dist "BelaVista" "Goiania" + dist "Piracanjuba" "Goiania" := by
  rw [dq_BelaVista_Piracanjuba, dq_BelaVista_Goiania, dq_Piracanjuba_Goiania]
  have h1 : Real.sqrt ((557/5000 : ℚ) : ℝ) ≤ (16688319269/50000000000 : ℝ) :=
    sqrt_le_of_sq_le (by norm_num) (by push_cast; norm_num)
  have h2 : (1237436867/3125000000 : ℝ) ≤ Real.sqrt ((98/625 : ℚ) : ℝ) :=
    le_sqrt_of_sq_le (by norm_num) (by push_cast; norm_num)
  have h3 : (8149003/12500000 : ℝ) ≤ Real.sqrt ((17/40 : ℚ) : ℝ) :=
    le_sqrt_of_sq_le (by norm_num) (by push_cast; norm_num)
  linarith

theorem tri_BelaVista_Piracanjuba_Hidrolandia :
    dist "BelaVista" "Piracanjuba" < dist "BelaVista" "Hidrolandia" + dist "Piracanjuba" "Hidrolandia" := by
  rw [dq_BelaVista_Piracanjuba, dq_BelaVista_Hidrolandia, dq_Piracanjuba_Hidrolandia]
  have h1 : Real.sqrt ((557/5000 : ℚ) : ℝ) ≤ (16688319269/50000000000 : ℝ) :=
    sqrt_le_of_sq_le (by norm_num) (by push_cast; norm_num)
  have h2 : (1/4 : ℝ) ≤ Real.sqrt ((1/16 : ℚ) : ℝ) :=
    le_sqrt_of_sq_le (by norm_num) (by push_cast; norm_num)
  have h3 : (38587562763/100000000000 : ℝ) ≤ Real.sqrt ((1489/10000 : ℚ) : ℝ) :=
    le_sqrt_of_sq_le (by norm_num) (by push_cast; norm_num)
  linarith

theorem tri_BelaVista_Piracanjuba_Cristianopolis :
    dist "BelaVista" "Piracanjuba" < dist "BelaVista" "Cristianopolis" + dist "Piracanjuba" "Cristianopolis" := by
  rw [dq_BelaVista_Piracanjuba, dq_BelaVista_Cristianopolis, dq_Piracanjuba_Cristianopolis]
  have h1 : Real.sqrt ((557/5000 : ℚ) : ℝ) ≤ (16688319269/50000000000 : ℝ) :=
    sqrt_le_of_sq_le (by norm_num) (by push_cast; norm_num)
  have h2 : (17414074767/50000000000 : ℝ) ≤ Real.sqrt ((1213/10000 : ℚ) : ℝ) :=
    le_sqrt_of_sq_le (by norm_num) (by push_cast; norm_num)
  have h3 : (3383784863/10000000000 : ℝ) ≤ Real.sqrt ((229/2000 : ℚ) : ℝ) :=
    le_sqrt_of_sq_le (by norm_num) (by push_cast; norm_num)
  linarith

theorem tri_BelaVista_Cristianopolis_Goiania :
    dist "BelaVista" "Cristianopolis" < dist "BelaVista" "Goiania" + dist "Cristianopolis" "Goiania" := by
  rw [dq_BelaVista_Cristianopolis, dq_BelaVista_Goiania, dq_Cristianopolis_Goiania]
  have h1 : Real.sqrt ((1213/10000 : ℚ) : ℝ) ≤ (6965629907/20000000000 : ℝ) :=
    sqrt_le_of_sq_le (by norm_num) (by push_cast; norm_num)
  have h2 : (1237436867/3125000000 : ℝ) ≤ Real.sqrt ((98/625 : ℚ) : ℝ) :=
    le_sqrt_of_sq_le (by norm_num) (by push_cast; norm_num)
  have h3 : (2973213749/4000000000 : ℝ) ≤ Real.sqrt ((221/400 : ℚ) : ℝ) :=
    le_sqrt_of_sq_le (by norm_num) (by push_cast; norm_num)
  linarith

theorem tri_BelaVista_Cristianopolis_Hidrolandia :
    dist "BelaVista" "Cristianopolis" < dist "BelaVista" "Hidrolandia" + dist "Cristianopolis" "Hidrolandia" := by
  rw [dq_BelaVista_Cristianopolis, dq_BelaVista_Hidrolandia, dq_Cristianopolis_Hidrolandia]
  have h1 : Real.sqrt ((1213/10000 : ℚ) : ℝ) ≤ (6965629907/20000000000 : ℝ) :=
    sqrt_le_of_sq_le (by norm_num) (by push_cast; norm_num)
  have h2 : (1/4 : ℝ) ≤ Real.sqrt ((1/16 : ℚ) : ℝ) :=
    le_sqrt_of_sq_le (by norm_num) (by push_cast; norm_num)
  have h3 : (14115594213/25000000000 : ℝ) ≤ Real.sqrt ((797/2500 : ℚ) : ℝ) :=
    le_sqrt_of_sq_le (by norm_num) (by push_cast; norm_num)
  linarith

theorem tri_BelaVista_Cristianopolis_Piracanjuba :
    dist "BelaVista" "Cristianopolis" < dist "BelaVista" "Piracanjuba" + dist "Cristianopolis" "Piracanjuba" := by
  rw [dq_BelaVista_Cristianopolis, dq_BelaVista_Piracanjuba, dq_Cristianopolis_Piracanjuba]
  have h1 : Real.sqrt ((1213/10000 : ℚ) : ℝ) ≤ (6965629907/20000000000 : ℝ) :=
    sqrt_le_of_sq_le (by norm_num) (by push_cast; norm_num)
  have h2 : (4172079817/12500000000 : ℝ) ≤ Real.sqrt ((557/5000 : ℚ) : ℝ) :=
    le_sqrt_of_sq_le (by norm_num) (by push_cast; norm_num)
  have h3 : (3383784863/10000000000 : ℝ) ≤ Real.sqrt ((229/2000 : ℚ) : ℝ) :=
    le_sqrt_of_sq_le (by norm_num) (by push_cast; norm_num)
  linarith

theorem tri_ProfJamil_Hidrolandia_Morrinhos :
    dist "ProfJamil" "Hidrolandia" < dist "ProfJamil" "Morrinhos" + dist "Hidrolandia" "Morrinhos" := by
  rw [dq_ProfJamil_Hidrolandia, dq_ProfJamil_Morrinhos, dq_Hidrolandia_Morrinhos]
  have h1 : Real.sqrt ((793/10000 : ℚ) : ℝ) ≤ (28160255681/100000000000 : ℝ) :=
    sqrt_le_of_sq_le (by norm_num) (by push_cast; norm_num)
  have h2 : (12432316759/25000000000 : ℝ) ≤ Real.sqrt ((2473/10000 : ℚ) : ℝ) :=
    le_sqrt_of_sq_le (by norm_num) (by push_cast; norm_num)
  have h3 : (2395470987/3125000000 : ℝ) ≤ Real.sqrt ((1469/2500 : ℚ) : ℝ) :=
    le_sqrt_of_sq_le (by norm_num) (by push_cast; norm_num)
  linarith

theorem tri_ProfJamil_Hidrolandia_Piracanjuba :
    dist "ProfJamil" "Hidrolandia" < dist "ProfJamil" "Piracanjuba" + dist "Hidrolandia" "Piracanjuba" := by
  rw [dq_ProfJamil_Hidrolandia, dq_ProfJamil_Piracanjuba, dq_Hidrolandia_Piracanjuba]
  have h1 : Real.sqrt ((793/10000 : ℚ) : ℝ) ≤ (28160255681/100000000000 : ℝ) :=
    sqrt_le_of_sq_le (by norm_num) (by push_cast; norm_num)
  have h2 : (2353720459/10000000000 : ℝ) ≤ Real.sqrt ((277/5000 : ℚ) : ℝ) :=
    le_sqrt_of_sq_le (by norm_num) (by push_cast; norm_num)
  have h3 : (38587562763/100000000000 : ℝ) ≤ Real.sqrt ((1489/10000 : ℚ) : ℝ) :=
    le_sqrt_of_sq_le (by norm_num) (by push_cast; norm_num)
  linarith

theorem tri_ProfJamil_Morrinhos_Hidrolandia :
    dist "ProfJamil" "Morrinhos" < dist "ProfJamil" "Hidrolandia" + dist "Morrinhos" "Hidrolandia" := by
  rw [dq_ProfJamil_Morrinhos, dq_ProfJamil_Hidrolandia, dq_Morrinhos_Hidrolandia]
  have h1 : Real.sqrt ((2473/10000 : ℚ) : ℝ) ≤ (49729267037/100000000000 : ℝ) :=
    sqrt_le_of_sq_le (by norm_num) (by push_cast; norm_num)
  have h2 : (88000799/312500000 : ℝ) ≤ Real.sqrt ((793/10000 : ℚ) : ℝ) :=
    le_sqrt_of_sq_le (by norm_num) (by push_cast; norm_num)
  have h3 : (2395470987/3125000000 : ℝ) ≤ Real.sqrt ((1469/2500 : ℚ) : ℝ) :=
    le_sqrt_of_sq_le (by norm_num) (by push_cast; norm_num)
  linarith

theorem tri_ProfJamil_Morrinhos_Piracanjuba :
    dist "ProfJamil" "Morrinhos" < dist "ProfJamil" "Piracanjuba" + dist "Morrinhos" "Piracanjuba" := by
  rw [dq_ProfJamil_Morrinhos, dq_ProfJamil_Piracanjuba, dq_Morrinhos_Piracanjuba]
  have h1 : Real.sqrt ((2473/10000 : ℚ) : ℝ) ≤ (49729267037/100000000000 : ℝ) :=
    sqrt_le_of_sq_le (by norm_num) (by push_cast; norm_num)
  have h2 : (2353720459/10000000000 : ℝ) ≤ Real.sqrt ((277/5000 : ℚ) : ℝ) :=
    le_sqrt_of_sq_le (by norm_num) (by push_cast; norm_num)
  have h3 : (44147480109/100000000000 : ℝ) ≤ Real.sqrt ((1949/10000 : ℚ) : ℝ) :=
    le_sqrt_of_sq_le (by norm_num) (by push_cast; norm_num)
  linarith

theorem tri_ProfJamil_Piracanjuba_Hidrolandia :
    dist "ProfJamil" "Piracanjuba" < dist "ProfJamil" "Hidrolandia" + dist "Piracanjuba" "Hidrolandia" := by
  rw [dq_ProfJamil_Piracanjuba, dq_ProfJamil_Hidrolandia, dq_Piracanjuba_Hidrolandia]
  have h1 : Real.sqrt ((277/5000 : ℚ) : ℝ) ≤ (1471075287/6250000000 : ℝ) :=
    sqrt_le_of_sq_le (by norm_num) (by push_cast; norm_num)
  have h2 : (88000799/312500000 : ℝ) ≤ Real.sqrt ((793/10000 : ℚ) : ℝ) :=
    le_sqrt_of_sq_le (by norm_num) (by push_cast; norm_num)
  have h3 : (38587562763/100000000000 : ℝ) ≤ Real.sqrt ((1489/10000 : ℚ) : ℝ) :=
    le_sqrt_of_sq_le (by norm_num) (by push_cast; norm_num)
  linarith

theorem tri_ProfJamil_Piracanjuba_Morrinhos :
    dist "ProfJamil" "Piracanjuba" < dist "ProfJamil" "Morrinhos" + dist "Piracanjuba" "Morrinhos" := by
  rw [dq_ProfJamil_Piracanjuba, dq_ProfJamil_Morrinhos, dq_Piracanjuba_Morrinhos]
  have h1 : Real.sqrt ((277/5000 : ℚ) : ℝ) ≤ (1471075287/6250000000 : ℝ) :=
    sqrt_le_of_sq_le (by norm_num) (by push_cast; norm_num)
  have h2 : (12432316759/25000000000 : ℝ) ≤ Real.sqrt ((2473/10000 : ℚ) : ℝ) :=
    le_sqrt_of_sq_le (by norm_num) (by push_cast; norm_num)
  have h3 : (44147480109/100000000000 : ℝ) ≤ Real.sqrt ((1949/10000 : ℚ) : ℝ) :=
    le_sqrt_of_sq_le (by norm_num) (by push_cast; norm_num)
  linarith

theorem tri_Cristianopolis_BelaVista_Piracanjuba :
    dist "Cristianopolis" "BelaVista" < dist "Cristianopolis" "Piracanjuba" + dist "BelaVista" "Piracanjuba" := by
  rw [dq_Cristianopolis_BelaVista, dq_Cristianopolis_Piracanjuba, dq_BelaVista_Piracanjuba]
  have h1 : Real.sqrt ((1213/10000 : ℚ) : ℝ) ≤ (6965629907/20000000000 : ℝ) :=
    sqrt_le_of_sq_le (by norm_num) (by push_cast; norm_num)
  have h2 : (3383784863/10000000000 : ℝ) ≤ Real.sqrt ((229/2000 : ℚ) : ℝ) :=
    le_sqrt_of_sq_le (by norm_num) (by push_cast; norm_num)
  have h3 : (4172079817/12500000000 : ℝ) ≤ Real.sqrt ((557/5000 : ℚ) : ℝ) :=
    le_sqrt_of_sq_le (by norm_num) (by push_cast; norm_num)
  linarith

theorem tri_Cristianopolis_BelaVista_CaldasNovas :
    dist "Cristianopolis" "BelaVista" < dist "Cristianopolis" "CaldasNovas" + dist "BelaVista" "CaldasNovas" := by
  rw [dq_Cristianopolis_BelaVista, dq_Cristianopolis_CaldasNovas, dq_BelaVista_CaldasNovas]
  have h1 : Real.sqrt ((1213/10000 : ℚ) : ℝ) ≤ (6965629907/20000000000 : ℝ) :=
    sqrt_le_of_sq_le (by norm_num) (by push_cast; norm_num)
  have h2 : (27789386463/50000000000 : ℝ) ≤ Real.sqrt ((3089/10000 : ℚ) : ℝ) :=
    le_sqrt_of_sq_le (by norm_num) (by push_cast; norm_num)
  have h3 : (42290660907/50000000000 : ℝ) ≤ Real.sqrt ((3577/5000 : ℚ) : ℝ) :=
    le_sqrt_of_sq_le (by norm_num) (by push_cast; norm_num)
  linarith

theorem tri_Cristianopolis_Piracanjuba_BelaVista :
    dist "Cristianopolis" "Piracanjuba" < dist "Cristianopolis" "BelaVista" + dist "Piracanjuba" "BelaVista" := by
  rw [dq_Cristianopolis_Piracanjuba, dq_Cristianopolis_BelaVista, dq_Piracanjuba_BelaVista]
  have h1 : Real.sqrt ((229/2000 : ℚ) : ℝ) ≤ (6767569727/20000000000 : ℝ) :=
    sqrt_le_of_sq_le (by norm_num) (by push_cast; norm_num)
  have h2 : (17414074767/50000000000 : ℝ) ≤ Real.sqrt ((1213/10000 : ℚ) : ℝ) :=
    le_sqrt_of_sq_le (by norm_num) (by push_cast; norm_num)
  have h3 : (4172079817/12500000000 : ℝ) ≤ Real.sqrt ((557/5000 : ℚ) : ℝ) :=
    le_sqrt_of_sq_le (by norm_num) (by push_cast; norm_num)
  linarith

theorem tri_Cristianopolis_Piracanjuba_CaldasNovas :
    dist "Cristianopolis" "Piracanjuba" < dist "Cristianopolis" "CaldasNovas" + dist "Piracanjuba" "CaldasNovas" := by
  rw [dq_Cristianopolis_Piracanjuba, dq_Cristianopolis_CaldasNovas, dq_Piracanjuba_CaldasNovas]
  have h1 : Real.sqrt ((229/2000 : ℚ) : ℝ) ≤ (6767569727/20000000000 : ℝ) :=
    sqrt_le_of_sq_le (by norm_num) (by push_cast; norm_num)
  have h2 : (27789386463/50000000000 : ℝ) ≤ Real.sqrt ((3089/10000 : ℚ) : ℝ) :=
    le_sqrt_of_sq_le (by norm_num) (by push_cast; norm_num)
  have h3 : (1858258593/3125000000 : ℝ) ≤ Real.sqrt ((221/625 : ℚ) : ℝ) :=
    le_sqrt_of_sq_le (by norm_num) (by push_cast; norm_num)
  linarith

theorem tri_Cristianopolis_CaldasNovas_BelaVista :
    dist "Cristianopolis" "CaldasNovas" < dist "Cristianopolis" "BelaVista" + dist "CaldasNovas" "BelaVista" := by
  rw [dq_Cristianopolis_CaldasNovas, dq_Cristianopolis_BelaVista, dq_CaldasNovas_BelaVista]
  have h1 : Real.sqrt ((3089/10000 : ℚ) : ℝ) ≤ (55578772927/100000000000 : ℝ) :=
    sqrt_le_of_sq_le (by norm_num) (by push_cast; norm_num)
  have h2 : (17414074767/50000000000 : ℝ) ≤ Real.sqrt ((1213/10000 : ℚ) : ℝ) :=
    le_sqrt_of_sq_le (by norm_num) (by push_cast; norm_num)
  have h3 : (42290660907/50000000000 : ℝ) ≤ Real.sqrt ((3577/5000 : ℚ) : ℝ) :=
    le_sqrt_of_sq_le (by norm_num) (by push_cast; norm_num)
  linarith

theorem tri_Cristianopolis_CaldasNovas_Piracanjuba :
    dist "Cristianopolis" "CaldasNovas" < dist "Cristianopolis" "Piracanjuba" + dist "CaldasNovas" "Piracanjuba" := by
  rw [dq_Cristianopolis_CaldasNovas, dq_Cristianopolis_Piracanjuba, dq_CaldasNovas_Piracanjuba]
  have h1 : Real.sqrt ((3089/10000 : ℚ) : ℝ) ≤ (55578772927/100000000000 : ℝ) :=
    sqrt_le_of_sq_le (by norm_num) (by push_cast; norm_num)
  have h2 : (3383784863/10000000000 : ℝ) ≤ Real.sqrt ((229/2000 : ℚ) : ℝ) :=
    le_sqrt_of_sq_le (by norm_num) (by push_cast; norm_num)
  have h3 : (1858258593/3125000000 : ℝ) ≤ Real.sqrt ((221/625 : ℚ) : ℝ) :=
    le_sqrt_of_sq_le (by norm_num) (by push_cast; norm_num)
  linarith

theorem tri_Piracanjuba_BelaVista_ProfJamil :
    dist "Piracanjuba" "BelaVista" < dist "Piracanjuba" "ProfJamil" + dist "BelaVista" "ProfJamil" := by
  rw [dq_Piracanjuba_BelaVista, dq_Piracanjuba_ProfJamil, dq_BelaVista_ProfJamil]
  have h1 : Real.sqrt ((557/5000 : ℚ) : ℝ) ≤ (16688319269/50000000000 : ℝ) :=
    sqrt_le_of_sq_le (by norm_num) (by push_cast; norm_num)
  have h2 : (2353720459/10000000000 : ℝ) ≤ Real.sqrt ((277/5000 : ℚ) : ℝ) :=
    le_sqrt_of_sq_le (by norm_num) (by push_cast; norm_num)
  have h3 : (1237436867/3125000000 : ℝ) ≤ Real.sqrt ((98/625 : ℚ) : ℝ) :=
    le_sqrt_of_sq_le (by norm_num) (by push_cast; norm_num)
  linarith

theorem tri_Piracanjuba_BelaVista_CaldasNovas :
    dist "Piracanjuba" "BelaVista" < dist "Piracanjuba" "CaldasNovas" + dist "BelaVista" "CaldasNovas" := by
  rw [dq_Piracanjuba_BelaVista, dq_Piracanjuba_CaldasNovas, dq_BelaVista_CaldasNovas]
  have h1 : Real.sqrt ((557/5000 : ℚ) : ℝ) ≤ (16688319269/50000000000 : ℝ) :=
    sqrt_le_of_sq_le (by norm_num) (by push_cast; norm_num)
  have h2 : (1858258593/3125000000 : ℝ) ≤ Real.sqrt ((221/625 : ℚ) : ℝ) :=
    le_sqrt_of_sq_le (by norm_num) (by push_cast; norm_num)
  have h3 : (42290660907/50000000000 : ℝ) ≤ Real.sqrt ((3577/5000 : ℚ) : ℝ) :=
    le_sqrt_of_sq_le (by norm_num) (by push_cast; norm_num)
  linarith

theorem tri_Piracanjuba_BelaVista_Cristianopolis :
    dist "Piracanjuba" "BelaVista" < dist "Piracanjuba" "Cristianopolis" + dist "BelaVista" "Cristianopolis" := by
  rw [dq_Piracanjuba_BelaVista, dq_Piracanjuba_Cristianopolis, dq_BelaVista_Cristianopolis]
  have h1 : Real.sqrt ((557/5000 : ℚ) : ℝ) ≤ (16688319269/50000000000 : ℝ) :=
    sqrt_le_of_sq_le (by norm_num) (by push_cast; norm_num)
  have h2 : (3383784863/10000000000 : ℝ) ≤ Real.sqrt ((229/2000 : ℚ) : ℝ) :=
    le_sqrt_of_sq_le (by norm_num) (by push_cast; norm_num)
  have h3 : (17414074767/50000000000 : ℝ) ≤ Real.sqrt ((1213/10000 : ℚ) : ℝ) :=
    le_sqrt_of_sq_le (by norm_num) (by push_cast; norm_num)
  linarith

theorem tri_Piracanjuba_BelaVista_Formiga :
    dist "Piracanjuba" "BelaVista" < dist "Piracanjuba" "Formiga" + dist "BelaVista" "Formiga" := by
  rw [dq_Piracanjuba_BelaVista, dq_Piracanjuba_Formiga, dq_BelaVista_Formiga]
  have h1 : Real.sqrt ((557/5000 : ℚ) : ℝ) ≤ (16688319269/50000000000 : ℝ) :=
    sqrt_le_of_sq_le (by norm_num) (by push_cast; norm_num)
  have h2 : (35510561809/100000000000 : ℝ) ≤ Real.sqrt ((1261/10000 : ℚ) : ℝ) :=
    le_sqrt_of_sq_le (by norm_num) (by push_cast; norm_num)
  have h3 : (13776792079/20000000000 : ℝ) ≤ Real.sqrt ((949/2000 : ℚ) : ℝ) :=
    le_sqrt_of_sq_le (by norm_num) (by push_cast; norm_num)
  linarith

theorem tri_Piracanjuba_ProfJamil_BelaVista :
    dist "Piracanjuba" "ProfJamil" < dist "Piracanjuba" "BelaVista" + dist "ProfJamil" "BelaVista" := by
  rw [dq_Piracanjuba_ProfJamil, dq_Piracanjuba_BelaVista, dq_ProfJamil_BelaVista]
  have h1 : Real.sqrt ((277/5000 : ℚ) : ℝ) ≤ (1471075287/6250000000 : ℝ) :=
    sqrt_le_of_sq_le (by norm_num) (by push_cast; norm_num)
  have h2 : (4172079817/12500000000 : ℝ) ≤ Real.sqrt ((557/5000 : ℚ) : ℝ) :=
    le_sqrt_of_sq_le (by norm_num) (by push_cast; norm_num)
  have h3 : (1237436867/3125000000 : ℝ) ≤ Real.sqrt ((98/625 : ℚ) : ℝ) :=
    le_sqrt_of_sq_le (by norm_num) (by push_cast; norm_num)
  linarith

theorem tri_Piracanjuba_ProfJamil_CaldasNovas :
    dist "Piracanjuba" "ProfJamil" < dist "Piracanjuba" "CaldasNovas" + dist "ProfJamil" "CaldasNovas" := by
  rw [dq_Piracanjuba_ProfJamil, dq_Piracanjuba_CaldasNovas, dq_ProfJamil_CaldasNovas]
  have h1 : Real.sqrt ((277/5000 : ℚ) : ℝ) ≤ (1471075287/6250000000 : ℝ) :=
    sqrt_le_of_sq_le (by norm_num) (by push_cast; norm_num)
  have h2 : (1858258593/3125000000 : ℝ) ≤ Real.sqrt ((221/625 : ℚ) : ℝ) :=
    le_sqrt_of_sq_le (by norm_num) (by push_cast; norm_num)
  have h3 : (319249119/400000000 : ℝ) ≤ Real.sqrt ((637/1000 : ℚ) : ℝ) :=
    le_sqrt_of_sq_le (by norm_num) (by push_cast; norm_num)
  linarith

theorem tri_Piracanjuba_ProfJamil_Cristianopolis :
    dist "Piracanjuba" "ProfJamil" < dist "Piracanjuba" "Cristianopolis" + dist "ProfJamil" "Cristianopolis" := by
  rw [dq_Piracanjuba_ProfJamil, dq_Piracanjuba_Cristianopolis, dq_ProfJamil_Cristianopolis]
  have h1 : Real.sqrt ((277/5000 : ℚ) : ℝ) ≤ (1471075287/6250000000 : ℝ) :=
    sqrt_le_of_sq_le (by norm_num) (by push_cast; norm_num)
  have h2 : (3383784863/10000000000 : ℝ) ≤ Real.sqrt ((229/2000 : ℚ) : ℝ) :=
    le_sqrt_of_sq_le (by norm_num) (by push_cast; norm_num)
  have h3 : (27663152387/50000000000 : ℝ) ≤ Real.sqrt ((3061/10000 : ℚ) : ℝ) :=
    le_sqrt_of_sq_le (by norm_num) (by push_cast; norm_num)
  linarith

theorem tri_Piracanjuba_ProfJamil_Formiga :
    dist "Piracanjuba" "ProfJamil" < dist "Piracanjuba" "Formiga" + dist "ProfJamil" "Formiga" := by
  rw [dq_Piracanjuba_ProfJamil, dq_Piracanjuba_Formiga, dq_ProfJamil_Formiga]
  have h1 : Real.sqrt ((277/5000 : ℚ) : ℝ) ≤ (1471075287/6250000000 : ℝ) :=
    sqrt_le_of_sq_le (by norm_num) (by push_cast; norm_num)
  have h2 : (35510561809/100000000000 : ℝ) ≤ Real.sqrt ((1261/10000 : ℚ) : ℝ) :=
    le_sqrt_of_sq_le (by norm_num) (by push_cast; norm_num)
  have h3 : (5432828453/12500000000 : ℝ) ≤ Real.sqrt ((1889/10000 : ℚ) : ℝ) :=
    le_sqrt_of_sq_le (by norm_num) (by push_cast; norm_num)
  linarith

theorem tri_Piracanjuba_CaldasNovas_BelaVista :
    dist "Piracanjuba" "CaldasNovas" < dist "Piracanjuba" "BelaVista" + dist "CaldasNovas" "BelaVista" := by
  rw [dq_Piracanjuba_CaldasNovas, dq_Piracanjuba_BelaVista, dq_CaldasNovas_BelaVista]
  have h1 : Real.sqrt ((221/625 : ℚ) : ℝ) ≤ (3716517187/6250000000 : ℝ) :=
    sqrt_le_of_sq_le (by norm_num) (by push_cast; norm_num)
  have h2 : (4172079817/12500000000 : ℝ) ≤ Real.sqrt ((557/5000 : ℚ) : ℝ) :=
    le_sqrt_of_sq_le (by norm_num) (by push_cast; norm_num)
  have h3 : (42290660907/50000000000 : ℝ) ≤ Real.sqrt ((3577/5000 : ℚ) : ℝ) :=
    le_sqrt_of_sq_le (by norm_num) (by push_cast; norm_num)
  linarith

theorem tri_Piracanjuba_CaldasNovas_ProfJamil :
    dist "Piracanjuba" "CaldasNovas" < dist "Piracanjuba" "ProfJamil" + dist "CaldasNovas" "ProfJamil" := by
  rw [dq_Piracanjuba_CaldasNovas, dq_Piracanjuba_ProfJamil, dq_CaldasNovas_ProfJamil]
  have h1 : Real.sqrt ((221/625 : ℚ) : ℝ) ≤ (3716517187/6250000000 : ℝ) :=
    sqrt_le_of_sq_le (by norm_num) (by push_cast; norm_num)
  have h2 : (2353720459/10000000000 : ℝ) ≤ Real.sqrt ((277/5000 : ℚ) : ℝ) :=
    le_sqrt_of_sq_le (by norm_num) (by push_cast; norm_num)
  have h3 : (319249119/400000000 : ℝ) ≤ Real.sqrt ((637/1000 : ℚ) : ℝ) :=
    le_sqrt_of_sq_le (by norm_num) (by push_cast; norm_num)
  linarith

theorem tri_Piracanjuba_CaldasNovas_Cristianopolis :
    dist "Piracanjuba" "CaldasNovas" < dist "Piracanjuba" "Cristianopolis" + dist "CaldasNovas" "Cristianopolis" := by
  rw [dq_Piracanjuba_CaldasNovas, dq_Piracanjuba_Cristianopolis, dq_CaldasNovas_Cristianopolis]
  have h1 : Real.sqrt ((221/625 : ℚ) : ℝ) ≤ (3716517187/6250000000 : ℝ) :=
    sqrt_le_of_sq_le (by norm_num) (by push_cast; norm_num)
  have h2 : (3383784863/10000000000 : ℝ) ≤ Real.sqrt ((229/2000 : ℚ) : ℝ) :=
    le_sqrt_of_sq_le (by norm_num) (by push_cast; norm_num)
  have h3 : (27789386463/50000000000 : ℝ) ≤ Real.sqrt ((3089/10000 : ℚ) : ℝ) :=
    le_sqrt_of_sq_le (by norm_num) (by push_cast; norm_num)
  linarith

theorem tri_Piracanjuba_CaldasNovas_Formiga :
    dist "Piracanjuba" "CaldasNovas" < dist "Piracanjuba" "Formiga" + dist "CaldasNovas" "Formiga" := by
  rw [dq_Piracanjuba_CaldasNovas, dq_Piracanjuba_Formiga, dq_CaldasNovas_Formiga]
  have h1 : Real.sqrt ((221/625 : ℚ) : ℝ) ≤ (3716517187/6250000000 : ℝ) :=
    sqrt_le_of_sq_le (by norm_num) (by push_cast; norm_num)
  have h2 : (35510561809/100000000000 : ℝ) ≤ Real.sqrt ((1261/10000 : ℚ) : ℝ) :=
    le_sqrt_of_sq_le (by norm_num) (by push_cast; norm_num)
  have h3 : (46872166581/100000000000 : ℝ) ≤ Real.sqrt ((2197/10000 : ℚ) : ℝ) :=
    le_sqrt_of_sq_le (by norm_num) (by push_cast; norm_num)
  linarith

theorem tri_Piracanjuba_Cristianopolis_BelaVista :
    dist "Piracanjuba" "Cristianopolis" < dist "Piracanjuba" "BelaVista" + dist "Cristianopolis" "BelaVista" := by
  rw [dq_Piracanjuba_Cristianopolis, dq_Piracanjuba_BelaVista, dq_Cristianopolis_BelaVista]
  have h1 : Real.sqrt ((229/2000 : ℚ) : ℝ) ≤ (6767569727/20000000000 : ℝ) :=
    sqrt_le_of_sq_le (by norm_num) (by push_cast; norm_num)
  have h2 : (4172079817/12500000000 : ℝ) ≤ Real.sqrt ((557/5000 : ℚ) : ℝ) :=
    le_sqrt_of_sq_le (by norm_num) (by push_cast; norm_num)
  have h3 : (17414074767/50000000000 : ℝ) ≤ Real.sqrt ((1213/10000 : ℚ) : ℝ) :=
    le_sqrt_of_sq_le (by norm_num) (by push_cast; norm_num)
  linarith

theorem tri_Piracanjuba_Cristianopolis_ProfJamil :
    dist "Piracanjuba" "Cristianopolis" < dist "Piracanjuba" "ProfJamil" + dist "Cristianopolis" "ProfJamil" := by
  rw [dq_Piracanjuba_Cristianopolis, dq_Piracanjuba_ProfJamil, dq_Cristianopolis_ProfJamil]
  have h1 : Real.sqrt ((229/2000 : ℚ) : ℝ) ≤ (6767569727/20000000000 : ℝ) :=
    sqrt_le_of_sq_le (by norm_num) (by push_cast; norm_num)
  have h2 : (2353720459/10000000000 : ℝ) ≤ Real.sqrt ((277/5000 : ℚ) : ℝ) :=
    le_sqrt_of_sq_le (by norm_num) (by push_cast; norm_num)
  have h3 : (27663152387/50000000000 : ℝ) ≤ Real.sqrt ((3061/10000 : ℚ) : ℝ) :=
    le_sqrt_of_sq_le (by norm_num) (by push_cast; norm_num)
  linarith

theorem tri_Piracanjuba_Cristianopolis_CaldasNovas :
    dist "Piracanjuba" "Cristianopolis" < dist "Piracanjuba" "CaldasNovas" + dist "Cristianopolis" "CaldasNovas" := by
  rw [dq_Piracanjuba_Cristianopolis, dq_Piracanjuba_CaldasNovas, dq_Cristianopolis_CaldasNovas]
  have h1 : Real.sqrt ((229/2000 : ℚ) : ℝ) ≤ (6767569727/20000000000 : ℝ) :=
    sqrt_le_of_sq_le (by norm_num) (by push_cast; norm_num)
  have h2 : (1858258593/3125000000 : ℝ) ≤ Real.sqrt ((221/625 : ℚ) : ℝ) :=
    le_sqrt_of_sq_le (by norm_num) (by push_cast; norm_num)
  have h3 : (27789386463/50000000000 : ℝ) ≤ Real.sqrt ((3089/10000 : ℚ) : ℝ) :=
    le_sqrt_of_sq_le (by norm_num) (by push_cast; norm_num)
  linarith

theorem tri_Piracanjuba_Cristianopolis_Formiga :
    dist "Piracanjuba" "Cristianopolis" < dist "Piracanjuba" "Formiga" + dist "Cristianopolis" "Formiga" := by
  rw [dq_Piracanjuba_Cristianopolis, dq_Piracanjuba_Formiga, dq_Cristianopolis_Formiga]
  have h1 : Real.sqrt ((229/2000 : ℚ) : ℝ) ≤ (6767569727/20000000000 : ℝ) :=
    sqrt_le_of_sq_le (by norm_num) (by push_cast; norm_num)
  have h2 : (35510561809/100000000000 : ℝ) ≤ Real.sqrt ((1261/10000 : ℚ) : ℝ) :=
    le_sqrt_of_sq_le (by norm_num) (by push_cast; norm_num)
  have h3 : (1491643389/2500000000 : ℝ) ≤ Real.sqrt ((89/250 : ℚ) : ℝ) :=
    le_sqrt_of_sq_le (by norm_num) (by push_cast; norm_num)
  linarith

theorem tri_Piracanjuba_Formiga_BelaVista :
    dist "Piracanjuba" "Formiga" < dist "Piracanjuba" "BelaVista" + dist "Formiga" "BelaVista" := by
  rw [dq_Piracanjuba_Formiga, dq_Piracanjuba_BelaVista, dq_Formiga_BelaVista]
  have h1 : Real.sqrt ((1261/10000 : ℚ) : ℝ) ≤ (3551056181/10000000000 : ℝ) :=
    sqrt_le_of_sq_le (by norm_num) (by push_cast; norm_num)
  have h2 : (4172079817/12500000000 : ℝ) ≤ Real.sqrt ((557/5000 : ℚ) : ℝ) :=
    le_sqrt_of_sq_le (by norm_num) (by push_cast; norm_num)
  have h3 : (13776792079/20000000000 : ℝ) ≤ Real.sqrt ((949/2000 : ℚ) : ℝ) :=
    le_sqrt_of_sq_le (by norm_num) (by push_cast; norm_num)
  linarith

theorem tri_Piracanjuba_Formiga_ProfJamil :
    dist "Piracanjuba" "Formiga" < dist "Piracanjuba" "ProfJamil" + dist "Formiga" "ProfJamil" := by
  rw [dq_Piracanjuba_Formiga, dq_Piracanjuba_ProfJamil, dq_Formiga_ProfJamil]
  have h1 : Real.sqrt ((1261/10000 : ℚ) : ℝ) ≤ (3551056181/10000000000 : ℝ) :=
    sqrt_le_of_sq_le (by norm_num) (by push_cast; norm_num)
  have h2 : (2353720459/10000000000 : ℝ) ≤ Real.sqrt ((277/5000 : ℚ) : ℝ) :=
    le_sqrt_of_sq_le (by norm_num) (by push_cast; norm_num)
  have h3 : (5432828453/12500000000 : ℝ) ≤ Real.sqrt ((1889/10000 : ℚ) : ℝ) :=
    le_sqrt_of_sq_le (by norm_num) (by push_cast; norm_num)
  linarith

theorem tri_Piracanjuba_Formiga_CaldasNovas :
    dist "Piracanjuba" "Formiga" < dist "Piracanjuba" "CaldasNovas" + dist "Formiga" "CaldasNovas" := by
  rw [dq_Piracanjuba_Formiga, dq_Piracanjuba_CaldasNovas, dq_Formiga_CaldasNovas]
  have h1 : Real.sqrt ((1261/10000 : ℚ) : ℝ) ≤ (3551056181/10000000000 : ℝ) :=
    sqrt_le_of_sq_le (by norm_num) (by push_cast; norm_num)
  have h2 : (1858258593/3125000000 : ℝ) ≤ Real.sqrt ((221/625 : ℚ) : ℝ) :=
    le_sqrt_of_sq_le (by norm_num) (by push_cast; norm_num)
  have h3 : (46872166581/100000000000 : ℝ) ≤ Real.sqrt ((2197/10000 : ℚ) : ℝ) :=
    le_sqrt_of_sq_le (by norm_num) (by push_cast; norm_num)
  linarith

theorem tri_Piracanjuba_Formiga_Cristianopolis :
    dist "Piracanjuba" "Formiga" < dist "Piracanjuba" "Cristianopolis" + dist "Formiga" "Cristianopolis" := by
  rw [dq_Piracanjuba_Formiga, dq_Piracanjuba_Cristianopolis, dq_Formiga_Cristianopolis]
  have h1 : Real.sqrt ((1261/10000 : ℚ) : ℝ) ≤ (3551056181/10000000000 : ℝ) :=
    sqrt_le_of_sq_le (by norm_num) (by push_cast; norm_num)
  have h2 : (3383784863/10000000000 : ℝ) ≤ Real.sqrt ((229/2000 : ℚ) : ℝ) :=
    le_sqrt_of_sq_le (by norm_num) (by push_cast; norm_num)
  have h3 : (1491643389/2500000000 : ℝ) ≤ Real.sqrt ((89/250 : ℚ) : ℝ) :=
    le_sqrt_of_sq_le (by norm_num) (by push_cast; norm_num)
  linarith

theorem tri_Morrinhos_ProfJamil_CaldasNovas :
    dist "Morrinhos" "ProfJamil" < dist "Morrinhos" "CaldasNovas" + dist "ProfJamil" "CaldasNovas" := by
  rw [dq_Morrinhos_ProfJamil, dq_Morrinhos_CaldasNovas, dq_ProfJamil_CaldasNovas]
  have h1 : Real.sqrt ((2473/10000 : ℚ) : ℝ) ≤ (49729267037/100000000000 : ℝ) :=
    sqrt_le_of_sq_le (by norm_num) (by push_cast; norm_num)
  have h2 : (50009999/100000000 : ℝ) ≤ Real.sqrt ((2501/10000 : ℚ) : ℝ) :=
    le_sqrt_of_sq_le (by norm_num) (by push_cast; norm_num)
  have h3 : (319249119/400000000 : ℝ) ≤ Real.sqrt ((637/1000 : ℚ) : ℝ) :=
    le_sqrt_of_sq_le (by norm_num) (by push_cast; norm_num)
  linarith

theorem tri_Morrinhos_CaldasNovas_ProfJamil :
    dist "Morrinhos" "CaldasNovas" < dist "Morrinhos" "ProfJamil" + dist "CaldasNovas" "ProfJamil" := by
  rw [dq_Morrinhos_CaldasNovas, dq_Morrinhos_ProfJamil, dq_CaldasNovas_ProfJamil]
  have h1 : Real.sqrt ((2501/10000 : ℚ) : ℝ) ≤ (50009999001/100000000000 : ℝ) :=
    sqrt_le_of_sq_le (by norm_num) (by push_cast; norm_num)
  have h2 : (12432316759/25000000000 : ℝ) ≤ Real.sqrt ((2473/10000 : ℚ) : ℝ) :=
    le_sqrt_of_sq_le (by norm_num) (by push_cast; norm_num)
  have h3 : (319249119/400000000 : ℝ) ≤ Real.sqrt ((637/1000 : ℚ) : ℝ) :=
    le_sqrt_of_sq_le (by norm_num) (by push_cast; norm_num)
  linarith

theorem tri_CaldasNovas_Cristianopolis_Piracanjuba :
    dist "CaldasNovas" "Cristianopolis" < dist "CaldasNovas" "Piracanjuba" + dist "Cristianopolis" "Piracanjuba" := by
  rw [dq_CaldasNovas_Cristianopolis, dq_CaldasNovas_Piracanjuba, dq_Cristianopolis_Piracanjuba]
  have h1 : Real.sqrt ((3089/10000 : ℚ) : ℝ) ≤ (55578772927/100000000000 : ℝ) :=
    sqrt_le_of_sq_le (by norm_num) (by push_cast; norm_num)
  have h2 : (1858258593/3125000000 : ℝ) ≤ Real.sqrt ((221/625 : ℚ) : ℝ) :=
    le_sqrt_of_sq_le (by norm_num) (by push_cast; norm_num)
  have h3 : (3383784863/10000000000 : ℝ) ≤ Real.sqrt ((229/2000 : ℚ) : ℝ) :=
    le_sqrt_of_sq_le (by norm_num) (by push_cast; norm_num)
  linarith

theorem tri_CaldasNovas_Cristianopolis_Morrinhos :
    dist "CaldasNovas" "Cristianopolis" < dist "CaldasNovas" "Morrinhos" + dist "Cristianopolis" "Morrinhos" := by
  rw [dq_CaldasNovas_Cristianopolis, dq_CaldasNovas_Morrinhos, dq_Cristianopolis_Morrinhos]
  have h1 : Real.sqrt ((3089/10000 : ℚ) : ℝ) ≤ (55578772927/100000000000 : ℝ) :=
    sqrt_le_of_sq_le (by norm_num) (by push_cast; norm_num)
  have h2 : (50009999/100000000 : ℝ) ≤ Real.sqrt ((2501/10000 : ℚ) : ℝ) :=
    le_sqrt_of_sq_le (by norm_num) (by push_cast; norm_num)
  have h3 : (1710263137/2500000000 : ℝ) ≤ Real.sqrt ((117/250 : ℚ) : ℝ) :=
    le_sqrt_of_sq_le (by norm_num) (by push_cast; norm_num)
  linarith

theorem tri_CaldasNovas_Piracanjuba_Cristianopolis :
    dist "CaldasNovas" "Piracanjuba" < dist "CaldasNovas" "Cristianopolis" + dist "Piracanjuba" "Cristianopolis" := by
  rw [dq_CaldasNovas_Piracanjuba, dq_CaldasNovas_Cristianopolis, dq_Piracanjuba_Cristianopolis]
  have h1 : Real.sqrt ((221/625 : ℚ) : ℝ) ≤ (3716517187/6250000000 : ℝ) :=
    sqrt_le_of_sq_le (by norm_num) (by push_cast; norm_num)
  have h2 : (27789386463/50000000000 : ℝ) ≤ Real.sqrt ((3089/10000 : ℚ) : ℝ) :=
    le_sqrt_of_sq_le (by norm_num) (by push_cast; norm_num)
  have h3 : (3383784863/10000000000 : ℝ) ≤ Real.sqrt ((229/2000 : ℚ) : ℝ) :=
    le_sqrt_of_sq_le (by norm_num) (by push_cast; norm_num)
  linarith

theorem tri_CaldasNovas_Piracanjuba_Morrinhos :
    dist "CaldasNovas" "Piracanjuba" < dist "CaldasNovas" "Morrinhos" + dist "Piracanjuba" "Morrinhos" := by
  rw [dq_CaldasNovas_Piracanjuba, dq_CaldasNovas_Morrinhos, dq_Piracanjuba_Morrinhos]
  have h1 : Real.sqrt ((221/625 : ℚ) : ℝ) ≤ (3716517187/6250000000 : ℝ) :=
    sqrt_le_of_sq_le (by norm_num) (by push_cast; norm_num)
  have h2 : (50009999/100000000 : ℝ) ≤ Real.sqrt ((2501/10000 : ℚ) : ℝ) :=
    le_sqrt_of_sq_le (by norm_num) (by push_cast; norm_num)
  have h3 : (44147480109/100000000000 : ℝ) ≤ Real.sqrt ((1949/10000 : ℚ) : ℝ) :=
    le_sqrt_of_sq_le (by norm_num) (by push_cast; norm_num)
  linarith

theorem tri_CaldasNovas_Morrinhos_Cristianopolis :
    dist "CaldasNovas" "Morrinhos" < dist "CaldasNovas" "Cristianopolis" + dist "Morrinhos" "Cristianopolis" := by
  rw [dq_CaldasNovas_Morrinhos, dq_CaldasNovas_Cristianopolis, dq_Morrinhos_Cristianopolis]
  have h1 : Real.sqrt ((2501/10000 : ℚ) : ℝ) ≤ (50009999001/100000000000 : ℝ) :=
    sqrt_le_of_sq_le (by norm_num) (by push_cast; norm_num)
  have h2 : (27789386463/50000000000 : ℝ) ≤ Real.sqrt ((3089/10000 : ℚ) : ℝ) :=
    le_sqrt_of_sq_le (by norm_num) (by push_cast; norm_num)
  have h3 : (1710263137/2500000000 : ℝ) ≤ Real.sqrt ((117/250 : ℚ) : ℝ) :=
    le_sqrt_of_sq_le (by norm_num) (by push_cast; norm_num)
  linarith

theorem tri_CaldasNovas_Morrinhos_Piracanjuba :
    dist "CaldasNovas" "Morrinhos" < dist "CaldasNovas" "Piracanjuba" + dist "Morrinhos" "Piracanjuba" := by
  rw [dq_CaldasNovas_Morrinhos, dq_CaldasNovas_Piracanjuba, dq_Morrinhos_Piracanjuba]
  have h1 : Real.sqrt ((2501/10000 : ℚ) : ℝ) ≤ (50009999001/100000000000 : ℝ) :=
    sqrt_le_of_sq_le (by norm_num) (by push_cast; norm_num)
  have h2 : (1858258593/3125000000 : ℝ) ≤ Real.sqrt ((221/625 : ℚ) : ℝ) :=
    le_sqrt_of_sq_le (by norm_num) (by push_cast; norm_num)
  have h3 : (44147480109/100000000000 : ℝ) ≤ Real.sqrt ((1949/10000 : ℚ) : ℝ) :=
    le_sqrt_of_sq_le (by norm_num) (by push_cast; norm_num)
  linarith

theorem tri_all :
    ∀ a b c : String, a ∈ keys → b ∈ get_neighbours a →
      c ∈ get_neighbours a → c ≠ b →
      dist a b < dist a c + dist b c := by
  intro a b c ha hb hc hne
  have ha2 :       a = "Goiania" ∨ a = "Hidrolandia" ∨ a = "BelaVista" ∨ a = "ProfJamil" ∨ a = "Cristianopolis" ∨ a = "Piracanjuba" ∨ a = "Formiga" ∨ a = "Morrinhos" ∨ a = "CaldasNovas" := by
    simpa [keys, cities] using ha
  rcases ha2 with rfl | rfl | rfl | rfl | rfl | rfl | rfl | rfl | rfl
  · rw [nbrs_Goiania] at hb hc
    have hb2 : b = "Hidrolandia" ∨ b = "BelaVista" := by simpa using hb
    have hc2 : c = "Hidrolandia" ∨ c = "BelaVista" := by simpa using hc
    rcases hb2 with rfl | rfl <;> rcases hc2 with rfl | rfl
    · exact absurd rfl hne
    · exact tri_Goiania_Hidrolandia_BelaVista
    · exact tri_Goiania_BelaVista_Hidrolandia
    · exact absurd rfl hne
  · rw [nbrs_Hidrolandia] at hb hc
    have hb2 : b = "Goiania" ∨ b = "ProfJamil" ∨ b = "BelaVista" := by simpa using hb
    have hc2 : c = "Goiania" ∨ c = "ProfJamil" ∨ c = "BelaVista" := by simpa using hc
    rcases hb2 with rfl | rfl | rfl <;> rcases hc2 with rfl | rfl | rfl
    · exact absurd rfl hne
    · exact tri_Hidrolandia_Goiania_ProfJamil
    · exact tri_Hidrolandia_Goiania_BelaVista
    · exact tri_Hidrolandia_ProfJamil_Goiania
    · exact absurd rfl hne
    · exact tri_Hidrolandia_ProfJamil_BelaVista
    · exact tri_Hidrolandia_BelaVista_Goiania
    · exact tri_Hidrolandia_BelaVista_ProfJamil
    · exact absurd rfl hne
  · rw [nbrs_BelaVista] at hb hc
    have hb2 : b = "Goiania" ∨ b = "Hidrolandia" ∨ b = "Piracanjuba" ∨ b = "Cristianopolis" := by simpa using hb
    have hc2 : c = "Goiania" ∨ c = "Hidrolandia" ∨ c = "Piracanjuba" ∨ c = "Cristianopolis" := by simpa using hc
    rcases hb2 with rfl | rfl | rfl | rfl <;> rcases hc2 with rfl | rfl | rfl | rfl
    · exact absurd rfl hne
    · exact tri_BelaVista_Goiania_Hidrolandia
    · exact tri_BelaVista_Goiania_Piracanjuba
    · exact tri_BelaVista_Goiania_Cristianopolis
    · exact tri_BelaVista_Hidrolandia_Goiania
    · exact absurd rfl hne
    · exact tri_BelaVista_Hidrolandia_Piracanjuba
    · exact tri_BelaVista_Hidrolandia_Cristianopolis
    · exact tri_BelaVista_Piracanjuba_Goiania
    · exact tri_BelaVista_Piracanjuba_Hidrolandia
    · exact absurd rfl hne
    · exact tri_BelaVista_Piracanjuba_Cristianopolis
    · exact tri_BelaVista_Cristianopolis_Goiania
    · exact tri_BelaVista_Cristianopolis_Hidrolandia
    · exact tri_BelaVista_Cristianopolis_Piracanjuba
    · exact absurd rfl hne
  · rw [nbrs_ProfJamil] at hb hc
    have hb2 : b = "Hidrolandia" ∨ b = "Morrinhos" ∨ b = "Piracanjuba" := by simpa using hb
    have hc2 : c = "Hidrolandia" ∨ c = "Morrinhos" ∨ c = "Piracanjuba" := by simpa using hc
    rcases hb2 with rfl | rfl | rfl <;> rcases hc2 with rfl | rfl | rfl
    · exact absurd rfl hne
    · exact tri_ProfJamil_Hidrolandia_Morrinhos
    · exact tri_ProfJamil_Hidrolandia_Piracanjuba
    · exact tri_ProfJamil_Morrinhos_Hidrolandia
    · exact absurd rfl hne
    · exact tri_ProfJamil_Morrinhos_Piracanjuba
    · exact tri_ProfJamil_Piracanjuba_Hidrolandia
    · exact tri_ProfJamil_Piracanjuba_Morrinhos
    · exact absurd rfl hne
  · rw [nbrs_Cristianopolis] at hb hc
    have hb2 : b = "BelaVista" ∨ b = "Piracanjuba" ∨ b = "CaldasNovas" := by simpa using hb
    have hc2 : c = "BelaVista" ∨ c = "Piracanjuba" ∨ c = "CaldasNovas" := by simpa using hc
    rcases hb2 with rfl | rfl | rfl <;> rcases hc2 with rfl | rfl | rfl
    · exact absurd rfl hne
    · exact tri_Cristianopolis_BelaVista_Piracanjuba
    · exact tri_Cristianopolis_BelaVista_CaldasNovas
    · exact tri_Cristianopolis_Piracanjuba_BelaVista
    · exact absurd rfl hne
    · exact tri_Cristianopolis_Piracanjuba_CaldasNovas
    · exact tri_Cristianopolis_CaldasNovas_BelaVista
    · exact tri_Cristianopolis_CaldasNovas_Piracanjuba
    · exact absurd rfl hne
  · rw [nbrs_Piracanjuba] at hb hc
    have hb2 : b = "BelaVista" ∨ b = "ProfJamil" ∨ b = "CaldasNovas" ∨ b = "Cristianopolis" ∨ b = "Formiga" := by simpa using hb
    have hc2 : c = "BelaVista" ∨ c = "ProfJamil" ∨ c = "CaldasNovas" ∨ c = "Cristianopolis" ∨ c = "Formiga" := by simpa using hc
    rcases hb2 with rfl | rfl | rfl | rfl | rfl <;> rcases hc2 with rfl | rfl | rfl | rfl | rfl
    · exact absurd rfl hne
    · exact tri_Piracanjuba_BelaVista_ProfJamil
    · exact tri_Piracanjuba_BelaVista_CaldasNovas
    · exact tri_Piracanjuba_BelaVista_Cristianopolis
    · exact tri_Piracanjuba_BelaVista_Formiga
    · exact tri_Piracanjuba_ProfJamil_BelaVista
    · exact absurd rfl hne
    · exact tri_Piracanjuba_ProfJamil_CaldasNovas
    · exact tri_Piracanjuba_ProfJamil_Cristianopolis
    · exact tri_Piracanjuba_ProfJamil_Formiga
    · exact tri_Piracanjuba_CaldasNovas_BelaVista
    · exact tri_Piracanjuba_CaldasNovas_ProfJamil
    · exact absurd rfl hne
    · exact tri_Piracanjuba_CaldasNovas_Cristianopolis
    · exact tri_Piracanjuba_CaldasNovas_Formiga
    · exact tri_Piracanjuba_Cristianopolis_BelaVista
    · exact tri_Piracanjuba_Cristianopolis_ProfJamil
    · exact tri_Piracanjuba_Cristianopolis_CaldasNovas
    · exact absurd rfl hne
    · exact tri_Piracanjuba_Cristianopolis_Formiga
    · exact tri_Piracanjuba_Formiga_BelaVista
    · exact tri_Piracanjuba_Formiga_ProfJamil
    · exact tri_Piracanjuba_Formiga_CaldasNovas
    · exact tri_Piracanjuba_Formiga_Cristianopolis
    · exact absurd rfl hne
  · rw [nbrs_Formiga] at hb hc
    have hb2 : b = "Piracanjuba" := by simpa using hb
    have hc2 : c = "Piracanjuba" := by simpa using hc
    subst hb2; subst hc2
    exact absurd rfl hne
  · rw [nbrs_Morrinhos] at hb hc
    have hb2 : b = "ProfJamil" ∨ b = "CaldasNovas" := by simpa using hb
    have hc2 : c = "ProfJamil" ∨ c = "CaldasNovas" := by simpa using hc
    rcases hb2 with rfl | rfl <;> rcases hc2 with rfl | rfl
    · exact absurd rfl hne
    · exact tri_Morrinhos_ProfJamil_CaldasNovas
    · exact tri_Morrinhos_CaldasNovas_ProfJamil
    · exact absurd rfl hne
  · rw [nbrs_CaldasNovas] at hb hc
    have hb2 : b = "Cristianopolis" ∨ b = "Piracanjuba" ∨ b = "Morrinhos" := by simpa using hb
    have hc2 : c = "Cristianopolis" ∨ c = "Piracanjuba" ∨ c = "Morrinhos" := by simpa using hc
    rcases hb2 with rfl | rfl | rfl <;> rcases hc2 with rfl | rfl | rfl
    · exact absurd rfl hne
    · exact tri_CaldasNovas_Cristianopolis_Piracanjuba
    · exact tri_CaldasNovas_Cristianopolis_Morrinhos
    · exact tri_CaldasNovas_Piracanjuba_Cristianopolis
    · exact absurd rfl hne
    · exact tri_CaldasNovas_Piracanjuba_Morrinhos
    · exact tri_CaldasNovas_Morrinhos_Cristianopolis
    · exact tri_CaldasNovas_Morrinhos_Piracanjuba
    · exact absurd rfl hne

/-- C6: for nodes `a`, `b` with `b` on `a`'s neighbour list, a fresh
search from `a` to `b` pops the initial route, expands `a`'s neighbours,
and then pops the route `[a, b]` — strictly minimal-score on the fringe
by the strict triangle inequality of the map's coordinates — returning it
with cost `dist a b` (and estimate `distance(b, b) = 0`). -/
theorem search_direct_neighbour :
    ∀ a b : String, a ∈ keys → b ∈ get_neighbours a →
      (search initState a b).1 = .found ⟨[a, b], dist a b, 0⟩ := by
  intro a b ha hb
  rcases find_city_of_mem ha with ⟨ca, hca, hcaid⟩
  have hbk : b ∈ keys := nbrs_subset_keys hb
  rcases find_city_of_mem hbk with ⟨cb, hcb, hcbid⟩
  have hcalc : calc_cartesian_distance a b = some (dist a b) := calc_eq_dist hca hcb
  have hba : b ≠ a := mem_nbrs_ne hb
  unfold search
  rw [hcalc]
  show (searchLoop a b (potM [⟨[a], 0, dist a b⟩] + 1) ⟨[⟨[a], 0, dist a b⟩], []⟩).1
      = .found ⟨[a, b], dist a b, 0⟩
  rw [searchLoop]
  have hnext1 : next_route [(⟨[a], 0, dist a b⟩ : Route)] = ⟨[a], 0, dist a b⟩ := rfl
  have hlast1 : (⟨[a], 0, dist a b⟩ : Route).last_city_id = a := rfl
  have hbeq : (a == b) = false := by
    simpa using fun h => hba h.symm
  simp only [hnext1, hlast1, hbeq, Bool.false_eq_true, if_false, List.nil_append,
    List.dropLast_single]
  -- the fringe after expanding a
  have hfilt : (get_neighbours a).filter (fun nb => !([a].contains nb))
      = get_neighbours a := by
    apply List.filter_eq_self.mpr
    intro x hx
    rw [contains_eq]
    simpa using mem_nbrs_ne hx
  have hperm : (add_routes_for_neighbours [] [a] ⟨[a], 0, dist a b⟩ b).Perm
      ((get_neighbours a).map (child ⟨[a], 0, dist a b⟩ b)) := by
    have h0 := add_routes_perm [] [a] ⟨[a], 0, dist a b⟩ b
    rw [hlast1, hfilt] at h0
    simpa using h0
  have hsorted : SortedDesc (add_routes_for_neighbours [] [a] ⟨[a], 0, dist a b⟩ b) :=
    add_routes_sorted List.Pairwise.nil
  have hbmem : child ⟨[a], 0, dist a b⟩ b b
      ∈ add_routes_for_neighbours [] [a] ⟨[a], 0, dist a b⟩ b := by
    rw [hperm.mem_iff]
    exact List.mem_map.mpr ⟨b, hb, rfl⟩
  have hbh : (child ⟨[a], 0, dist a b⟩ b b).heuristic = dist a b := by
    show (dist (⟨[a], 0, dist a b⟩ : Route).last_city_id b + 0) + dist b b = dist a b
    rw [hlast1, dist_self, add_zero, add_zero]
  have hmin : ∀ y ∈ add_routes_for_neighbours [] [a] ⟨[a], 0, dist a b⟩ b,
      y = child ⟨[a], 0, dist a b⟩ b b
        ∨ (child ⟨[a], 0, dist a b⟩ b b).heuristic < y.heuristic := by
    intro y hy
    rw [hperm.mem_iff] at hy
    rcases List.mem_map.mp hy with ⟨nb, hnb, rfl⟩
    by_cases hnbb : nb = b
    · subst hnbb
      exact Or.inl rfl
    · right
      have hyh : (child ⟨[a], 0, dist a b⟩ b nb).heuristic = dist a nb + dist b nb := by
        show (dist (⟨[a], 0, dist a b⟩ : Route).last_city_id nb + 0) + dist b nb
            = dist a nb + dist b nb
        rw [hlast1, add_zero]
      rw [hbh, hyh]
      exact tri_all a b nb ha hb hnb hnbb
  obtain ⟨c2, f2, hFcons⟩ :=
    List.exists_cons_of_ne_nil (List.ne_nil_of_mem hbmem)
  obtain ⟨m, hm⟩ : ∃ m, potM [(⟨[a], 0, dist a b⟩ : Route)] = m + 1 := by
    refine ⟨potM [(⟨[a], 0, dist a b⟩ : Route)] - 1, ?_⟩
    have h1 := pot_pos (⟨[a], 0, dist a b⟩ : Route)
    have h2 : potM [(⟨[a], 0, dist a b⟩ : Route)] = pot ⟨[a], 0, dist a b⟩ := by
      simp [potM]
    omega
  rw [hm, hFcons, searchLoop]
  rw [hFcons] at hsorted hbmem
  have hmin2 : ∀ y ∈ c2 :: f2, y = child ⟨[a], 0, dist a b⟩ b b
      ∨ (child ⟨[a], 0, dist a b⟩ b b).heuristic < y.heuristic := by
    intro y hy
    exact hmin y (hFcons ▸ hy)
  have hnext2 : next_route (c2 :: f2) = child ⟨[a], 0, dist a b⟩ b b :=
    next_route_of_strict_min hsorted hbmem hmin2
  have hlast2 : (child ⟨[a], 0, dist a b⟩ b b).last_city_id = b := child_last _ _ _
  simp only [hnext2, hlast2, beq_self_eq_true, if_true]
  show SearchResult.found (child ⟨[a], 0, dist a b⟩ b b) = _
  have hroute : child ⟨[a], 0, dist a b⟩ b b = ⟨[a, b], dist a b, 0⟩ := by
    show (⟨[a] ++ [b], dist (⟨[a], 0, dist a b⟩ : Route).last_city_id b + 0, dist b b⟩ : Route)
        = ⟨[a, b], dist a b, 0⟩
    rw [hlast1, dist_self, add_zero]
    rfl
  rw [hroute]

/-- Witness for C6 at the concrete edge Goiania → Hidrolandia. -/
theorem search_direct_neighbour_witness :
    (search initState "Goiania" "Hidrolandia").1
      = .found ⟨["Goiania", "Hidrolandia"], dist "Goiania" "Hidrolandia", 0⟩ :=
  search_direct_neighbour "Goiania" "Hidrolandia" (by decide) (by decide)

/-! ## Concrete simulation runs: distance values -/

theorem dq_Formiga_Goiania :
    dist "Formiga" "Goiania" = Real.sqrt ((1901/2000 : ℚ) : ℝ) := by
  rw [dist_eq_of_cities fc_Formiga fc_Goiania]
  have h : sq_dist ⟨"Formiga", -17.65, -49.08, ["Piracanjuba"]⟩
      ⟨"Goiania", -16.69, -49.25, ["Hidrolandia", "BelaVista"]⟩ = 1901/2000 := by
    norm_num [sq_dist]
  rw [h]

theorem dq_Formiga_Piracanjuba :
    dist "Formiga" "Piracanjuba" = Real.sqrt ((1261/10000 : ℚ) : ℝ) := by
  rw [dist_eq_of_cities fc_Formiga fc_Piracanjuba]
  have h : sq_dist ⟨"Formiga", -17.65, -49.08, ["Piracanjuba"]⟩
      ⟨"Piracanjuba", -17.30, -49.02, ["BelaVista", "ProfJamil", "CaldasNovas", "Cristianopolis", "Formiga"]⟩ = 1261/10000 := by
    norm_num [sq_dist]
  rw [h]

theorem dq_Goiania_CaldasNovas :
    dist "Goiania" "CaldasNovas" = Real.sqrt ((7497/5000 : ℚ) : ℝ) := by
  rw [dist_eq_of_cities fc_Goiania fc_CaldasNovas]
  have h : sq_dist ⟨"Goiania", -16.69, -49.25, ["Hidrolandia", "BelaVista"]⟩
      ⟨"CaldasNovas", -17.74, -48.62, ["Cristianopolis", "Piracanjuba", "Morrinhos"]⟩ = 7497/5000 := by
    norm_num [sq_dist]
  rw [h]

/-! ## Concrete simulation runs: score comparison certificates -/

theorem scert_1 :
    Route.heuristic (⟨["Goiania", "Hidrolandia"], dist "Goiania" "Hidrolandia" + 0, dist "Hidrolandia" "Hidrolandia"⟩ : Route)
      < Route.heuristic (⟨["Goiania", "BelaVista"], dist "Goiania" "BelaVista" + 0, dist "Hidrolandia" "BelaVista"⟩ : Route) := by
  show dist "Goiania" "Hidrolandia" + 0 + dist "Hidrolandia" "Hidrolandia" < dist "Goiania" "BelaVista" + 0 + dist "Hidrolandia" "BelaVista"
  rw [dq_Goiania_Hidrolandia, dq_Goiania_BelaVista, dq_Hidrolandia_BelaVista, dist_self "Hidrolandia"]
  have hb1 : Real.sqrt ((793/10000 : ℚ) : ℝ) ≤ (28160255681/100000000000 : ℝ) :=
    sqrt_le_of_sq_le (by norm_num) (by push_cast; norm_num)
  have hb2 : (1237436867/3125000000 : ℝ) ≤ Real.sqrt ((98/625 : ℚ) : ℝ) :=
    le_sqrt_of_sq_le (by norm_num) (by push_cast; norm_num)
  have hb3 : (1/4 : ℝ) ≤ Real.sqrt ((1/16 : ℚ) : ℝ) :=
    le_sqrt_of_sq_le (by norm_num) (by push_cast; norm_num)
  linarith

theorem scert_2 :
    Route.heuristic (⟨["BelaVista"], 0, dist "BelaVista" "Goiania"⟩ : Route)
      ≤ Route.heuristic (⟨["Goiania", "BelaVista"], dist "Goiania" "BelaVista" + 0, dist "Hidrolandia" "BelaVista"⟩ : Route) := by
  show 0 + dist "BelaVista" "Goiania" ≤ dist "Goiania" "BelaVista" + 0 + dist "Hidrolandia" "BelaVista"
  rw [dq_BelaVista_Goiania, dq_Goiania_BelaVista, dq_Hidrolandia_BelaVista]
  have hb1 : Real.sqrt ((98/625 : ℚ) : ℝ) ≤ (494974747/1250000000 : ℝ) :=
    sqrt_le_of_sq_le (by norm_num) (by push_cast; norm_num)
  have hb2 : (1237436867/3125000000 : ℝ) ≤ Real.sqrt ((98/625 : ℚ) : ℝ) :=
    le_sqrt_of_sq_le (by norm_num) (by push_cast; norm_num)
  have hb3 : (1/4 : ℝ) ≤ Real.sqrt ((1/16 : ℚ) : ℝ) :=
    le_sqrt_of_sq_le (by norm_num) (by push_cast; norm_num)
  linarith

theorem scert_3 :
    Route.heuristic (⟨["BelaVista", "Goiania"], dist "BelaVista" "Goiania" + 0, dist "Goiania" "Goiania"⟩ : Route)
      ≤ Route.heuristic (⟨["Goiania", "BelaVista"], dist "Goiania" "BelaVista" + 0, dist "Hidrolandia" "BelaVista"⟩ : Route) := by
  show dist "BelaVista" "Goiania" + 0 + dist "Goiania" "Goiania" ≤ dist "Goiania" "BelaVista" + 0 + dist "Hidrolandia" "BelaVista"
  rw [dq_BelaVista_Goiania, dq_Goiania_BelaVista, dq_Hidrolandia_BelaVista, dist_self "Goiania"]
  have hb1 : Real.sqrt ((98/625 : ℚ) : ℝ) ≤ (494974747/1250000000 : ℝ) :=
    sqrt_le_of_sq_le (by norm_num) (by push_cast; norm_num)
  have hb2 : (1237436867/3125000000 : ℝ) ≤ Real.sqrt ((98/625 : ℚ) : ℝ) :=
    le_sqrt_of_sq_le (by norm_num) (by push_cast; norm_num)
  have hb3 : (1/4 : ℝ) ≤ Real.sqrt ((1/16 : ℚ) : ℝ) :=
    le_sqrt_of_sq_le (by norm_num) (by push_cast; norm_num)
  linarith

theorem scert_4 :
    Route.heuristic (⟨["BelaVista", "Hidrolandia"], dist "BelaVista" "Hidrolandia" + 0, dist "Goiania" "Hidrolandia"⟩ : Route)
      ≤ Route.heuristic (⟨["Goiania", "BelaVista"], dist "Goiania" "BelaVista" + 0, dist "Hidrolandia" "BelaVista"⟩ : Route) := by
  show dist "BelaVista" "Hidrolandia" + 0 + dist "Goiania" "Hidrolandia" ≤ dist "Goiania" "BelaVista" + 0 + dist "Hidrolandia" "BelaVista"
  rw [dq_BelaVista_Hidrolandia, dq_Goiania_Hidrolandia, dq_Goiania_BelaVista, dq_Hidrolandia_BelaVista]
  have hb1 : Real.sqrt ((1/16 : ℚ) : ℝ) ≤ (40000001/160000000 : ℝ) :=
    sqrt_le_of_sq_le (by norm_num) (by push_cast; norm_num)
  have hb2 : Real.sqrt ((793/10000 : ℚ) : ℝ) ≤ (28160255681/100000000000 : ℝ) :=
    sqrt_le_of_sq_le (by norm_num) (by push_cast; norm_num)
  have hb3 : (1237436867/3125000000 : ℝ) ≤ Real.sqrt ((98/625 : ℚ) : ℝ) :=
    le_sqrt_of_sq_le (by norm_num) (by push_cast; norm_num)
  have hb4 : (1/4 : ℝ) ≤ Real.sqrt ((1/16 : ℚ) : ℝ) :=
    le_sqrt_of_sq_le (by norm_num) (by push_cast; norm_num)
  linarith

theorem scert_5 :
    Route.heuristic (⟨["BelaVista", "Goiania"], dist "BelaVista" "Goiania" + 0, dist "Goiania" "Goiania"⟩ : Route)
      < Route.heuristic (⟨["BelaVista", "Hidrolandia"], dist "BelaVista" "Hidrolandia" + 0, dist "Goiania" "Hidrolandia"⟩ : Route) := by
  show dist "BelaVista" "Goiania" + 0 + dist "Goiania" "Goiania" < dist "BelaVista" "Hidrolandia" + 0 + dist "Goiania" "Hidrolandia"
  rw [dq_BelaVista_Goiania, dq_BelaVista_Hidrolandia, dq_Goiania_Hidrolandia, dist_self "Goiania"]
  have hb1 : Real.sqrt ((98/625 : ℚ) : ℝ) ≤ (494974747/1250000000 : ℝ) :=
    sqrt_le_of_sq_le (by norm_num) (by push_cast; norm_num)
  have hb2 : (1/4 : ℝ) ≤ Real.sqrt ((1/16 : ℚ) : ℝ) :=
    le_sqrt_of_sq_le (by norm_num) (by push_cast; norm_num)
  have hb3 : (88000799/312500000 : ℝ) ≤ Real.sqrt ((793/10000 : ℚ) : ℝ) :=
    le_sqrt_of_sq_le (by norm_num) (by push_cast; norm_num)
  linarith

theorem scert_6 :
    Route.heuristic (⟨["Goiania", "BelaVista"], dist "Goiania" "BelaVista" + 0, dist "Hidrolandia" "BelaVista"⟩ : Route)
      < Route.heuristic (⟨["BelaVista", "Piracanjuba"], dist "BelaVista" "Piracanjuba" + 0, dist "Goiania" "Piracanjuba"⟩ : Route) := by
  show dist "Goiania" "BelaVista" + 0 + dist "Hidrolandia" "BelaVista" < dist "BelaVista" "Piracanjuba" + 0 + dist "Goiania" "Piracanjuba"
  rw [dq_Goiania_BelaVista, dq_Hidrolandia_BelaVista, dq_BelaVista_Piracanjuba, dq_Goiania_Piracanjuba]
  have hb1 : Real.sqrt ((98/625 : ℚ) : ℝ) ≤ (494974747/1250000000 : ℝ) :=
    sqrt_le_of_sq_le (by norm_num) (by push_cast; norm_num)
  have hb2 : Real.sqrt ((1/16 : ℚ) : ℝ) ≤ (40000001/160000000 : ℝ) :=
    sqrt_le_of_sq_le (by norm_num) (by push_cast; norm_num)
  have hb3 : (4172079817/12500000000 : ℝ) ≤ Real.sqrt ((557/5000 : ℚ) : ℝ) :=
    le_sqrt_of_sq_le (by norm_num) (by push_cast; norm_num)
  have hb4 : (8149003/12500000 : ℝ) ≤ Real.sqrt ((17/40 : ℚ) : ℝ) :=
    le_sqrt_of_sq_le (by norm_num) (by push_cast; norm_num)
  linarith

theorem scert_7 :
    Route.heuristic (⟨["BelaVista", "Piracanjuba"], dist "BelaVista" "Piracanjuba" + 0, dist "Goiania" "Piracanjuba"⟩ : Route)
      < Route.heuristic (⟨["BelaVista", "Cristianopolis"], dist "BelaVista" "Cristianopolis" + 0, dist "Goiania" "Cristianopolis"⟩ : Route) := by
  show dist "BelaVista" "Piracanjuba" + 0 + dist "Goiania" "Piracanjuba" < dist "BelaVista" "Cristianopolis" + 0 + dist "Goiania" "Cristianopolis"
  rw [dq_BelaVista_Piracanjuba, dq_Goiania_Piracanjuba, dq_BelaVista_Cristianopolis, dq_Goiania_Cristianopolis]
  have hb1 : Real.sqrt ((557/5000 : ℚ) : ℝ) ≤ (16688319269/50000000000 : ℝ) :=
    sqrt_le_of_sq_le (by norm_num) (by push_cast; norm_num)
  have hb2 : Real.sqrt ((17/40 : ℚ) : ℝ) ≤ (260768097/400000000 : ℝ) :=
    sqrt_le_of_sq_le (by norm_num) (by push_cast; norm_num)
  have hb3 : (17414074767/50000000000 : ℝ) ≤ Real.sqrt ((1213/10000 : ℚ) : ℝ) :=
    le_sqrt_of_sq_le (by norm_num) (by push_cast; norm_num)
  have hb4 : (2973213749/4000000000 : ℝ) ≤ Real.sqrt ((221/400 : ℚ) : ℝ) :=
    le_sqrt_of_sq_le (by norm_num) (by push_cast; norm_num)
  linarith

theorem scert_8 :
    Route.heuristic (⟨["Goiania", "BelaVista"], dist "Goiania" "BelaVista" + 0, dist "Hidrolandia" "BelaVista"⟩ : Route)
      < Route.heuristic (⟨["Formiga"], 0, dist "Formiga" "Goiania"⟩ : Route) := by
  show dist "Goiania" "BelaVista" + 0 + dist "Hidrolandia" "BelaVista" < 0 + dist "Formiga" "Goiania"
  rw [dq_Goiania_BelaVista, dq_Hidrolandia_BelaVista, dq_Formiga_Goiania]
  have hb1 : Real.sqrt ((98/625 : ℚ) : ℝ) ≤ (494974747/1250000000 : ℝ) :=
    sqrt_le_of_sq_le (by norm_num) (by push_cast; norm_num)
  have hb2 : Real.sqrt ((1/16 : ℚ) : ℝ) ≤ (40000001/160000000 : ℝ) :=
    sqrt_le_of_sq_le (by norm_num) (by push_cast; norm_num)
  have hb3 : (9749358953/10000000000 : ℝ) ≤ Real.sqrt ((1901/2000 : ℚ) : ℝ) :=
    le_sqrt_of_sq_le (by norm_num) (by push_cast; norm_num)
  linarith

theorem scert_9 :
    Route.heuristic (⟨["Goiania", "BelaVista", "Hidrolandia"], dist "BelaVista" "Hidrolandia" + (dist "Goiania" "BelaVista" + 0), dist "Goiania" "Hidrolandia"⟩ : Route)
      ≤ Route.heuristic (⟨["Formiga"], 0, dist "Formiga" "Goiania"⟩ : Route) := by
  show dist "BelaVista" "Hidrolandia" + (dist "Goiania" "BelaVista" + 0) + dist "Goiania" "Hidrolandia" ≤ 0 + dist "Formiga" "Goiania"
  rw [dq_BelaVista_Hidrolandia, dq_Goiania_BelaVista, dq_Goiania_Hidrolandia, dq_Formiga_Goiania]
  have hb1 : Real.sqrt ((1/16 : ℚ) : ℝ) ≤ (40000001/160000000 : ℝ) :=
    sqrt_le_of_sq_le (by norm_num) (by push_cast; norm_num)
  have hb2 : Real.sqrt ((98/625 : ℚ) : ℝ) ≤ (494974747/1250000000 : ℝ) :=
    sqrt_le_of_sq_le (by norm_num) (by push_cast; norm_num)
  have hb3 : Real.sqrt ((793/10000 : ℚ) : ℝ) ≤ (28160255681/100000000000 : ℝ) :=
    sqrt_le_of_sq_le (by norm_num) (by push_cast; norm_num)
  have hb4 : (9749358953/10000000000 : ℝ) ≤ Real.sqrt ((1901/2000 : ℚ) : ℝ) :=
    le_sqrt_of_sq_le (by norm_num) (by push_cast; norm_num)
  linarith

theorem scert_10 :
    Route.heuristic (⟨["Formiga"], 0, dist "Formiga" "Goiania"⟩ : Route)
      < Route.heuristic (⟨["Goiania", "BelaVista", "Piracanjuba"], dist "BelaVista" "Piracanjuba" + (dist "Goiania" "BelaVista" + 0), dist "Goiania" "Piracanjuba"⟩ : Route) := by
  show 0 + dist "Formiga" "Goiania" < dist "BelaVista" "Piracanjuba" + (dist "Goiania" "BelaVista" + 0) + dist "Goiania" "Piracanjuba"
  rw [dq_Formiga_Goiania, dq_BelaVista_Piracanjuba, dq_Goiania_BelaVista, dq_Goiania_Piracanjuba]
  have hb1 : Real.sqrt ((1901/2000 : ℚ) : ℝ) ≤ (19498717907/20000000000 : ℝ) :=
    sqrt_le_of_sq_le (by norm_num) (by push_cast; norm_num)
  have hb2 : (4172079817/12500000000 : ℝ) ≤ Real.sqrt ((557/5000 : ℚ) : ℝ) :=
    le_sqrt_of_sq_le (by norm_num) (by push_cast; norm_num)
  have hb3 : (1237436867/3125000000 : ℝ) ≤ Real.sqrt ((98/625 : ℚ) : ℝ) :=
    le_sqrt_of_sq_le (by norm_num) (by push_cast; norm_num)
  have hb4 : (8149003/12500000 : ℝ) ≤ Real.sqrt ((17/40 : ℚ) : ℝ) :=
    le_sqrt_of_sq_le (by norm_num) (by push_cast; norm_num)
  linarith

theorem scert_11 :
    Route.heuristic (⟨["Goiania", "BelaVista", "Piracanjuba"], dist "BelaVista" "Piracanjuba" + (dist "Goiania" "BelaVista" + 0), dist "Goiania" "Piracanjuba"⟩ : Route)
      < Route.heuristic (⟨["Goiania", "BelaVista", "Cristianopolis"], dist "BelaVista" "Cristianopolis" + (dist "Goiania" "BelaVista" + 0), dist "Goiania" "Cristianopolis"⟩ : Route) := by
  show dist "BelaVista" "Piracanjuba" + (dist "Goiania" "BelaVista" + 0) + dist "Goiania" "Piracanjuba" < dist "BelaVista" "Cristianopolis" + (dist "Goiania" "BelaVista" + 0) + dist "Goiania" "Cristianopolis"
  rw [dq_BelaVista_Piracanjuba, dq_Goiania_BelaVista, dq_Goiania_Piracanjuba, dq_BelaVista_Cristianopolis, dq_Goiania_Cristianopolis]
  have hb1 : Real.sqrt ((557/5000 : ℚ) : ℝ) ≤ (16688319269/50000000000 : ℝ) :=
    sqrt_le_of_sq_le (by norm_num) (by push_cast; norm_num)
  have hb2 : Real.sqrt ((98/625 : ℚ) : ℝ) ≤ (494974747/1250000000 : ℝ) :=
    sqrt_le_of_sq_le (by norm_num) (by push_cast; norm_num)
  have hb3 : Real.sqrt ((17/40 : ℚ) : ℝ) ≤ (260768097/400000000 : ℝ) :=
    sqrt_le_of_sq_le (by norm_num) (by push_cast; norm_num)
  have hb4 : (17414074767/50000000000 : ℝ) ≤ Real.sqrt ((1213/10000 : ℚ) : ℝ) :=
    le_sqrt_of_sq_le (by norm_num) (by push_cast; norm_num)
  have hb5 : (1237436867/3125000000 : ℝ) ≤ Real.sqrt ((98/625 : ℚ) : ℝ) :=
    le_sqrt_of_sq_le (by norm_num) (by push_cast; norm_num)
  have hb6 : (2973213749/4000000000 : ℝ) ≤ Real.sqrt ((221/400 : ℚ) : ℝ) :=
    le_sqrt_of_sq_le (by norm_num) (by push_cast; norm_num)
  linarith

theorem scert_12 :
    Route.heuristic (⟨["Goiania", "BelaVista", "Cristianopolis"], dist "BelaVista" "Cristianopolis" + (dist "Goiania" "BelaVista" + 0), dist "Goiania" "Cristianopolis"⟩ : Route)
      < Route.heuristic (⟨["Goiania", "BelaVista", "Hidrolandia", "ProfJamil"], dist "Hidrolandia" "ProfJamil" + (dist "BelaVista" "Hidrolandia" + (dist "Goiania" "BelaVista" + 0)), dist "Goiania" "ProfJamil"⟩ : Route) := by
  show dist "BelaVista" "Cristianopolis" + (dist "Goiania" "BelaVista" + 0) + dist "Goiania" "Cristianopolis" < dist "Hidrolandia" "ProfJamil" + (dist "BelaVista" "Hidrolandia" + (dist "Goiania" "BelaVista" + 0)) + dist "Goiania" "ProfJamil"
  rw [dq_BelaVista_Cristianopolis, dq_Goiania_BelaVista, dq_Goiania_Cristianopolis, dq_Hidrolandia_ProfJamil, dq_BelaVista_Hidrolandia, dq_Goiania_ProfJamil]
  have hb1 : Real.sqrt ((1213/10000 : ℚ) : ℝ) ≤ (6965629907/20000000000 : ℝ) :=
    sqrt_le_of_sq_le (by norm_num) (by push_cast; norm_num)
  have hb2 : Real.sqrt ((98/625 : ℚ) : ℝ) ≤ (494974747/1250000000 : ℝ) :=
    sqrt_le_of_sq_le (by norm_num) (by push_cast; norm_num)
  have hb3 : Real.sqrt ((221/400 : ℚ) : ℝ) ≤ (2378571/3200000 : ℝ) :=
    sqrt_le_of_sq_le (by norm_num) (by push_cast; norm_num)
  have hb4 : (88000799/312500000 : ℝ) ≤ Real.sqrt ((793/10000 : ℚ) : ℝ) :=
    le_sqrt_of_sq_le (by norm_num) (by push_cast; norm_num)
  have hb5 : (1/4 : ℝ) ≤ Real.sqrt ((1/16 : ℚ) : ℝ) :=
    le_sqrt_of_sq_le (by norm_num) (by push_cast; norm_num)
  have hb6 : (1237436867/3125000000 : ℝ) ≤ Real.sqrt ((98/625 : ℚ) : ℝ) :=
    le_sqrt_of_sq_le (by norm_num) (by push_cast; norm_num)
  have hb7 : (14/25 : ℝ) ≤ Real.sqrt ((196/625 : ℚ) : ℝ) :=
    le_sqrt_of_sq_le (by norm_num) (by push_cast; norm_num)
  linarith

theorem scert_13 :
    Route.heuristic (⟨["Formiga", "Piracanjuba"], dist "Formiga" "Piracanjuba" + 0, dist "Goiania" "Piracanjuba"⟩ : Route)
      ≤ Route.heuristic (⟨["Goiania", "BelaVista", "Hidrolandia", "ProfJamil"], dist "Hidrolandia" "ProfJamil" + (dist "BelaVista" "Hidrolandia" + (dist "Goiania" "BelaVista" + 0)), dist "Goiania" "ProfJamil"⟩ : Route) := by
  show dist "Formiga" "Piracanjuba" + 0 + dist "Goiania" "Piracanjuba" ≤ dist "Hidrolandia" "ProfJamil" + (dist "BelaVista" "Hidrolandia" + (dist "Goiania" "BelaVista" + 0)) + dist "Goiania" "ProfJamil"
  rw [dq_Formiga_Piracanjuba, dq_Goiania_Piracanjuba, dq_Hidrolandia_ProfJamil, dq_BelaVista_Hidrolandia, dq_Goiania_BelaVista, dq_Goiania_ProfJamil]
  have hb1 : Real.sqrt ((1261/10000 : ℚ) : ℝ) ≤ (3551056181/10000000000 : ℝ) :=
    sqrt_le_of_sq_le (by norm_num) (by push_cast; norm_num)
  have hb2 : Real.sqrt ((17/40 : ℚ) : ℝ) ≤ (260768097/400000000 : ℝ) :=
    sqrt_le_of_sq_le (by norm_num) (by push_cast; norm_num)
  have hb3 : (88000799/312500000 : ℝ) ≤ Real.sqrt ((793/10000 : ℚ) : ℝ) :=
    le_sqrt_of_sq_le (by norm_num) (by push_cast; norm_num)
  have hb4 : (1/4 : ℝ) ≤ Real.sqrt ((1/16 : ℚ) : ℝ) :=
    le_sqrt_of_sq_le (by norm_num) (by push_cast; norm_num)
  have hb5 : (1237436867/3125000000 : ℝ) ≤ Real.sqrt ((98/625 : ℚ) : ℝ) :=
    le_sqrt_of_sq_le (by norm_num) (by push_cast; norm_num)
  have hb6 : (14/25 : ℝ) ≤ Real.sqrt ((196/625 : ℚ) : ℝ) :=
    le_sqrt_of_sq_le (by norm_num) (by push_cast; norm_num)
  linarith

theorem scert_14 :
    Route.heuristic (⟨["Formiga", "Piracanjuba"], dist "Formiga" "Piracanjuba" + 0, dist "Goiania" "Piracanjuba"⟩ : Route)
      ≤ Route.heuristic (⟨["Goiania", "BelaVista", "Cristianopolis"], dist "BelaVista" "Cristianopolis" + (dist "Goiania" "BelaVista" + 0), dist "Goiania" "Cristianopolis"⟩ : Route) := by
  show dist "Formiga" "Piracanjuba" + 0 + dist "Goiania" "Piracanjuba" ≤ dist "BelaVista" "Cristianopolis" + (dist "Goiania" "BelaVista" + 0) + dist "Goiania" "Cristianopolis"
  rw [dq_Formiga_Piracanjuba, dq_Goiania_Piracanjuba, dq_BelaVista_Cristianopolis, dq_Goiania_BelaVista, dq_Goiania_Cristianopolis]
  have hb1 : Real.sqrt ((1261/10000 : ℚ) : ℝ) ≤ (3551056181/10000000000 : ℝ) :=
    sqrt_le_of_sq_le (by norm_num) (by push_cast; norm_num)
  have hb2 : Real.sqrt ((17/40 : ℚ) : ℝ) ≤ (260768097/400000000 : ℝ) :=
    sqrt_le_of_sq_le (by norm_num) (by push_cast; norm_num)
  have hb3 : (17414074767/50000000000 : ℝ) ≤ Real.sqrt ((1213/10000 : ℚ) : ℝ) :=
    le_sqrt_of_sq_le (by norm_num) (by push_cast; norm_num)
  have hb4 : (1237436867/3125000000 : ℝ) ≤ Real.sqrt ((98/625 : ℚ) : ℝ) :=
    le_sqrt_of_sq_le (by norm_num) (by push_cast; norm_num)
  have hb5 : (2973213749/4000000000 : ℝ) ≤ Real.sqrt ((221/400 : ℚ) : ℝ) :=
    le_sqrt_of_sq_le (by norm_num) (by push_cast; norm_num)
  linarith

theorem scert_15 :
    Route.heuristic (⟨["Formiga", "Piracanjuba"], dist "Formiga" "Piracanjuba" + 0, dist "Goiania" "Piracanjuba"⟩ : Route)
      ≤ Route.heuristic (⟨["Goiania", "BelaVista", "Piracanjuba"], dist "BelaVista" "Piracanjuba" + (dist "Goiania" "BelaVista" + 0), dist "Goiania" "Piracanjuba"⟩ : Route) := by
  show dist "Formiga" "Piracanjuba" + 0 + dist "Goiania" "Piracanjuba" ≤ dist "BelaVista" "Piracanjuba" + (dist "Goiania" "BelaVista" + 0) + dist "Goiania" "Piracanjuba"
  rw [dq_Formiga_Piracanjuba, dq_Goiania_Piracanjuba, dq_BelaVista_Piracanjuba, dq_Goiania_BelaVista]
  have hb1 : Real.sqrt ((1261/10000 : ℚ) : ℝ) ≤ (3551056181/10000000000 : ℝ) :=
    sqrt_le_of_sq_le (by norm_num) (by push_cast; norm_num)
  have hb2 : Real.sqrt ((17/40 : ℚ) : ℝ) ≤ (260768097/400000000 : ℝ) :=
    sqrt_le_of_sq_le (by norm_num) (by push_cast; norm_num)
  have hb3 : (4172079817/12500000000 : ℝ) ≤ Real.sqrt ((557/5000 : ℚ) : ℝ) :=
    le_sqrt_of_sq_le (by norm_num) (by push_cast; norm_num)
  have hb4 : (1237436867/3125000000 : ℝ) ≤ Real.sqrt ((98/625 : ℚ) : ℝ) :=
    le_sqrt_of_sq_le (by norm_num) (by push_cast; norm_num)
  have hb5 : (8149003/12500000 : ℝ) ≤ Real.sqrt ((17/40 : ℚ) : ℝ) :=
    le_sqrt_of_sq_le (by norm_num) (by push_cast; norm_num)
  linarith

theorem scert_16 :
    Route.heuristic (⟨["Formiga", "Piracanjuba", "ProfJamil"], dist "Piracanjuba" "ProfJamil" + (dist "Formiga" "Piracanjuba" + 0), dist "Goiania" "ProfJamil"⟩ : Route)
      ≤ Route.heuristic (⟨["Goiania", "BelaVista", "Hidrolandia", "ProfJamil"], dist "Hidrolandia" "ProfJamil" + (dist "BelaVista" "Hidrolandia" + (dist "Goiania" "BelaVista" + 0)), dist "Goiania" "ProfJamil"⟩ : Route) := by
  show dist "Piracanjuba" "ProfJamil" + (dist "Formiga" "Piracanjuba" + 0) + dist "Goiania" "ProfJamil" ≤ dist "Hidrolandia" "ProfJamil" + (dist "BelaVista" "Hidrolandia" + (dist "Goiania" "BelaVista" + 0)) + dist "Goiania" "ProfJamil"
  rw [dq_Piracanjuba_ProfJamil, dq_Formiga_Piracanjuba, dq_Goiania_ProfJamil, dq_Hidrolandia_ProfJamil, dq_BelaVista_Hidrolandia, dq_Goiania_BelaVista]
  have hb1 : Real.sqrt ((277/5000 : ℚ) : ℝ) ≤ (1471075287/6250000000 : ℝ) :=
    sqrt_le_of_sq_le (by norm_num) (by push_cast; norm_num)
  have hb2 : Real.sqrt ((1261/10000 : ℚ) : ℝ) ≤ (3551056181/10000000000 : ℝ) :=
    sqrt_le_of_sq_le (by norm_num) (by push_cast; norm_num)
  have hb3 : Real.sqrt ((196/625 : ℚ) : ℝ) ≤ (3500000001/6250000000 : ℝ) :=
    sqrt_le_of_sq_le (by norm_num) (by push_cast; norm_num)
  have hb4 : (88000799/312500000 : ℝ) ≤ Real.sqrt ((793/10000 : ℚ) : ℝ) :=
    le_sqrt_of_sq_le (by norm_num) (by push_cast; norm_num)
  have hb5 : (1/4 : ℝ) ≤ Real.sqrt ((1/16 : ℚ) : ℝ) :=
    le_sqrt_of_sq_le (by norm_num) (by push_cast; norm_num)
  have hb6 : (1237436867/3125000000 : ℝ) ≤ Real.sqrt ((98/625 : ℚ) : ℝ) :=
    le_sqrt_of_sq_le (by norm_num) (by push_cast; norm_num)
  have hb7 : (14/25 : ℝ) ≤ Real.sqrt ((196/625 : ℚ) : ℝ) :=
    le_sqrt_of_sq_le (by norm_num) (by push_cast; norm_num)
  linarith

theorem scert_17 :
    Route.heuristic (⟨["Formiga", "Piracanjuba", "ProfJamil"], dist "Piracanjuba" "ProfJamil" + (dist "Formiga" "Piracanjuba" + 0), dist "Goiania" "ProfJamil"⟩ : Route)
      ≤ Route.heuristic (⟨["Goiania", "BelaVista", "Cristianopolis"], dist "BelaVista" "Cristianopolis" + (dist "Goiania" "BelaVista" + 0), dist "Goiania" "Cristianopolis"⟩ : Route) := by
  show dist "Piracanjuba" "ProfJamil" + (dist "Formiga" "Piracanjuba" + 0) + dist "Goiania" "ProfJamil" ≤ dist "BelaVista" "Cristianopolis" + (dist "Goiania" "BelaVista" + 0) + dist "Goiania" "Cristianopolis"
  rw [dq_Piracanjuba_ProfJamil, dq_Formiga_Piracanjuba, dq_Goiania_ProfJamil, dq_BelaVista_Cristianopolis, dq_Goiania_BelaVista, dq_Goiania_Cristianopolis]
  have hb1 : Real.sqrt ((277/5000 : ℚ) : ℝ) ≤ (1471075287/6250000000 : ℝ) :=
    sqrt_le_of_sq_le (by norm_num) (by push_cast; norm_num)
  have hb2 : Real.sqrt ((1261/10000 : ℚ) : ℝ) ≤ (3551056181/10000000000 : ℝ) :=
    sqrt_le_of_sq_le (by norm_num) (by push_cast; norm_num)
  have hb3 : Real.sqrt ((196/625 : ℚ) : ℝ) ≤ (3500000001/6250000000 : ℝ) :=
    sqrt_le_of_sq_le (by norm_num) (by push_cast; norm_num)
  have hb4 : (17414074767/50000000000 : ℝ) ≤ Real.sqrt ((1213/10000 : ℚ) : ℝ) :=
    le_sqrt_of_sq_le (by norm_num) (by push_cast; norm_num)
  have hb5 : (1237436867/3125000000 : ℝ) ≤ Real.sqrt ((98/625 : ℚ) : ℝ) :=
    le_sqrt_of_sq_le (by norm_num) (by push_cast; norm_num)
  have hb6 : (2973213749/4000000000 : ℝ) ≤ Real.sqrt ((221/400 : ℚ) : ℝ) :=
    le_sqrt_of_sq_le (by norm_num) (by push_cast; norm_num)
  linarith

theorem scert_18 :
    Route.heuristic (⟨["Formiga", "Piracanjuba", "ProfJamil"], dist "Piracanjuba" "ProfJamil" + (dist "Formiga" "Piracanjuba" + 0), dist "Goiania" "ProfJamil"⟩ : Route)
      ≤ Route.heuristic (⟨["Goiania", "BelaVista", "Piracanjuba"], dist "BelaVista" "Piracanjuba" + (dist "Goiania" "BelaVista" + 0), dist "Goiania" "Piracanjuba"⟩ : Route) := by
  show dist "Piracanjuba" "ProfJamil" + (dist "Formiga" "Piracanjuba" + 0) + dist "Goiania" "ProfJamil" ≤ dist "BelaVista" "Piracanjuba" + (dist "Goiania" "BelaVista" + 0) + dist "Goiania" "Piracanjuba"
  rw [dq_Piracanjuba_ProfJamil, dq_Formiga_Piracanjuba, dq_Goiania_ProfJamil, dq_BelaVista_Piracanjuba, dq_Goiania_BelaVista, dq_Goiania_Piracanjuba]
  have hb1 : Real.sqrt ((277/5000 : ℚ) : ℝ) ≤ (1471075287/6250000000 : ℝ) :=
    sqrt_le_of_sq_le (by norm_num) (by push_cast; norm_num)
  have hb2 : Real.sqrt ((1261/10000 : ℚ) : ℝ) ≤ (3551056181/10000000000 : ℝ) :=
    sqrt_le_of_sq_le (by norm_num) (by push_cast; norm_num)
  have hb3 : Real.sqrt ((196/625 : ℚ) : ℝ) ≤ (3500000001/6250000000 : ℝ) :=
    sqrt_le_of_sq_le (by norm_num) (by push_cast; norm_num)
  have hb4 : (4172079817/12500000000 : ℝ) ≤ Real.sqrt ((557/5000 : ℚ) : ℝ) :=
    le_sqrt_of_sq_le (by norm_num) (by push_cast; norm_num)
  have hb5 : (1237436867/3125000000 : ℝ) ≤ Real.sqrt ((98/625 : ℚ) : ℝ) :=
    le_sqrt_of_sq_le (by norm_num) (by push_cast; norm_num)
  have hb6 : (8149003/12500000 : ℝ) ≤ Real.sqrt ((17/40 : ℚ) : ℝ) :=
    le_sqrt_of_sq_le (by norm_num) (by push_cast; norm_num)
  linarith

theorem scert_19 :
    Route.heuristic (⟨["Goiania", "BelaVista", "Hidrolandia", "ProfJamil"], dist "Hidrolandia" "ProfJamil" + (dist "BelaVista" "Hidrolandia" + (dist "Goiania" "BelaVista" + 0)), dist "Goiania" "ProfJamil"⟩ : Route)
      < Route.heuristic (⟨["Formiga", "Piracanjuba", "CaldasNovas"], dist "Piracanjuba" "CaldasNovas" + (dist "Formiga" "Piracanjuba" + 0), dist "Goiania" "CaldasNovas"⟩ : Route) := by
  show dist "Hidrolandia" "ProfJamil" + (dist "BelaVista" "Hidrolandia" + (dist "Goiania" "BelaVista" + 0)) + dist "Goiania" "ProfJamil" < dist "Piracanjuba" "CaldasNovas" + (dist "Formiga" "Piracanjuba" + 0) + dist "Goiania" "CaldasNovas"
  rw [dq_Hidrolandia_ProfJamil, dq_BelaVista_Hidrolandia, dq_Goiania_BelaVista, dq_Goiania_ProfJamil, dq_Piracanjuba_CaldasNovas, dq_Formiga_Piracanjuba, dq_Goiania_CaldasNovas]
  have hb1 : Real.sqrt ((793/10000 : ℚ) : ℝ) ≤ (28160255681/100000000000 : ℝ) :=
    sqrt_le_of_sq_le (by norm_num) (by push_cast; norm_num)
  have hb2 : Real.sqrt ((1/16 : ℚ) : ℝ) ≤ (40000001/160000000 : ℝ) :=
    sqrt_le_of_sq_le (by norm_num) (by push_cast; norm_num)
  have hb3 : Real.sqrt ((98/625 : ℚ) : ℝ) ≤ (494974747/1250000000 : ℝ) :=
    sqrt_le_of_sq_le (by norm_num) (by push_cast; norm_num)
  have hb4 : Real.sqrt ((196/625 : ℚ) : ℝ) ≤ (3500000001/6250000000 : ℝ) :=
    sqrt_le_of_sq_le (by norm_num) (by push_cast; norm_num)
  have hb5 : (1858258593/3125000000 : ℝ) ≤ Real.sqrt ((221/625 : ℚ) : ℝ) :=
    le_sqrt_of_sq_le (by norm_num) (by push_cast; norm_num)
  have hb6 : (35510561809/100000000000 : ℝ) ≤ Real.sqrt ((1261/10000 : ℚ) : ℝ) :=
    le_sqrt_of_sq_le (by norm_num) (by push_cast; norm_num)
  have hb7 : (12244998979/10000000000 : ℝ) ≤ Real.sqrt ((7497/5000 : ℚ) : ℝ) :=
    le_sqrt_of_sq_le (by norm_num) (by push_cast; norm_num)
  linarith

theorem scert_20 :
    Route.heuristic (⟨["Formiga", "Piracanjuba", "Cristianopolis"], dist "Piracanjuba" "Cristianopolis" + (dist "Formiga" "Piracanjuba" + 0), dist "Goiania" "Cristianopolis"⟩ : Route)
      ≤ Route.heuristic (⟨["Formiga", "Piracanjuba", "CaldasNovas"], dist "Piracanjuba" "CaldasNovas" + (dist "Formiga" "Piracanjuba" + 0), dist "Goiania" "CaldasNovas"⟩ : Route) := by
  show dist "Piracanjuba" "Cristianopolis" + (dist "Formiga" "Piracanjuba" + 0) + dist "Goiania" "Cristianopolis" ≤ dist "Piracanjuba" "CaldasNovas" + (dist "Formiga" "Piracanjuba" + 0) + dist "Goiania" "CaldasNovas"
  rw [dq_Piracanjuba_Cristianopolis, dq_Formiga_Piracanjuba, dq_Goiania_Cristianopolis, dq_Piracanjuba_CaldasNovas, dq_Goiania_CaldasNovas]
  have hb1 : Real.sqrt ((229/2000 : ℚ) : ℝ) ≤ (6767569727/20000000000 : ℝ) :=
    sqrt_le_of_sq_le (by norm_num) (by push_cast; norm_num)
  have hb2 : Real.sqrt ((1261/10000 : ℚ) : ℝ) ≤ (3551056181/10000000000 : ℝ) :=
    sqrt_le_of_sq_le (by norm_num) (by push_cast; norm_num)
  have hb3 : Real.sqrt ((221/400 : ℚ) : ℝ) ≤ (2378571/3200000 : ℝ) :=
    sqrt_le_of_sq_le (by norm_num) (by push_cast; norm_num)
  have hb4 : (1858258593/3125000000 : ℝ) ≤ Real.sqrt ((221/625 : ℚ) : ℝ) :=
    le_sqrt_of_sq_le (by norm_num) (by push_cast; norm_num)
  have hb5 : (35510561809/100000000000 : ℝ) ≤ Real.sqrt ((1261/10000 : ℚ) : ℝ) :=
    le_sqrt_of_sq_le (by norm_num) (by push_cast; norm_num)
  have hb6 : (12244998979/10000000000 : ℝ) ≤ Real.sqrt ((7497/5000 : ℚ) : ℝ) :=
    le_sqrt_of_sq_le (by norm_num) (by push_cast; norm_num)
  linarith

theorem scert_21 :
    Route.heuristic (⟨["Formiga", "Piracanjuba", "Cristianopolis"], dist "Piracanjuba" "Cristianopolis" + (dist "Formiga" "Piracanjuba" + 0), dist "Goiania" "Cristianopolis"⟩ : Route)
      ≤ Route.heuristic (⟨["Goiania", "BelaVista", "Hidrolandia", "ProfJamil"], dist "Hidrolandia" "ProfJamil" + (dist "BelaVista" "Hidrolandia" + (dist "Goiania" "BelaVista" + 0)), dist "Goiania" "ProfJamil"⟩ : Route) := by
  show dist "Piracanjuba" "Cristianopolis" + (dist "Formiga" "Piracanjuba" + 0) + dist "Goiania" "Cristianopolis" ≤ dist "Hidrolandia" "ProfJamil" + (dist "BelaVista" "Hidrolandia" + (dist "Goiania" "BelaVista" + 0)) + dist "Goiania" "ProfJamil"
  rw [dq_Piracanjuba_Cristianopolis, dq_Formiga_Piracanjuba, dq_Goiania_Cristianopolis, dq_Hidrolandia_ProfJamil, dq_BelaVista_Hidrolandia, dq_Goiania_BelaVista, dq_Goiania_ProfJamil]
  have hb1 : Real.sqrt ((229/2000 : ℚ) : ℝ) ≤ (6767569727/20000000000 : ℝ) :=
    sqrt_le_of_sq_le (by norm_num) (by push_cast; norm_num)
  have hb2 : Real.sqrt ((1261/10000 : ℚ) : ℝ) ≤ (3551056181/10000000000 : ℝ) :=
    sqrt_le_of_sq_le (by norm_num) (by push_cast; norm_num)
  have hb3 : Real.sqrt ((221/400 : ℚ) : ℝ) ≤ (2378571/3200000 : ℝ) :=
    sqrt_le_of_sq_le (by norm_num) (by push_cast; norm_num)
  have hb4 : (88000799/312500000 : ℝ) ≤ Real.sqrt ((793/10000 : ℚ) : ℝ) :=
    le_sqrt_of_sq_le (by norm_num) (by push_cast; norm_num)
  have hb5 : (1/4 : ℝ) ≤ Real.sqrt ((1/16 : ℚ) : ℝ) :=
    le_sqrt_of_sq_le (by norm_num) (by push_cast; norm_num)
  have hb6 : (1237436867/3125000000 : ℝ) ≤ Real.sqrt ((98/625 : ℚ) : ℝ) :=
    le_sqrt_of_sq_le (by norm_num) (by push_cast; norm_num)
  have hb7 : (14/25 : ℝ) ≤ Real.sqrt ((196/625 : ℚ) : ℝ) :=
    le_sqrt_of_sq_le (by norm_num) (by push_cast; norm_num)
  linarith

theorem scert_22 :
    Route.heuristic (⟨["Formiga", "Piracanjuba", "Cristianopolis"], dist "Piracanjuba" "Cristianopolis" + (dist "Formiga" "Piracanjuba" + 0), dist "Goiania" "Cristianopolis"⟩ : Route)
      ≤ Route.heuristic (⟨["Goiania", "BelaVista", "Cristianopolis"], dist "BelaVista" "Cristianopolis" + (dist "Goiania" "BelaVista" + 0), dist "Goiania" "Cristianopolis"⟩ : Route) := by
  show dist "Piracanjuba" "Cristianopolis" + (dist "Formiga" "Piracanjuba" + 0) + dist "Goiania" "Cristianopolis" ≤ dist "BelaVista" "Cristianopolis" + (dist "Goiania" "BelaVista" + 0) + dist "Goiania" "Cristianopolis"
  rw [dq_Piracanjuba_Cristianopolis, dq_Formiga_Piracanjuba, dq_Goiania_Cristianopolis, dq_BelaVista_Cristianopolis, dq_Goiania_BelaVista]
  have hb1 : Real.sqrt ((229/2000 : ℚ) : ℝ) ≤ (6767569727/20000000000 : ℝ) :=
    sqrt_le_of_sq_le (by norm_num) (by push_cast; norm_num)
  have hb2 : Real.sqrt ((1261/10000 : ℚ) : ℝ) ≤ (3551056181/10000000000 : ℝ) :=
    sqrt_le_of_sq_le (by norm_num) (by push_cast; norm_num)
  have hb3 : Real.sqrt ((221/400 : ℚ) : ℝ) ≤ (2378571/3200000 : ℝ) :=
    sqrt_le_of_sq_le (by norm_num) (by push_cast; norm_num)
  have hb4 : (17414074767/50000000000 : ℝ) ≤ Real.sqrt ((1213/10000 : ℚ) : ℝ) :=
    le_sqrt_of_sq_le (by norm_num) (by push_cast; norm_num)
  have hb5 : (1237436867/3125000000 : ℝ) ≤ Real.sqrt ((98/625 : ℚ) : ℝ) :=
    le_sqrt_of_sq_le (by norm_num) (by push_cast; norm_num)
  have hb6 : (2973213749/4000000000 : ℝ) ≤ Real.sqrt ((221/400 : ℚ) : ℝ) :=
    le_sqrt_of_sq_le (by norm_num) (by push_cast; norm_num)
  linarith

theorem scert_23 :
    Route.heuristic (⟨["Goiania", "BelaVista", "Piracanjuba"], dist "BelaVista" "Piracanjuba" + (dist "Goiania" "BelaVista" + 0), dist "Goiania" "Piracanjuba"⟩ : Route)
      < Route.heuristic (⟨["Formiga", "Piracanjuba", "Cristianopolis"], dist "Piracanjuba" "Cristianopolis" + (dist "Formiga" "Piracanjuba" + 0), dist "Goiania" "Cristianopolis"⟩ : Route) := by
  show dist "BelaVista" "Piracanjuba" + (dist "Goiania" "BelaVista" + 0) + dist "Goiania" "Piracanjuba" < dist "Piracanjuba" "Cristianopolis" + (dist "Formiga" "Piracanjuba" + 0) + dist "Goiania" "Cristianopolis"
  rw [dq_BelaVista_Piracanjuba, dq_Goiania_BelaVista, dq_Goiania_Piracanjuba, dq_Piracanjuba_Cristianopolis, dq_Formiga_Piracanjuba, dq_Goiania_Cristianopolis]
  have hb1 : Real.sqrt ((557/5000 : ℚ) : ℝ) ≤ (16688319269/50000000000 : ℝ) :=
    sqrt_le_of_sq_le (by norm_num) (by push_cast; norm_num)
  have hb2 : Real.sqrt ((98/625 : ℚ) : ℝ) ≤ (494974747/1250000000 : ℝ) :=
    sqrt_le_of_sq_le (by norm_num) (by push_cast; norm_num)
  have hb3 : Real.sqrt ((17/40 : ℚ) : ℝ) ≤ (260768097/400000000 : ℝ) :=
    sqrt_le_of_sq_le (by norm_num) (by push_cast; norm_num)
  have hb4 : (3383784863/10000000000 : ℝ) ≤ Real.sqrt ((229/2000 : ℚ) : ℝ) :=
    le_sqrt_of_sq_le (by norm_num) (by push_cast; norm_num)
  have hb5 : (35510561809/100000000000 : ℝ) ≤ Real.sqrt ((1261/10000 : ℚ) : ℝ) :=
    le_sqrt_of_sq_le (by norm_num) (by push_cast; norm_num)
  have hb6 : (2973213749/4000000000 : ℝ) ≤ Real.sqrt ((221/400 : ℚ) : ℝ) :=
    le_sqrt_of_sq_le (by norm_num) (by push_cast; norm_num)
  linarith

/-! ## Concrete simulation runs: insertion and iteration lemmas -/

theorem haddIniC : add_route [⟨["Goiania", "BelaVista"], dist "Goiania" "BelaVista" + 0, dist "Hidrolandia" "BelaVista"⟩] (⟨["BelaVista"], 0, dist "BelaVista" "Goiania"⟩ : Route)
    = [⟨["Goiania", "BelaVista"], dist "Goiania" "BelaVista" + 0, dist "Hidrolandia" "BelaVista"⟩, ⟨["BelaVista"], 0, dist "BelaVista" "Goiania"⟩] := by
  rw [add_route, if_neg (not_lt.mpr scert_2)]
  rw [add_route]

theorem haddIniB : add_route [⟨["Goiania", "BelaVista"], dist "Goiania" "BelaVista" + 0, dist "Hidrolandia" "BelaVista"⟩] (⟨["Formiga"], 0, dist "Formiga" "Goiania"⟩ : Route)
    = [⟨["Formiga"], 0, dist "Formiga" "Goiania"⟩, ⟨["Goiania", "BelaVista"], dist "Goiania" "BelaVista" + 0, dist "Hidrolandia" "BelaVista"⟩] := by
  rw [add_route, if_pos scert_8]

theorem stepA1 :
    ∀ n : ℕ, searchLoop "Goiania" "Hidrolandia" (n + 1) ⟨[⟨["Goiania"], 0, dist "Goiania" "Hidrolandia"⟩], []⟩
      = searchLoop "Goiania" "Hidrolandia" n ⟨[⟨["Goiania", "BelaVista"], dist "Goiania" "BelaVista" + 0, dist "Hidrolandia" "BelaVista"⟩, ⟨["Goiania", "Hidrolandia"], dist "Goiania" "Hidrolandia" + 0, dist "Hidrolandia" "Hidrolandia"⟩], ["Goiania"]⟩ := by
  intro n
  rw [searchLoop]
  have hnext : next_route [⟨["Goiania"], 0, dist "Goiania" "Hidrolandia"⟩] = ⟨["Goiania"], 0, dist "Goiania" "Hidrolandia"⟩ := rfl
  have hlast : Route.last_city_id (⟨["Goiania"], 0, dist "Goiania" "Hidrolandia"⟩ : Route) = "Goiania" := rfl
  have hbeq : ("Goiania" == "Hidrolandia") = false := rfl
  have hdrop : List.dropLast ([⟨["Goiania"], 0, dist "Goiania" "Hidrolandia"⟩] : List Route) = [] := rfl
  have happ : [] ++ ["Goiania"] = ["Goiania"] := rfl
  simp only [hnext, hlast, hbeq, Bool.false_eq_true, if_false, hdrop, happ]
  have hch1 : child (⟨["Goiania"], 0, dist "Goiania" "Hidrolandia"⟩ : Route) "Hidrolandia" "Hidrolandia" = (⟨["Goiania", "Hidrolandia"], dist "Goiania" "Hidrolandia" + 0, dist "Hidrolandia" "Hidrolandia"⟩ : Route) := rfl
  have hch2 : child (⟨["Goiania"], 0, dist "Goiania" "Hidrolandia"⟩ : Route) "Hidrolandia" "BelaVista" = (⟨["Goiania", "BelaVista"], dist "Goiania" "BelaVista" + 0, dist "Hidrolandia" "BelaVista"⟩ : Route) := rfl
  have hadd1 : add_route [] (⟨["Goiania", "Hidrolandia"], dist "Goiania" "Hidrolandia" + 0, dist "Hidrolandia" "Hidrolandia"⟩ : Route)
      = [⟨["Goiania", "Hidrolandia"], dist "Goiania" "Hidrolandia" + 0, dist "Hidrolandia" "Hidrolandia"⟩] := by
    rw [add_route]
  have hadd2 : add_route [⟨["Goiania", "Hidrolandia"], dist "Goiania" "Hidrolandia" + 0, dist "Hidrolandia" "Hidrolandia"⟩] (⟨["Goiania", "BelaVista"], dist "Goiania" "BelaVista" + 0, dist "Hidrolandia" "BelaVista"⟩ : Route)
      = [⟨["Goiania", "BelaVista"], dist "Goiania" "BelaVista" + 0, dist "Hidrolandia" "BelaVista"⟩, ⟨["Goiania", "Hidrolandia"], dist "Goiania" "Hidrolandia" + 0, dist "Hidrolandia" "Hidrolandia"⟩] := by
    rw [add_route, if_pos scert_1]
  have hexp : add_routes_for_neighbours [] ["Goiania"]
      ⟨["Goiania"], 0, dist "Goiania" "Hidrolandia"⟩ "Hidrolandia" = [⟨["Goiania", "BelaVista"], dist "Goiania" "BelaVista" + 0, dist "Hidrolandia" "BelaVista"⟩, ⟨["Goiania", "Hidrolandia"], dist "Goiania" "Hidrolandia" + 0, dist "Hidrolandia" "Hidrolandia"⟩] := by
    unfold add_routes_for_neighbours
    rw [hlast, nbrs_Goiania]
    rw [List.foldl_cons, if_neg (show ¬ (["Goiania"].contains "Hidrolandia") = true from by decide), hch1]
    rw [hadd1]
    rw [List.foldl_cons, if_neg (show ¬ (["Goiania"].contains "BelaVista") = true from by decide), hch2]
    rw [hadd2]
    rw [List.foldl_nil]
  rw [hexp]

theorem stepA2 :
    ∀ n : ℕ, searchLoop "Goiania" "Hidrolandia" (n + 1) ⟨[⟨["Goiania", "BelaVista"], dist "Goiania" "BelaVista" + 0, dist "Hidrolandia" "BelaVista"⟩, ⟨["Goiania", "Hidrolandia"], dist "Goiania" "Hidrolandia" + 0, dist "Hidrolandia" "Hidrolandia"⟩], ["Goiania"]⟩
      = (.found ⟨["Goiania", "Hidrolandia"], dist "Goiania" "Hidrolandia" + 0, dist "Hidrolandia" "Hidrolandia"⟩, ⟨[⟨["Goiania", "BelaVista"], dist "Goiania" "BelaVista" + 0, dist "Hidrolandia" "BelaVista"⟩], ["Goiania"]⟩) := by
  intro n
  rw [searchLoop]
  have hnext : next_route [⟨["Goiania", "BelaVista"], dist "Goiania" "BelaVista" + 0, dist "Hidrolandia" "BelaVista"⟩, ⟨["Goiania", "Hidrolandia"], dist "Goiania" "Hidrolandia" + 0, dist "Hidrolandia" "Hidrolandia"⟩] = ⟨["Goiania", "Hidrolandia"], dist "Goiania" "Hidrolandia" + 0, dist "Hidrolandia" "Hidrolandia"⟩ := rfl
  have hlast : Route.last_city_id (⟨["Goiania", "Hidrolandia"], dist "Goiania" "Hidrolandia" + 0, dist "Hidrolandia" "Hidrolandia"⟩ : Route) = "Hidrolandia" := rfl
  have hdrop : List.dropLast ([⟨["Goiania", "BelaVista"], dist "Goiania" "BelaVista" + 0, dist "Hidrolandia" "BelaVista"⟩, ⟨["Goiania", "Hidrolandia"], dist "Goiania" "Hidrolandia" + 0, dist "Hidrolandia" "Hidrolandia"⟩] : List Route) = [⟨["Goiania", "BelaVista"], dist "Goiania" "BelaVista" + 0, dist "Hidrolandia" "BelaVista"⟩] := rfl
  simp only [hnext, hlast, beq_self_eq_true, if_true, hdrop]

theorem stepC1 :
    ∀ n : ℕ, searchLoop "BelaVista" "Goiania" (n + 1) ⟨[⟨["Goiania", "BelaVista"], dist "Goiania" "BelaVista" + 0, dist "Hidrolandia" "BelaVista"⟩, ⟨["BelaVista"], 0, dist "BelaVista" "Goiania"⟩], []⟩
      = searchLoop "BelaVista" "Goiania" n ⟨[⟨["BelaVista", "Cristianopolis"], dist "BelaVista" "Cristianopolis" + 0, dist "Goiania" "Cristianopolis"⟩, ⟨["BelaVista", "Piracanjuba"], dist "BelaVista" "Piracanjuba" + 0, dist "Goiania" "Piracanjuba"⟩, ⟨["Goiania", "BelaVista"], dist "Goiania" "BelaVista" + 0, dist "Hidrolandia" "BelaVista"⟩, ⟨["BelaVista", "Hidrolandia"], dist "BelaVista" "Hidrolandia" + 0, dist "Goiania" "Hidrolandia"⟩, ⟨["BelaVista", "Goiania"], dist "BelaVista" "Goiania" + 0, dist "Goiania" "Goiania"⟩], ["BelaVista"]⟩ := by
  intro n
  rw [searchLoop]
  have hnext : next_route [⟨["Goiania", "BelaVista"], dist "Goiania" "BelaVista" + 0, dist "Hidrolandia" "BelaVista"⟩, ⟨["BelaVista"], 0, dist "BelaVista" "Goiania"⟩] = ⟨["BelaVista"], 0, dist "BelaVista" "Goiania"⟩ := rfl
  have hlast : Route.last_city_id (⟨["BelaVista"], 0, dist "BelaVista" "Goiania"⟩ : Route) = "BelaVista" := rfl
  have hbeq : ("BelaVista" == "Goiania") = false := rfl
  have hdrop : List.dropLast ([⟨["Goiania", "BelaVista"], dist "Goiania" "BelaVista" + 0, dist "Hidrolandia" "BelaVista"⟩, ⟨["BelaVista"], 0, dist "BelaVista" "Goiania"⟩] : List Route) = [⟨["Goiania", "BelaVista"], dist "Goiania" "BelaVista" + 0, dist "Hidrolandia" "BelaVista"⟩] := rfl
  have happ : [] ++ ["BelaVista"] = ["BelaVista"] := rfl
  simp only [hnext, hlast, hbeq, Bool.false_eq_true, if_false, hdrop, happ]
  have hch1 : child (⟨["BelaVista"], 0, dist "BelaVista" "Goiania"⟩ : Route) "Goiania" "Goiania" = (⟨["BelaVista", "Goiania"], dist "BelaVista" "Goiania" + 0, dist "Goiania" "Goiania"⟩ : Route) := rfl
  have hch2 : child (⟨["BelaVista"], 0, dist "BelaVista" "Goiania"⟩ : Route) "Goiania" "Hidrolandia" = (⟨["BelaVista", "Hidrolandia"], dist "BelaVista" "Hidrolandia" + 0, dist "Goiania" "Hidrolandia"⟩ : Route) := rfl
  have hch3 : child (⟨["BelaVista"], 0, dist "BelaVista" "Goiania"⟩ : Route) "Goiania" "Piracanjuba" = (⟨["BelaVista", "Piracanjuba"], dist "BelaVista" "Piracanjuba" + 0, dist "Goiania" "Piracanjuba"⟩ : Route) := rfl
  have hch4 : child (⟨["BelaVista"], 0, dist "BelaVista" "Goiania"⟩ : Route) "Goiania" "Cristianopolis" = (⟨["BelaVista", "Cristianopolis"], dist "BelaVista" "Cristianopolis" + 0, dist "Goiania" "Cristianopolis"⟩ : Route) := rfl
  have hadd1 : add_route [⟨["Goiania", "BelaVista"], dist "Goiania" "BelaVista" + 0, dist "Hidrolandia" "BelaVista"⟩] (⟨["BelaVista", "Goiania"], dist "BelaVista" "Goiania" + 0, dist "Goiania" "Goiania"⟩ : Route)
      = [⟨["Goiania", "BelaVista"], dist "Goiania" "BelaVista" + 0, dist "Hidrolandia" "BelaVista"⟩, ⟨["BelaVista", "Goiania"], dist "BelaVista" "Goiania" + 0, dist "Goiania" "Goiania"⟩] := by
    rw [add_route, if_neg (not_lt.mpr scert_3)]
    rw [add_route]
  have hadd2 : add_route [⟨["Goiania", "BelaVista"], dist "Goiania" "BelaVista" + 0, dist "Hidrolandia" "BelaVista"⟩, ⟨["BelaVista", "Goiania"], dist "BelaVista" "Goiania" + 0, dist "Goiania" "Goiania"⟩] (⟨["BelaVista", "Hidrolandia"], dist "BelaVista" "Hidrolandia" + 0, dist "Goiania" "Hidrolandia"⟩ : Route)
      = [⟨["Goiania", "BelaVista"], dist "Goiania" "BelaVista" + 0, dist "Hidrolandia" "BelaVista"⟩, ⟨["BelaVista", "Hidrolandia"], dist "BelaVista" "Hidrolandia" + 0, dist "Goiania" "Hidrolandia"⟩, ⟨["BelaVista", "Goiania"], dist "BelaVista" "Goiania" + 0, dist "Goiania" "Goiania"⟩] := by
    rw [add_route, if_neg (not_lt.mpr scert_4)]
    rw [add_route, if_pos scert_5]
  have hadd3 : add_route [⟨["Goiania", "BelaVista"], dist "Goiania" "BelaVista" + 0, dist "Hidrolandia" "BelaVista"⟩, ⟨["BelaVista", "Hidrolandia"], dist "BelaVista" "Hidrolandia" + 0, dist "Goiania" "Hidrolandia"⟩, ⟨["BelaVista", "Goiania"], dist "BelaVista" "Goiania" + 0, dist "Goiania" "Goiania"⟩] (⟨["BelaVista", "Piracanjuba"], dist "BelaVista" "Piracanjuba" + 0, dist "Goiania" "Piracanjuba"⟩ : Route)
      = [⟨["BelaVista", "Piracanjuba"], dist "BelaVista" "Piracanjuba" + 0, dist "Goiania" "Piracanjuba"⟩, ⟨["Goiania", "BelaVista"], dist "Goiania" "BelaVista" + 0, dist "Hidrolandia" "BelaVista"⟩, ⟨["BelaVista", "Hidrolandia"], dist "BelaVista" "Hidrolandia" + 0, dist "Goiania" "Hidrolandia"⟩, ⟨["BelaVista", "Goiania"], dist "BelaVista" "Goiania" + 0, dist "Goiania" "Goiania"⟩] := by
    rw [add_route, if_pos scert_6]
  have hadd4 : add_route [⟨["BelaVista", "Piracanjuba"], dist "BelaVista" "Piracanjuba" + 0, dist "Goiania" "Piracanjuba"⟩, ⟨["Goiania", "BelaVista"], dist "Goiania" "BelaVista" + 0, dist "Hidrolandia" "BelaVista"⟩, ⟨["BelaVista", "Hidrolandia"], dist "BelaVista" "Hidrolandia" + 0, dist "Goiania" "Hidrolandia"⟩, ⟨["BelaVista", "Goiania"], dist "BelaVista" "Goiania" + 0, dist "Goiania" "Goiania"⟩] (⟨["BelaVista", "Cristianopolis"], dist "BelaVista" "Cristianopolis" + 0, dist "Goiania" "Cristianopolis"⟩ : Route)
      = [⟨["BelaVista", "Cristianopolis"], dist "BelaVista" "Cristianopolis" + 0, dist "Goiania" "Cristianopolis"⟩, ⟨["BelaVista", "Piracanjuba"], dist "BelaVista" "Piracanjuba" + 0, dist "Goiania" "Piracanjuba"⟩, ⟨["Goiania", "BelaVista"], dist "Goiania" "BelaVista" + 0, dist "Hidrolandia" "BelaVista"⟩, ⟨["BelaVista", "Hidrolandia"], dist "BelaVista" "Hidrolandia" + 0, dist "Goiania" "Hidrolandia"⟩, ⟨["BelaVista", "Goiania"], dist "BelaVista" "Goiania" + 0, dist "Goiania" "Goiania"⟩] := by
    rw [add_route, if_pos scert_7]
  have hexp : add_routes_for_neighbours [⟨["Goiania", "BelaVista"], dist "Goiania" "BelaVista" + 0, dist "Hidrolandia" "BelaVista"⟩] ["BelaVista"]
      ⟨["BelaVista"], 0, dist "BelaVista" "Goiania"⟩ "Goiania" = [⟨["BelaVista", "Cristianopolis"], dist "BelaVista" "Cristianopolis" + 0, dist "Goiania" "Cristianopolis"⟩, ⟨["BelaVista", "Piracanjuba"], dist "BelaVista" "Piracanjuba" + 0, dist "Goiania" "Piracanjuba"⟩, ⟨["Goiania", "BelaVista"], dist "Goiania" "BelaVista" + 0, dist "Hidrolandia" "BelaVista"⟩, ⟨["BelaVista", "Hidrolandia"], dist "BelaVista" "Hidrolandia" + 0, dist "Goiania" "Hidrolandia"⟩, ⟨["BelaVista", "Goiania"], dist "BelaVista" "Goiania" + 0, dist "Goiania" "Goiania"⟩] := by
    unfold add_routes_for_neighbours
    rw [hlast, nbrs_BelaVista]
    rw [List.foldl_cons, if_neg (show ¬ (["BelaVista"].contains "Goiania") = true from by decide), hch1]
    rw [hadd1]
    rw [List.foldl_cons, if_neg (show ¬ (["BelaVista"].contains "Hidrolandia") = true from by decide), hch2]
    rw [hadd2]
    rw [List.foldl_cons, if_neg (show ¬ (["BelaVista"].contains "Piracanjuba") = true from by decide), hch3]
    rw [hadd3]
    rw [List.foldl_cons, if_neg (show ¬ (["BelaVista"].contains "Cristianopolis") = true from by decide), hch4]
    rw [hadd4]
    rw [List.foldl_nil]
  rw [hexp]

theorem stepC2 :
    ∀ n : ℕ, searchLoop "BelaVista" "Goiania" (n + 1) ⟨[⟨["BelaVista", "Cristianopolis"], dist "BelaVista" "Cristianopolis" + 0, dist "Goiania" "Cristianopolis"⟩, ⟨["BelaVista", "Piracanjuba"], dist "BelaVista" "Piracanjuba" + 0, dist "Goiania" "Piracanjuba"⟩, ⟨["Goiania", "BelaVista"], dist "Goiania" "BelaVista" + 0, dist "Hidrolandia" "BelaVista"⟩, ⟨["BelaVista", "Hidrolandia"], dist "BelaVista" "Hidrolandia" + 0, dist "Goiania" "Hidrolandia"⟩, ⟨["BelaVista", "Goiania"], dist "BelaVista" "Goiania" + 0, dist "Goiania" "Goiania"⟩], ["BelaVista"]⟩
      = (.found ⟨["BelaVista", "Goiania"], dist "BelaVista" "Goiania" + 0, dist "Goiania" "Goiania"⟩, ⟨[⟨["BelaVista", "Cristianopolis"], dist "BelaVista" "Cristianopolis" + 0, dist "Goiania" "Cristianopolis"⟩, ⟨["BelaVista", "Piracanjuba"], dist "BelaVista" "Piracanjuba" + 0, dist "Goiania" "Piracanjuba"⟩, ⟨["Goiania", "BelaVista"], dist "Goiania" "BelaVista" + 0, dist "Hidrolandia" "BelaVista"⟩, ⟨["BelaVista", "Hidrolandia"], dist "BelaVista" "Hidrolandia" + 0, dist "Goiania" "Hidrolandia"⟩], ["BelaVista"]⟩) := by
  intro n
  rw [searchLoop]
  have hnext : next_route [⟨["BelaVista", "Cristianopolis"], dist "BelaVista" "Cristianopolis" + 0, dist "Goiania" "Cristianopolis"⟩, ⟨["BelaVista", "Piracanjuba"], dist "BelaVista" "Piracanjuba" + 0, dist "Goiania" "Piracanjuba"⟩, ⟨["Goiania", "BelaVista"], dist "Goiania" "BelaVista" + 0, dist "Hidrolandia" "BelaVista"⟩, ⟨["BelaVista", "Hidrolandia"], dist "BelaVista" "Hidrolandia" + 0, dist "Goiania" "Hidrolandia"⟩, ⟨["BelaVista", "Goiania"], dist "BelaVista" "Goiania" + 0, dist "Goiania" "Goiania"⟩] = ⟨["BelaVista", "Goiania"], dist "BelaVista" "Goiania" + 0, dist "Goiania" "Goiania"⟩ := rfl
  have hlast : Route.last_city_id (⟨["BelaVista", "Goiania"], dist "BelaVista" "Goiania" + 0, dist "Goiania" "Goiania"⟩ : Route) = "Goiania" := rfl
  have hdrop : List.dropLast ([⟨["BelaVista", "Cristianopolis"], dist "BelaVista" "Cristianopolis" + 0, dist "Goiania" "Cristianopolis"⟩, ⟨["BelaVista", "Piracanjuba"], dist "BelaVista" "Piracanjuba" + 0, dist "Goiania" "Piracanjuba"⟩, ⟨["Goiania", "BelaVista"], dist "Goiania" "BelaVista" + 0, dist "Hidrolandia" "BelaVista"⟩, ⟨["BelaVista", "Hidrolandia"], dist "BelaVista" "Hidrolandia" + 0, dist "Goiania" "Hidrolandia"⟩, ⟨["BelaVista", "Goiania"], dist "BelaVista" "Goiania" + 0, dist "Goiania" "Goiania"⟩] : List Route) = [⟨["BelaVista", "Cristianopolis"], dist "BelaVista" "Cristianopolis" + 0, dist "Goiania" "Cristianopolis"⟩, ⟨["BelaVista", "Piracanjuba"], dist "BelaVista" "Piracanjuba" + 0, dist "Goiania" "Piracanjuba"⟩, ⟨["Goiania", "BelaVista"], dist "Goiania" "BelaVista" + 0, dist "Hidrolandia" "BelaVista"⟩, ⟨["BelaVista", "Hidrolandia"], dist "BelaVista" "Hidrolandia" + 0, dist "Goiania" "Hidrolandia"⟩] := rfl
  simp only [hnext, hlast, beq_self_eq_true, if_true, hdrop]

theorem stepB1 :
    ∀ n : ℕ, searchLoop "Formiga" "Goiania" (n + 1) ⟨[⟨["Formiga"], 0, dist "Formiga" "Goiania"⟩, ⟨["Goiania", "BelaVista"], dist "Goiania" "BelaVista" + 0, dist "Hidrolandia" "BelaVista"⟩], ["Goiania"]⟩
      = searchLoop "Formiga" "Goiania" n ⟨[⟨["Goiania", "BelaVista", "Cristianopolis"], dist "BelaVista" "Cristianopolis" + (dist "Goiania" "BelaVista" + 0), dist "Goiania" "Cristianopolis"⟩, ⟨["Goiania", "BelaVista", "Piracanjuba"], dist "BelaVista" "Piracanjuba" + (dist "Goiania" "BelaVista" + 0), dist "Goiania" "Piracanjuba"⟩, ⟨["Formiga"], 0, dist "Formiga" "Goiania"⟩, ⟨["Goiania", "BelaVista", "Hidrolandia"], dist "BelaVista" "Hidrolandia" + (dist "Goiania" "BelaVista" + 0), dist "Goiania" "Hidrolandia"⟩], ["Goiania", "BelaVista"]⟩ := by
  intro n
  rw [searchLoop]
  have hnext : next_route [⟨["Formiga"], 0, dist "Formiga" "Goiania"⟩, ⟨["Goiania", "BelaVista"], dist "Goiania" "BelaVista" + 0, dist "Hidrolandia" "BelaVista"⟩] = ⟨["Goiania", "BelaVista"], dist "Goiania" "BelaVista" + 0, dist "Hidrolandia" "BelaVista"⟩ := rfl
  have hlast : Route.last_city_id (⟨["Goiania", "BelaVista"], dist "Goiania" "BelaVista" + 0, dist "Hidrolandia" "BelaVista"⟩ : Route) = "BelaVista" := rfl
  have hbeq : ("BelaVista" == "Goiania") = false := rfl
  have hdrop : List.dropLast ([⟨["Formiga"], 0, dist "Formiga" "Goiania"⟩, ⟨["Goiania", "BelaVista"], dist "Goiania" "BelaVista" + 0, dist "Hidrolandia" "BelaVista"⟩] : List Route) = [⟨["Formiga"], 0, dist "Formiga" "Goiania"⟩] := rfl
  have happ : ["Goiania"] ++ ["BelaVista"] = ["Goiania", "BelaVista"] := rfl
  simp only [hnext, hlast, hbeq, Bool.false_eq_true, if_false, hdrop, happ]
  have hch1 : child (⟨["Goiania", "BelaVista"], dist "Goiania" "BelaVista" + 0, dist "Hidrolandia" "BelaVista"⟩ : Route) "Goiania" "Hidrolandia" = (⟨["Goiania", "BelaVista", "Hidrolandia"], dist "BelaVista" "Hidrolandia" + (dist "Goiania" "BelaVista" + 0), dist "Goiania" "Hidrolandia"⟩ : Route) := rfl
  have hch2 : child (⟨["Goiania", "BelaVista"], dist "Goiania" "BelaVista" + 0, dist "Hidrolandia" "BelaVista"⟩ : Route) "Goiania" "Piracanjuba" = (⟨["Goiania", "BelaVista", "Piracanjuba"], dist "BelaVista" "Piracanjuba" + (dist "Goiania" "BelaVista" + 0), dist "Goiania" "Piracanjuba"⟩ : Route) := rfl
  have hch3 : child (⟨["Goiania", "BelaVista"], dist "Goiania" "BelaVista" + 0, dist "Hidrolandia" "BelaVista"⟩ : Route) "Goiania" "Cristianopolis" = (⟨["Goiania", "BelaVista", "Cristianopolis"], dist "BelaVista" "Cristianopolis" + (dist "Goiania" "BelaVista" + 0), dist "Goiania" "Cristianopolis"⟩ : Route) := rfl
  have hadd1 : add_route [⟨["Formiga"], 0, dist "Formiga" "Goiania"⟩] (⟨["Goiania", "BelaVista", "Hidrolandia"], dist "BelaVista" "Hidrolandia" + (dist "Goiania" "BelaVista" + 0), dist "Goiania" "Hidrolandia"⟩ : Route)
      = [⟨["Formiga"], 0, dist "Formiga" "Goiania"⟩, ⟨["Goiania", "BelaVista", "Hidrolandia"], dist "BelaVista" "Hidrolandia" + (dist "Goiania" "BelaVista" + 0), dist "Goiania" "Hidrolandia"⟩] := by
    rw [add_route, if_neg (not_lt.mpr scert_9)]
    rw [add_route]
  have hadd2 : add_route [⟨["Formiga"], 0, dist "Formiga" "Goiania"⟩, ⟨["Goiania", "BelaVista", "Hidrolandia"], dist "BelaVista" "Hidrolandia" + (dist "Goiania" "BelaVista" + 0), dist "Goiania" "Hidrolandia"⟩] (⟨["Goiania", "BelaVista", "Piracanjuba"], dist "BelaVista" "Piracanjuba" + (dist "Goiania" "BelaVista" + 0), dist "Goiania" "Piracanjuba"⟩ : Route)
      = [⟨["Goiania", "BelaVista", "Piracanjuba"], dist "BelaVista" "Piracanjuba" + (dist "Goiania" "BelaVista" + 0), dist "Goiania" "Piracanjuba"⟩, ⟨["Formiga"], 0, dist "Formiga" "Goiania"⟩, ⟨["Goiania", "BelaVista", "Hidrolandia"], dist "BelaVista" "Hidrolandia" + (dist "Goiania" "BelaVista" + 0), dist "Goiania" "Hidrolandia"⟩] := by
    rw [add_route, if_pos scert_10]
  have hadd3 : add_route [⟨["Goiania", "BelaVista", "Piracanjuba"], dist "BelaVista" "Piracanjuba" + (dist "Goiania" "BelaVista" + 0), dist "Goiania" "Piracanjuba"⟩, ⟨["Formiga"], 0, dist "Formiga" "Goiania"⟩, ⟨["Goiania", "BelaVista", "Hidrolandia"], dist "BelaVista" "Hidrolandia" + (dist "Goiania" "BelaVista" + 0), dist "Goiania" "Hidrolandia"⟩] (⟨["Goiania", "BelaVista", "Cristianopolis"], dist "BelaVista" "Cristianopolis" + (dist "Goiania" "BelaVista" + 0), dist "Goiania" "Cristianopolis"⟩ : Route)
      = [⟨["Goiania", "BelaVista", "Cristianopolis"], dist "BelaVista" "Cristianopolis" + (dist "Goiania" "BelaVista" + 0), dist "Goiania" "Cristianopolis"⟩, ⟨["Goiania", "BelaVista", "Piracanjuba"], dist "BelaVista" "Piracanjuba" + (dist "Goiania" "BelaVista" + 0), dist "Goiania" "Piracanjuba"⟩, ⟨["Formiga"], 0, dist "Formiga" "Goiania"⟩, ⟨["Goiania", "BelaVista", "Hidrolandia"], dist "BelaVista" "Hidrolandia" + (dist "Goiania" "BelaVista" + 0), dist "Goiania" "Hidrolandia"⟩] := by
    rw [add_route, if_pos scert_11]
  have hexp : add_routes_for_neighbours [⟨["Formiga"], 0, dist "Formiga" "Goiania"⟩] ["Goiania", "BelaVista"]
      ⟨["Goiania", "BelaVista"], dist "Goiania" "BelaVista" + 0, dist "Hidrolandia" "BelaVista"⟩ "Goiania" = [⟨["Goiania", "BelaVista", "Cristianopolis"], dist "BelaVista" "Cristianopolis" + (dist "Goiania" "BelaVista" + 0), dist "Goiania" "Cristianopolis"⟩, ⟨["Goiania", "BelaVista", "Piracanjuba"], dist "BelaVista" "Piracanjuba" + (dist "Goiania" "BelaVista" + 0), dist "Goiania" "Piracanjuba"⟩, ⟨["Formiga"], 0, dist "Formiga" "Goiania"⟩, ⟨["Goiania", "BelaVista", "Hidrolandia"], dist "BelaVista" "Hidrolandia" + (dist "Goiania" "BelaVista" + 0), dist "Goiania" "Hidrolandia"⟩] := by
    unfold add_routes_for_neighbours
    rw [hlast, nbrs_BelaVista]
    rw [List.foldl_cons, if_pos (show (["Goiania", "BelaVista"].contains "Goiania") = true from rfl)]
    rw [List.foldl_cons, if_neg (show ¬ (["Goiania", "BelaVista"].contains "Hidrolandia") = true from by decide), hch1]
    rw [hadd1]
    rw [List.foldl_cons, if_neg (show ¬ (["Goiania", "BelaVista"].contains "Piracanjuba") = true from by decide), hch2]
    rw [hadd2]
    rw [List.foldl_cons, if_neg (show ¬ (["Goiania", "BelaVista"].contains "Cristianopolis") = true from by decide), hch3]
    rw [hadd3]
    rw [List.foldl_nil]
  rw [hexp]

theorem stepB2 :
    ∀ n : ℕ, searchLoop "Formiga" "Goiania" (n + 1) ⟨[⟨["Goiania", "BelaVista", "Cristianopolis"], dist "BelaVista" "Cristianopolis" + (dist "Goiania" "BelaVista" + 0), dist "Goiania" "Cristianopolis"⟩, ⟨["Goiania", "BelaVista", "Piracanjuba"], dist "BelaVista" "Piracanjuba" + (dist "Goiania" "BelaVista" + 0), dist "Goiania" "Piracanjuba"⟩, ⟨["Formiga"], 0, dist "Formiga" "Goiania"⟩, ⟨["Goiania", "BelaVista", "Hidrolandia"], dist "BelaVista" "Hidrolandia" + (dist "Goiania" "BelaVista" + 0), dist "Goiania" "Hidrolandia"⟩], ["Goiania", "BelaVista"]⟩
      = searchLoop "Formiga" "Goiania" n ⟨[⟨["Goiania", "BelaVista", "Hidrolandia", "ProfJamil"], dist "Hidrolandia" "ProfJamil" + (dist "BelaVista" "Hidrolandia" + (dist "Goiania" "BelaVista" + 0)), dist "Goiania" "ProfJamil"⟩, ⟨["Goiania", "BelaVista", "Cristianopolis"], dist "BelaVista" "Cristianopolis" + (dist "Goiania" "BelaVista" + 0), dist "Goiania" "Cristianopolis"⟩, ⟨["Goiania", "BelaVista", "Piracanjuba"], dist "BelaVista" "Piracanjuba" + (dist "Goiania" "BelaVista" + 0), dist "Goiania" "Piracanjuba"⟩, ⟨["Formiga"], 0, dist "Formiga" "Goiania"⟩], ["Goiania", "BelaVista", "Hidrolandia"]⟩ := by
  intro n
  rw [searchLoop]
  have hnext : next_route [⟨["Goiania", "BelaVista", "Cristianopolis"], dist "BelaVista" "Cristianopolis" + (dist "Goiania" "BelaVista" + 0), dist "Goiania" "Cristianopolis"⟩, ⟨["Goiania", "BelaVista", "Piracanjuba"], dist "BelaVista" "Piracanjuba" + (dist "Goiania" "BelaVista" + 0), dist "Goiania" "Piracanjuba"⟩, ⟨["Formiga"], 0, dist "Formiga" "Goiania"⟩, ⟨["Goiania", "BelaVista", "Hidrolandia"], dist "BelaVista" "Hidrolandia" + (dist "Goiania" "BelaVista" + 0), dist "Goiania" "Hidrolandia"⟩] = ⟨["Goiania", "BelaVista", "Hidrolandia"], dist "BelaVista" "Hidrolandia" + (dist "Goiania" "BelaVista" + 0), dist "Goiania" "Hidrolandia"⟩ := rfl
  have hlast : Route.last_city_id (⟨["Goiania", "BelaVista", "Hidrolandia"], dist "BelaVista" "Hidrolandia" + (dist "Goiania" "BelaVista" + 0), dist "Goiania" "Hidrolandia"⟩ : Route) = "Hidrolandia" := rfl
  have hbeq : ("Hidrolandia" == "Goiania") = false := rfl
  have hdrop : List.dropLast ([⟨["Goiania", "BelaVista", "Cristianopolis"], dist "BelaVista" "Cristianopolis" + (dist "Goiania" "BelaVista" + 0), dist "Goiania" "Cristianopolis"⟩, ⟨["Goiania", "BelaVista", "Piracanjuba"], dist "BelaVista" "Piracanjuba" + (dist "Goiania" "BelaVista" + 0), dist "Goiania" "Piracanjuba"⟩, ⟨["Formiga"], 0, dist "Formiga" "Goiania"⟩, ⟨["Goiania", "BelaVista", "Hidrolandia"], dist "BelaVista" "Hidrolandia" + (dist "Goiania" "BelaVista" + 0), dist "Goiania" "Hidrolandia"⟩] : List Route) = [⟨["Goiania", "BelaVista", "Cristianopolis"], dist "BelaVista" "Cristianopolis" + (dist "Goiania" "BelaVista" + 0), dist "Goiania" "Cristianopolis"⟩, ⟨["Goiania", "BelaVista", "Piracanjuba"], dist "BelaVista" "Piracanjuba" + (dist "Goiania" "BelaVista" + 0), dist "Goiania" "Piracanjuba"⟩, ⟨["Formiga"], 0, dist "Formiga" "Goiania"⟩] := rfl
  have happ : ["Goiania", "BelaVista"] ++ ["Hidrolandia"] = ["Goiania", "BelaVista", "Hidrolandia"] := rfl
  simp only [hnext, hlast, hbeq, Bool.false_eq_true, if_false, hdrop, happ]
  have hch1 : child (⟨["Goiania", "BelaVista", "Hidrolandia"], dist "BelaVista" "Hidrolandia" + (dist "Goiania" "BelaVista" + 0), dist "Goiania" "Hidrolandia"⟩ : Route) "Goiania" "ProfJamil" = (⟨["Goiania", "BelaVista", "Hidrolandia", "ProfJamil"], dist "Hidrolandia" "ProfJamil" + (dist "BelaVista" "Hidrolandia" + (dist "Goiania" "BelaVista" + 0)), dist "Goiania" "ProfJamil"⟩ : Route) := rfl
  have hadd1 : add_route [⟨["Goiania", "BelaVista", "Cristianopolis"], dist "BelaVista" "Cristianopolis" + (dist "Goiania" "BelaVista" + 0), dist "Goiania" "Cristianopolis"⟩, ⟨["Goiania", "BelaVista", "Piracanjuba"], dist "BelaVista" "Piracanjuba" + (dist "Goiania" "BelaVista" + 0), dist "Goiania" "Piracanjuba"⟩, ⟨["Formiga"], 0, dist "Formiga" "Goiania"⟩] (⟨["Goiania", "BelaVista", "Hidrolandia", "ProfJamil"], dist "Hidrolandia" "ProfJamil" + (dist "BelaVista" "Hidrolandia" + (dist "Goiania" "BelaVista" + 0)), dist "Goiania" "ProfJamil"⟩ : Route)
      = [⟨["Goiania", "BelaVista", "Hidrolandia", "ProfJamil"], dist "Hidrolandia" "ProfJamil" + (dist "BelaVista" "Hidrolandia" + (dist "Goiania" "BelaVista" + 0)), dist "Goiania" "ProfJamil"⟩, ⟨["Goiania", "BelaVista", "Cristianopolis"], dist "BelaVista" "Cristianopolis" + (dist "Goiania" "BelaVista" + 0), dist "Goiania" "Cristianopolis"⟩, ⟨["Goiania", "BelaVista", "Piracanjuba"], dist "BelaVista" "Piracanjuba" + (dist "Goiania" "BelaVista" + 0), dist "Goiania" "Piracanjuba"⟩, ⟨["Formiga"], 0, dist "Formiga" "Goiania"⟩] := by
    rw [add_route, if_pos scert_12]
  have hexp : add_routes_for_neighbours [⟨["Goiania", "BelaVista", "Cristianopolis"], dist "BelaVista" "Cristianopolis" + (dist "Goiania" "BelaVista" + 0), dist "Goiania" "Cristianopolis"⟩, ⟨["Goiania", "BelaVista", "Piracanjuba"], dist "BelaVista" "Piracanjuba" + (dist "Goiania" "BelaVista" + 0), dist "Goiania" "Piracanjuba"⟩, ⟨["Formiga"], 0, dist "Formiga" "Goiania"⟩] ["Goiania", "BelaVista", "Hidrolandia"]
      ⟨["Goiania", "BelaVista", "Hidrolandia"], dist "BelaVista" "Hidrolandia" + (dist "Goiania" "BelaVista" + 0), dist "Goiania" "Hidrolandia"⟩ "Goiania" = [⟨["Goiania", "BelaVista", "Hidrolandia", "ProfJamil"], dist "Hidrolandia" "ProfJamil" + (dist "BelaVista" "Hidrolandia" + (dist "Goiania" "BelaVista" + 0)), dist "Goiania" "ProfJamil"⟩, ⟨["Goiania", "BelaVista", "Cristianopolis"], dist "BelaVista" "Cristianopolis" + (dist "Goiania" "BelaVista" + 0), dist "Goiania" "Cristianopolis"⟩, ⟨["Goiania", "BelaVista", "Piracanjuba"], dist "BelaVista" "Piracanjuba" + (dist "Goiania" "BelaVista" + 0), dist "Goiania" "Piracanjuba"⟩, ⟨["Formiga"], 0, dist "Formiga" "Goiania"⟩] := by
    unfold add_routes_for_neighbours
    rw [hlast, nbrs_Hidrolandia]
    rw [List.foldl_cons, if_pos (show (["Goiania", "BelaVista", "Hidrolandia"].contains "Goiania") = true from rfl)]
    rw [List.foldl_cons, if_neg (show ¬ (["Goiania", "BelaVista", "Hidrolandia"].contains "ProfJamil") = true from by decide), hch1]
    rw [hadd1]
    rw [List.foldl_cons, if_pos (show (["Goiania", "BelaVista", "Hidrolandia"].contains "BelaVista") = true from rfl)]
    rw [List.foldl_nil]
  rw [hexp]

theorem stepB3 :
    ∀ n : ℕ, searchLoop "Formiga" "Goiania" (n + 1) ⟨[⟨["Goiania", "BelaVista", "Hidrolandia", "ProfJamil"], dist "Hidrolandia" "ProfJamil" + (dist "BelaVista" "Hidrolandia" + (dist "Goiania" "BelaVista" + 0)), dist "Goiania" "ProfJamil"⟩, ⟨["Goiania", "BelaVista", "Cristianopolis"], dist "BelaVista" "Cristianopolis" + (dist "Goiania" "BelaVista" + 0), dist "Goiania" "Cristianopolis"⟩, ⟨["Goiania", "BelaVista", "Piracanjuba"], dist "BelaVista" "Piracanjuba" + (dist "Goiania" "BelaVista" + 0), dist "Goiania" "Piracanjuba"⟩, ⟨["Formiga"], 0, dist "Formiga" "Goiania"⟩], ["Goiania", "BelaVista", "Hidrolandia"]⟩
      = searchLoop "Formiga" "Goiania" n ⟨[⟨["Goiania", "BelaVista", "Hidrolandia", "ProfJamil"], dist "Hidrolandia" "ProfJamil" + (dist "BelaVista" "Hidrolandia" + (dist "Goiania" "BelaVista" + 0)), dist "Goiania" "ProfJamil"⟩, ⟨["Goiania", "BelaVista", "Cristianopolis"], dist "BelaVista" "Cristianopolis" + (dist "Goiania" "BelaVista" + 0), dist "Goiania" "Cristianopolis"⟩, ⟨["Goiania", "BelaVista", "Piracanjuba"], dist "BelaVista" "Piracanjuba" + (dist "Goiania" "BelaVista" + 0), dist "Goiania" "Piracanjuba"⟩, ⟨["Formiga", "Piracanjuba"], dist "Formiga" "Piracanjuba" + 0, dist "Goiania" "Piracanjuba"⟩], ["Goiania", "BelaVista", "Hidrolandia", "Formiga"]⟩ := by
  intro n
  rw [searchLoop]
  have hnext : next_route [⟨["Goiania", "BelaVista", "Hidrolandia", "ProfJamil"], dist "Hidrolandia" "ProfJamil" + (dist "BelaVista" "Hidrolandia" + (dist "Goiania" "BelaVista" + 0)), dist "Goiania" "ProfJamil"⟩, ⟨["Goiania", "BelaVista", "Cristianopolis"], dist "BelaVista" "Cristianopolis" + (dist "Goiania" "BelaVista" + 0), dist "Goiania" "Cristianopolis"⟩, ⟨["Goiania", "BelaVista", "Piracanjuba"], dist "BelaVista" "Piracanjuba" + (dist "Goiania" "BelaVista" + 0), dist "Goiania" "Piracanjuba"⟩, ⟨["Formiga"], 0, dist "Formiga" "Goiania"⟩] = ⟨["Formiga"], 0, dist "Formiga" "Goiania"⟩ := rfl
  have hlast : Route.last_city_id (⟨["Formiga"], 0, dist "Formiga" "Goiania"⟩ : Route) = "Formiga" := rfl
  have hbeq : ("Formiga" == "Goiania") = false := rfl
  have hdrop : List.dropLast ([⟨["Goiania", "BelaVista", "Hidrolandia", "ProfJamil"], dist "Hidrolandia" "ProfJamil" + (dist "BelaVista" "Hidrolandia" + (dist "Goiania" "BelaVista" + 0)), dist "Goiania" "ProfJamil"⟩, ⟨["Goiania", "BelaVista", "Cristianopolis"], dist "BelaVista" "Cristianopolis" + (dist "Goiania" "BelaVista" + 0), dist "Goiania" "Cristianopolis"⟩, ⟨["Goiania", "BelaVista", "Piracanjuba"], dist "BelaVista" "Piracanjuba" + (dist "Goiania" "BelaVista" + 0), dist "Goiania" "Piracanjuba"⟩, ⟨["Formiga"], 0, dist "Formiga" "Goiania"⟩] : List Route) = [⟨["Goiania", "BelaVista", "Hidrolandia", "ProfJamil"], dist "Hidrolandia" "ProfJamil" + (dist "BelaVista" "Hidrolandia" + (dist "Goiania" "BelaVista" + 0)), dist "Goiania" "ProfJamil"⟩, ⟨["Goiania", "BelaVista", "Cristianopolis"], dist "BelaVista" "Cristianopolis" + (dist "Goiania" "BelaVista" + 0), dist "Goiania" "Cristianopolis"⟩, ⟨["Goiania", "BelaVista", "Piracanjuba"], dist "BelaVista" "Piracanjuba" + (dist "Goiania" "BelaVista" + 0), dist "Goiania" "Piracanjuba"⟩] := rfl
  have happ : ["Goiania", "BelaVista", "Hidrolandia"] ++ ["Formiga"] = ["Goiania", "BelaVista", "Hidrolandia", "Formiga"] := rfl
  simp only [hnext, hlast, hbeq, Bool.false_eq_true, if_false, hdrop, happ]
  have hch1 : child (⟨["Formiga"], 0, dist "Formiga" "Goiania"⟩ : Route) "Goiania" "Piracanjuba" = (⟨["Formiga", "Piracanjuba"], dist "Formiga" "Piracanjuba" + 0, dist "Goiania" "Piracanjuba"⟩ : Route) := rfl
  have hadd1 : add_route [⟨["Goiania", "BelaVista", "Hidrolandia", "ProfJamil"], dist "Hidrolandia" "ProfJamil" + (dist "BelaVista" "Hidrolandia" + (dist "Goiania" "BelaVista" + 0)), dist "Goiania" "ProfJamil"⟩, ⟨["Goiania", "BelaVista", "Cristianopolis"], dist "BelaVista" "Cristianopolis" + (dist "Goiania" "BelaVista" + 0), dist "Goiania" "Cristianopolis"⟩, ⟨["Goiania", "BelaVista", "Piracanjuba"], dist "BelaVista" "Piracanjuba" + (dist "Goiania" "BelaVista" + 0), dist "Goiania" "Piracanjuba"⟩] (⟨["Formiga", "Piracanjuba"], dist "Formiga" "Piracanjuba" + 0, dist "Goiania" "Piracanjuba"⟩ : Route)
      = [⟨["Goiania", "BelaVista", "Hidrolandia", "ProfJamil"], dist "Hidrolandia" "ProfJamil" + (dist "BelaVista" "Hidrolandia" + (dist "Goiania" "BelaVista" + 0)), dist "Goiania" "ProfJamil"⟩, ⟨["Goiania", "BelaVista", "Cristianopolis"], dist "BelaVista" "Cristianopolis" + (dist "Goiania" "BelaVista" + 0), dist "Goiania" "Cristianopolis"⟩, ⟨["Goiania", "BelaVista", "Piracanjuba"], dist "BelaVista" "Piracanjuba" + (dist "Goiania" "BelaVista" + 0), dist "Goiania" "Piracanjuba"⟩, ⟨["Formiga", "Piracanjuba"], dist "Formiga" "Piracanjuba" + 0, dist "Goiania" "Piracanjuba"⟩] := by
    rw [add_route, if_neg (not_lt.mpr scert_13)]
    rw [add_route, if_neg (not_lt.mpr scert_14)]
    rw [add_route, if_neg (not_lt.mpr scert_15)]
    rw [add_route]
  have hexp : add_routes_for_neighbours [⟨["Goiania", "BelaVista", "Hidrolandia", "ProfJamil"], dist "Hidrolandia" "ProfJamil" + (dist "BelaVista" "Hidrolandia" + (dist "Goiania" "BelaVista" + 0)), dist "Goiania" "ProfJamil"⟩, ⟨["Goiania", "BelaVista", "Cristianopolis"], dist "BelaVista" "Cristianopolis" + (dist "Goiania" "BelaVista" + 0), dist "Goiania" "Cristianopolis"⟩, ⟨["Goiania", "BelaVista", "Piracanjuba"], dist "BelaVista" "Piracanjuba" + (dist "Goiania" "BelaVista" + 0), dist "Goiania" "Piracanjuba"⟩] ["Goiania", "BelaVista", "Hidrolandia", "Formiga"]
      ⟨["Formiga"], 0, dist "Formiga" "Goiania"⟩ "Goiania" = [⟨["Goiania", "BelaVista", "Hidrolandia", "ProfJamil"], dist "Hidrolandia" "ProfJamil" + (dist "BelaVista" "Hidrolandia" + (dist "Goiania" "BelaVista" + 0)), dist "Goiania" "ProfJamil"⟩, ⟨["Goiania", "BelaVista", "Cristianopolis"], dist "BelaVista" "Cristianopolis" + (dist "Goiania" "BelaVista" + 0), dist "Goiania" "Cristianopolis"⟩, ⟨["Goiania", "BelaVista", "Piracanjuba"], dist "BelaVista" "Piracanjuba" + (dist "Goiania" "BelaVista" + 0), dist "Goiania" "Piracanjuba"⟩, ⟨["Formiga", "Piracanjuba"], dist "Formiga" "Piracanjuba" + 0, dist "Goiania" "Piracanjuba"⟩] := by
    unfold add_routes_for_neighbours
    rw [hlast, nbrs_Formiga]
    rw [List.foldl_cons, if_neg (show ¬ (["Goiania", "BelaVista", "Hidrolandia", "Formiga"].contains "Piracanjuba") = true from by decide), hch1]
    rw [hadd1]
    rw [List.foldl_nil]
  rw [hexp]

theorem stepB4 :
    ∀ n : ℕ, searchLoop "Formiga" "Goiania" (n + 1) ⟨[⟨["Goiania", "BelaVista", "Hidrolandia", "ProfJamil"], dist "Hidrolandia" "ProfJamil" + (dist "BelaVista" "Hidrolandia" + (dist "Goiania" "BelaVista" + 0)), dist "Goiania" "ProfJamil"⟩, ⟨["Goiania", "BelaVista", "Cristianopolis"], dist "BelaVista" "Cristianopolis" + (dist "Goiania" "BelaVista" + 0), dist "Goiania" "Cristianopolis"⟩, ⟨["Goiania", "BelaVista", "Piracanjuba"], dist "BelaVista" "Piracanjuba" + (dist "Goiania" "BelaVista" + 0), dist "Goiania" "Piracanjuba"⟩, ⟨["Formiga", "Piracanjuba"], dist "Formiga" "Piracanjuba" + 0, dist "Goiania" "Piracanjuba"⟩], ["Goiania", "BelaVista", "Hidrolandia", "Formiga"]⟩
      = searchLoop "Formiga" "Goiania" n ⟨[⟨["Formiga", "Piracanjuba", "CaldasNovas"], dist "Piracanjuba" "CaldasNovas" + (dist "Formiga" "Piracanjuba" + 0), dist "Goiania" "CaldasNovas"⟩, ⟨["Goiania", "BelaVista", "Hidrolandia", "ProfJamil"], dist "Hidrolandia" "ProfJamil" + (dist "BelaVista" "Hidrolandia" + (dist "Goiania" "BelaVista" + 0)), dist "Goiania" "ProfJamil"⟩, ⟨["Goiania", "BelaVista", "Cristianopolis"], dist "BelaVista" "Cristianopolis" + (dist "Goiania" "BelaVista" + 0), dist "Goiania" "Cristianopolis"⟩, ⟨["Formiga", "Piracanjuba", "Cristianopolis"], dist "Piracanjuba" "Cristianopolis" + (dist "Formiga" "Piracanjuba" + 0), dist "Goiania" "Cristianopolis"⟩, ⟨["Goiania", "BelaVista", "Piracanjuba"], dist "BelaVista" "Piracanjuba" + (dist "Goiania" "BelaVista" + 0), dist "Goiania" "Piracanjuba"⟩, ⟨["Formiga", "Piracanjuba", "ProfJamil"], dist "Piracanjuba" "ProfJamil" + (dist "Formiga" "Piracanjuba" + 0), dist "Goiania" "ProfJamil"⟩], ["Goiania", "BelaVista", "Hidrolandia", "Formiga", "Piracanjuba"]⟩ := by
  intro n
  rw [searchLoop]
  have hnext : next_route [⟨["Goiania", "BelaVista", "Hidrolandia", "ProfJamil"], dist "Hidrolandia" "ProfJamil" + (dist "BelaVista" "Hidrolandia" + (dist "Goiania" "BelaVista" + 0)), dist "Goiania" "ProfJamil"⟩, ⟨["Goiania", "BelaVista", "Cristianopolis"], dist "BelaVista" "Cristianopolis" + (dist "Goiania" "BelaVista" + 0), dist "Goiania" "Cristianopolis"⟩, ⟨["Goiania", "BelaVista", "Piracanjuba"], dist "BelaVista" "Piracanjuba" + (dist "Goiania" "BelaVista" + 0), dist "Goiania" "Piracanjuba"⟩, ⟨["Formiga", "Piracanjuba"], dist "Formiga" "Piracanjuba" + 0, dist "Goiania" "Piracanjuba"⟩] = ⟨["Formiga", "Piracanjuba"], dist "Formiga" "Piracanjuba" + 0, dist "Goiania" "Piracanjuba"⟩ := rfl
  have hlast : Route.last_city_id (⟨["Formiga", "Piracanjuba"], dist "Formiga" "Piracanjuba" + 0, dist "Goiania" "Piracanjuba"⟩ : Route) = "Piracanjuba" := rfl
  have hbeq : ("Piracanjuba" == "Goiania") = false := rfl
  have hdrop : List.dropLast ([⟨["Goiania", "BelaVista", "Hidrolandia", "ProfJamil"], dist "Hidrolandia" "ProfJamil" + (dist "BelaVista" "Hidrolandia" + (dist "Goiania" "BelaVista" + 0)), dist "Goiania" "ProfJamil"⟩, ⟨["Goiania", "BelaVista", "Cristianopolis"], dist "BelaVista" "Cristianopolis" + (dist "Goiania" "BelaVista" + 0), dist "Goiania" "Cristianopolis"⟩, ⟨["Goiania", "BelaVista", "Piracanjuba"], dist "BelaVista" "Piracanjuba" + (dist "Goiania" "BelaVista" + 0), dist "Goiania" "Piracanjuba"⟩, ⟨["Formiga", "Piracanjuba"], dist "Formiga" "Piracanjuba" + 0, dist "Goiania" "Piracanjuba"⟩] : List Route) = [⟨["Goiania", "BelaVista", "Hidrolandia", "ProfJamil"], dist "Hidrolandia" "ProfJamil" + (dist "BelaVista" "Hidrolandia" + (dist "Goiania" "BelaVista" + 0)), dist "Goiania" "ProfJamil"⟩, ⟨["Goiania", "BelaVista", "Cristianopolis"], dist "BelaVista" "Cristianopolis" + (dist "Goiania" "BelaVista" + 0), dist "Goiania" "Cristianopolis"⟩, ⟨["Goiania", "BelaVista", "Piracanjuba"], dist "BelaVista" "Piracanjuba" + (dist "Goiania" "BelaVista" + 0), dist "Goiania" "Piracanjuba"⟩] := rfl
  have happ : ["Goiania", "BelaVista", "Hidrolandia", "Formiga"] ++ ["Piracanjuba"] = ["Goiania", "BelaVista", "Hidrolandia", "Formiga", "Piracanjuba"] := rfl
  simp only [hnext, hlast, hbeq, Bool.false_eq_true, if_false, hdrop, happ]
  have hch1 : child (⟨["Formiga", "Piracanjuba"], dist "Formiga" "Piracanjuba" + 0, dist "Goiania" "Piracanjuba"⟩ : Route) "Goiania" "ProfJamil" = (⟨["Formiga", "Piracanjuba", "ProfJamil"], dist "Piracanjuba" "ProfJamil" + (dist "Formiga" "Piracanjuba" + 0), dist "Goiania" "ProfJamil"⟩ : Route) := rfl
  have hch2 : child (⟨["Formiga", "Piracanjuba"], dist "Formiga" "Piracanjuba" + 0, dist "Goiania" "Piracanjuba"⟩ : Route) "Goiania" "CaldasNovas" = (⟨["Formiga", "Piracanjuba", "CaldasNovas"], dist "Piracanjuba" "CaldasNovas" + (dist "Formiga" "Piracanjuba" + 0), dist "Goiania" "CaldasNovas"⟩ : Route) := rfl
  have hch3 : child (⟨["Formiga", "Piracanjuba"], dist "Formiga" "Piracanjuba" + 0, dist "Goiania" "Piracanjuba"⟩ : Route) "Goiania" "Cristianopolis" = (⟨["Formiga", "Piracanjuba", "Cristianopolis"], dist "Piracanjuba" "Cristianopolis" + (dist "Formiga" "Piracanjuba" + 0), dist "Goiania" "Cristianopolis"⟩ : Route) := rfl
  have hadd1 : add_route [⟨["Goiania", "BelaVista", "Hidrolandia", "ProfJamil"], dist "Hidrolandia" "ProfJamil" + (dist "BelaVista" "Hidrolandia" + (dist "Goiania" "BelaVista" + 0)), dist "Goiania" "ProfJamil"⟩, ⟨["Goiania", "BelaVista", "Cristianopolis"], dist "BelaVista" "Cristianopolis" + (dist "Goiania" "BelaVista" + 0), dist "Goiania" "Cristianopolis"⟩, ⟨["Goiania", "BelaVista", "Piracanjuba"], dist "BelaVista" "Piracanjuba" + (dist "Goiania" "BelaVista" + 0), dist "Goiania" "Piracanjuba"⟩] (⟨["Formiga", "Piracanjuba", "ProfJamil"], dist "Piracanjuba" "ProfJamil" + (dist "Formiga" "Piracanjuba" + 0), dist "Goiania" "ProfJamil"⟩ : Route)
      = [⟨["Goiania", "BelaVista", "Hidrolandia", "ProfJamil"], dist "Hidrolandia" "ProfJamil" + (dist "BelaVista" "Hidrolandia" + (dist "Goiania" "BelaVista" + 0)), dist "Goiania" "ProfJamil"⟩, ⟨["Goiania", "BelaVista", "Cristianopolis"], dist "BelaVista" "Cristianopolis" + (dist "Goiania" "BelaVista" + 0), dist "Goiania" "Cristianopolis"⟩, ⟨["Goiania", "BelaVista", "Piracanjuba"], dist "BelaVista" "Piracanjuba" + (dist "Goiania" "BelaVista" + 0), dist "Goiania" "Piracanjuba"⟩, ⟨["Formiga", "Piracanjuba", "ProfJamil"], dist "Piracanjuba" "ProfJamil" + (dist "Formiga" "Piracanjuba" + 0), dist "Goiania" "ProfJamil"⟩] := by
    rw [add_route, if_neg (not_lt.mpr scert_16)]
    rw [add_route, if_neg (not_lt.mpr scert_17)]
    rw [add_route, if_neg (not_lt.mpr scert_18)]
    rw [add_route]
  have hadd2 : add_route [⟨["Goiania", "BelaVista", "Hidrolandia", "ProfJamil"], dist "Hidrolandia" "ProfJamil" + (dist "BelaVista" "Hidrolandia" + (dist "Goiania" "BelaVista" + 0)), dist "Goiania" "ProfJamil"⟩, ⟨["Goiania", "BelaVista", "Cristianopolis"], dist "BelaVista" "Cristianopolis" + (dist "Goiania" "BelaVista" + 0), dist "Goiania" "Cristianopolis"⟩, ⟨["Goiania", "BelaVista", "Piracanjuba"], dist "BelaVista" "Piracanjuba" + (dist "Goiania" "BelaVista" + 0), dist "Goiania" "Piracanjuba"⟩, ⟨["Formiga", "Piracanjuba", "ProfJamil"], dist "Piracanjuba" "ProfJamil" + (dist "Formiga" "Piracanjuba" + 0), dist "Goiania" "ProfJamil"⟩] (⟨["Formiga", "Piracanjuba", "CaldasNovas"], dist "Piracanjuba" "CaldasNovas" + (dist "Formiga" "Piracanjuba" + 0), dist "Goiania" "CaldasNovas"⟩ : Route)
      = [⟨["Formiga", "Piracanjuba", "CaldasNovas"], dist "Piracanjuba" "CaldasNovas" + (dist "Formiga" "Piracanjuba" + 0), dist "Goiania" "CaldasNovas"⟩, ⟨["Goiania", "BelaVista", "Hidrolandia", "ProfJamil"], dist "Hidrolandia" "ProfJamil" + (dist "BelaVista" "Hidrolandia" + (dist "Goiania" "BelaVista" + 0)), dist "Goiania" "ProfJamil"⟩, ⟨["Goiania", "BelaVista", "Cristianopolis"], dist "BelaVista" "Cristianopolis" + (dist "Goiania" "BelaVista" + 0), dist "Goiania" "Cristianopolis"⟩, ⟨["Goiania", "BelaVista", "Piracanjuba"], dist "BelaVista" "Piracanjuba" + (dist "Goiania" "BelaVista" + 0), dist "Goiania" "Piracanjuba"⟩, ⟨["Formiga", "Piracanjuba", "ProfJamil"], dist "Piracanjuba" "ProfJamil" + (dist "Formiga" "Piracanjuba" + 0), dist "Goiania" "ProfJamil"⟩] := by
    rw [add_route, if_pos scert_19]
  have hadd3 : add_route [⟨["Formiga", "Piracanjuba", "CaldasNovas"], dist "Piracanjuba" "CaldasNovas" + (dist "Formiga" "Piracanjuba" + 0), dist "Goiania" "CaldasNovas"⟩, ⟨["Goiania", "BelaVista", "Hidrolandia", "ProfJamil"], dist "Hidrolandia" "ProfJamil" + (dist "BelaVista" "Hidrolandia" + (dist "Goiania" "BelaVista" + 0)), dist "Goiania" "ProfJamil"⟩, ⟨["Goiania", "BelaVista", "Cristianopolis"], dist "BelaVista" "Cristianopolis" + (dist "Goiania" "BelaVista" + 0), dist "Goiania" "Cristianopolis"⟩, ⟨["Goiania", "BelaVista", "Piracanjuba"], dist "BelaVista" "Piracanjuba" + (dist "Goiania" "BelaVista" + 0), dist "Goiania" "Piracanjuba"⟩, ⟨["Formiga", "Piracanjuba", "ProfJamil"], dist "Piracanjuba" "ProfJamil" + (dist "Formiga" "Piracanjuba" + 0), dist "Goiania" "ProfJamil"⟩] (⟨["Formiga", "Piracanjuba", "Cristianopolis"], dist "Piracanjuba" "Cristianopolis" + (dist "Formiga" "Piracanjuba" + 0), dist "Goiania" "Cristianopolis"⟩ : Route)
      = [⟨["Formiga", "Piracanjuba", "CaldasNovas"], dist "Piracanjuba" "CaldasNovas" + (dist "Formiga" "Piracanjuba" + 0), dist "Goiania" "CaldasNovas"⟩, ⟨["Goiania", "BelaVista", "Hidrolandia", "ProfJamil"], dist "Hidrolandia" "ProfJamil" + (dist "BelaVista" "Hidrolandia" + (dist "Goiania" "BelaVista" + 0)), dist "Goiania" "ProfJamil"⟩, ⟨["Goiania", "BelaVista", "Cristianopolis"], dist "BelaVista" "Cristianopolis" + (dist "Goiania" "BelaVista" + 0), dist "Goiania" "Cristianopolis"⟩, ⟨["Formiga", "Piracanjuba", "Cristianopolis"], dist "Piracanjuba" "Cristianopolis" + (dist "Formiga" "Piracanjuba" + 0), dist "Goiania" "Cristianopolis"⟩, ⟨["Goiania", "BelaVista", "Piracanjuba"], dist "BelaVista" "Piracanjuba" + (dist "Goiania" "BelaVista" + 0), dist "Goiania" "Piracanjuba"⟩, ⟨["Formiga", "Piracanjuba", "ProfJamil"], dist "Piracanjuba" "ProfJamil" + (dist "Formiga" "Piracanjuba" + 0), dist "Goiania" "ProfJamil"⟩] := by
    rw [add_route, if_neg (not_lt.mpr scert_20)]
    rw [add_route, if_neg (not_lt.mpr scert_21)]
    rw [add_route, if_neg (not_lt.mpr scert_22)]
    rw [add_route, if_pos scert_23]
  have hexp : add_routes_for_neighbours [⟨["Goiania", "BelaVista", "Hidrolandia", "ProfJamil"], dist "Hidrolandia" "ProfJamil" + (dist "BelaVista" "Hidrolandia" + (dist "Goiania" "BelaVista" + 0)), dist "Goiania" "ProfJamil"⟩, ⟨["Goiania", "BelaVista", "Cristianopolis"], dist "BelaVista" "Cristianopolis" + (dist "Goiania" "BelaVista" + 0), dist "Goiania" "Cristianopolis"⟩, ⟨["Goiania", "BelaVista", "Piracanjuba"], dist "BelaVista" "Piracanjuba" + (dist "Goiania" "BelaVista" + 0), dist "Goiania" "Piracanjuba"⟩] ["Goiania", "BelaVista", "Hidrolandia", "Formiga", "Piracanjuba"]
      ⟨["Formiga", "Piracanjuba"], dist "Formiga" "Piracanjuba" + 0, dist "Goiania" "Piracanjuba"⟩ "Goiania" = [⟨["Formiga", "Piracanjuba", "CaldasNovas"], dist "Piracanjuba" "CaldasNovas" + (dist "Formiga" "Piracanjuba" + 0), dist "Goiania" "CaldasNovas"⟩, ⟨["Goiania", "BelaVista", "Hidrolandia", "ProfJamil"], dist "Hidrolandia" "ProfJamil" + (dist "BelaVista" "Hidrolandia" + (dist "Goiania" "BelaVista" + 0)), dist "Goiania" "ProfJamil"⟩, ⟨["Goiania", "BelaVista", "Cristianopolis"], dist "BelaVista" "Cristianopolis" + (dist "Goiania" "BelaVista" + 0), dist "Goiania" "Cristianopolis"⟩, ⟨["Formiga", "Piracanjuba", "Cristianopolis"], dist "Piracanjuba" "Cristianopolis" + (dist "Formiga" "Piracanjuba" + 0), dist "Goiania" "Cristianopolis"⟩, ⟨["Goiania", "BelaVista", "Piracanjuba"], dist "BelaVista" "Piracanjuba" + (dist "Goiania" "BelaVista" + 0), dist "Goiania" "Piracanjuba"⟩, ⟨["Formiga", "Piracanjuba", "ProfJamil"], dist "Piracanjuba" "ProfJamil" + (dist "Formiga" "Piracanjuba" + 0), dist "Goiania" "ProfJamil"⟩] := by
    unfold add_routes_for_neighbours
    rw [hlast, nbrs_Piracanjuba]
    rw [List.foldl_cons, if_pos (show (["Goiania", "BelaVista", "Hidrolandia", "Formiga", "Piracanjuba"].contains "BelaVista") = true from rfl)]
    rw [List.foldl_cons, if_neg (show ¬ (["Goiania", "BelaVista", "Hidrolandia", "Formiga", "Piracanjuba"].contains "ProfJamil") = true from by decide), hch1]
    rw [hadd1]
    rw [List.foldl_cons, if_neg (show ¬ (["Goiania", "BelaVista", "Hidrolandia", "Formiga", "Piracanjuba"].contains "CaldasNovas") = true from by decide), hch2]
    rw [hadd2]
    rw [List.foldl_cons, if_neg (show ¬ (["Goiania", "BelaVista", "Hidrolandia", "Formiga", "Piracanjuba"].contains "Cristianopolis") = true from by decide), hch3]
    rw [hadd3]
    rw [List.foldl_cons, if_pos (show (["Goiania", "BelaVista", "Hidrolandia", "Formiga", "Piracanjuba"].contains "Formiga") = true from rfl)]
    rw [List.foldl_nil]
  rw [hexp]

/-! ## Concrete runs assembled from the iteration lemmas -/

theorem potM_GH : potM ([⟨["Goiania"], 0, dist "Goiania" "Hidrolandia"⟩] : List Route) = 109601 := rfl

theorem potM_BG : potM ([⟨["Goiania", "BelaVista"], dist "Goiania" "BelaVista" + 0, dist "Hidrolandia" "BelaVista"⟩, ⟨["BelaVista"], 0, dist "BelaVista" "Goiania"⟩] : List Route) = 123301 := rfl

theorem potM_FG : potM ([⟨["Formiga"], 0, dist "Formiga" "Goiania"⟩, ⟨["Goiania", "BelaVista"], dist "Goiania" "BelaVista" + 0, dist "Hidrolandia" "BelaVista"⟩] : List Route) = 123301 := rfl

/-- The first demo-style call: `search(Goiania, Hidrolandia)` on a fresh
engine finds `[Goiania, Hidrolandia]` and leaves the engine with the
route `[Goiania, BelaVista]` still on the fringe and `Goiania` on the
visited list. -/
theorem search_GH_run :
    search initState "Goiania" "Hidrolandia"
      = (.found ⟨["Goiania", "Hidrolandia"], dist "Goiania" "Hidrolandia" + 0, dist "Hidrolandia" "Hidrolandia"⟩, ⟨[⟨["Goiania", "BelaVista"], dist "Goiania" "BelaVista" + 0, dist "Hidrolandia" "BelaVista"⟩], ["Goiania"]⟩) := by
  unfold search
  rw [calc_eq_dist fc_Goiania fc_Hidrolandia]
  show searchLoop "Goiania" "Hidrolandia" (potM [⟨["Goiania"], 0, dist "Goiania" "Hidrolandia"⟩] + 1)
      ⟨[⟨["Goiania"], 0, dist "Goiania" "Hidrolandia"⟩], []⟩ = _
  rw [stepA1, potM_GH, show (109601 : ℕ) = 109600 + 1 from by norm_num, stepA2]

/-- The clean rerun: on the leftover fringe but an empty visited list,
`search(BelaVista, Goiania)` finds the direct route `[BelaVista, Goiania]`
in two iterations. -/
theorem search_BG_clean_run :
    search ⟨[⟨["Goiania", "BelaVista"], dist "Goiania" "BelaVista" + 0, dist "Hidrolandia" "BelaVista"⟩], []⟩ "BelaVista" "Goiania"
      = (.found ⟨["BelaVista", "Goiania"], dist "BelaVista" "Goiania" + 0, dist "Goiania" "Goiania"⟩,
         ⟨[⟨["BelaVista", "Cristianopolis"], dist "BelaVista" "Cristianopolis" + 0, dist "Goiania" "Cristianopolis"⟩, ⟨["BelaVista", "Piracanjuba"], dist "BelaVista" "Piracanjuba" + 0, dist "Goiania" "Piracanjuba"⟩, ⟨["Goiania", "BelaVista"], dist "Goiania" "BelaVista" + 0, dist "Hidrolandia" "BelaVista"⟩, ⟨["BelaVista", "Hidrolandia"], dist "BelaVista" "Hidrolandia" + 0, dist "Goiania" "Hidrolandia"⟩], ["BelaVista"]⟩) := by
  unfold search
  rw [calc_eq_dist fc_BelaVista fc_Goiania]
  show searchLoop "BelaVista" "Goiania" (potM (add_route [⟨["Goiania", "BelaVista"], dist "Goiania" "BelaVista" + 0, dist "Hidrolandia" "BelaVista"⟩] ⟨["BelaVista"], 0, dist "BelaVista" "Goiania"⟩) + 1)
      ⟨add_route [⟨["Goiania", "BelaVista"], dist "Goiania" "BelaVista" + 0, dist "Hidrolandia" "BelaVista"⟩] ⟨["BelaVista"], 0, dist "BelaVista" "Goiania"⟩, []⟩ = _
  rw [haddIniC, stepC1, potM_BG, show (123301 : ℕ) = 123300 + 1 from by norm_num, stepC2]

theorem Inv_S1_BG : Inv (⟨[⟨["Goiania", "BelaVista"], dist "Goiania" "BelaVista" + 0, dist "Hidrolandia" "BelaVista"⟩, ⟨["BelaVista"], 0, dist "BelaVista" "Goiania"⟩], ["Goiania"]⟩ : GPSState) := by
  intro r hr
  rcases List.mem_cons.mp hr with rfl | hr
  · refine ⟨by simp, ?_⟩
    intro c hc
    simp only [List.dropLast] at hc
    simpa using hc
  rcases List.mem_cons.mp hr with rfl | hr
  · exact ⟨by simp, by intro c hc; simp at hc⟩
  · cases hr

/-- The dirty rerun: same call, but with `Goiania` still on the visited
list from the previous search.  No route to `Goiania` can ever enter the
fringe again, so the loop drains and returns `None`. -/
theorem search_BG_dirty_notFound :
    (search ⟨[⟨["Goiania", "BelaVista"], dist "Goiania" "BelaVista" + 0, dist "Hidrolandia" "BelaVista"⟩], ["Goiania"]⟩ "BelaVista" "Goiania").1 = .notFound := by
  unfold search
  rw [calc_eq_dist fc_BelaVista fc_Goiania]
  show (searchLoop "BelaVista" "Goiania" (potM (add_route [⟨["Goiania", "BelaVista"], dist "Goiania" "BelaVista" + 0, dist "Hidrolandia" "BelaVista"⟩] ⟨["BelaVista"], 0, dist "BelaVista" "Goiania"⟩) + 1)
      ⟨add_route [⟨["Goiania", "BelaVista"], dist "Goiania" "BelaVista" + 0, dist "Hidrolandia" "BelaVista"⟩] ⟨["BelaVista"], 0, dist "BelaVista" "Goiania"⟩, ["Goiania"]⟩).1 = _
  rw [haddIniC]
  have hlasts : ∀ r ∈ ([⟨["Goiania", "BelaVista"], dist "Goiania" "BelaVista" + 0, dist "Hidrolandia" "BelaVista"⟩, ⟨["BelaVista"], 0, dist "BelaVista" "Goiania"⟩] : List Route),
      r.last_city_id ≠ "Goiania" := by
    intro r hr
    rcases List.mem_cons.mp hr with rfl | hr
    · have h1 : Route.last_city_id (⟨["Goiania", "BelaVista"], dist "Goiania" "BelaVista" + 0, dist "Hidrolandia" "BelaVista"⟩ : Route) = "BelaVista" := rfl
      rw [h1]; decide
    rcases List.mem_cons.mp hr with rfl | hr
    · have h1 : Route.last_city_id (⟨["BelaVista"], 0, dist "BelaVista" "Goiania"⟩ : Route) = "BelaVista" := rfl
      rw [h1]; decide
    · cases hr
  rcases searchLoop_stuck (potM ([⟨["Goiania", "BelaVista"], dist "Goiania" "BelaVista" + 0, dist "Hidrolandia" "BelaVista"⟩, ⟨["BelaVista"], 0, dist "BelaVista" "Goiania"⟩] : List Route) + 1)
      ⟨[⟨["Goiania", "BelaVista"], dist "Goiania" "BelaVista" + 0, dist "Hidrolandia" "BelaVista"⟩, ⟨["BelaVista"], 0, dist "BelaVista" "Goiania"⟩], ["Goiania"]⟩ "BelaVista" "Goiania" (by simp) hlasts with h | h
  · exact h
  · exact absurd h (searchLoop_no_fuelOut _ _ "BelaVista" "Goiania" Inv_S1_BG
      (Nat.lt_succ_self _))

/-- Running `search(Formiga, Goiania)` on the carried-over state runs the loop on
the fringe with the initial `[Formiga]` route inserted. -/
theorem search_FG_eq :
    search (⟨[⟨["Goiania", "BelaVista"], dist "Goiania" "BelaVista" + 0, dist "Hidrolandia" "BelaVista"⟩], ["Goiania"]⟩ : GPSState) "Formiga" "Goiania"
      = searchLoop "Formiga" "Goiania" (potM ([⟨["Formiga"], 0, dist "Formiga" "Goiania"⟩, ⟨["Goiania", "BelaVista"], dist "Goiania" "BelaVista" + 0, dist "Hidrolandia" "BelaVista"⟩] : List Route) + 1)
          ⟨[⟨["Formiga"], 0, dist "Formiga" "Goiania"⟩, ⟨["Goiania", "BelaVista"], dist "Goiania" "BelaVista" + 0, dist "Hidrolandia" "BelaVista"⟩], ["Goiania"]⟩ := by
  unfold search
  rw [calc_eq_dist fc_Formiga fc_Goiania]
  show searchLoop "Formiga" "Goiania" (potM (add_route [⟨["Goiania", "BelaVista"], dist "Goiania" "BelaVista" + 0, dist "Hidrolandia" "BelaVista"⟩] ⟨["Formiga"], 0, dist "Formiga" "Goiania"⟩) + 1)
      ⟨add_route [⟨["Goiania", "BelaVista"], dist "Goiania" "BelaVista" + 0, dist "Hidrolandia" "BelaVista"⟩] ⟨["Formiga"], 0, dist "Formiga" "Goiania"⟩, ["Goiania"]⟩ = _
  rw [haddIniB]

/-- The first four iterations of the dirty `Formiga → Goiania` run. -/
theorem FG_chain :
    searchLoop "Formiga" "Goiania" (123301 + 1) ⟨[⟨["Formiga"], 0, dist "Formiga" "Goiania"⟩, ⟨["Goiania", "BelaVista"], dist "Goiania" "BelaVista" + 0, dist "Hidrolandia" "BelaVista"⟩], ["Goiania"]⟩
      = searchLoop "Formiga" "Goiania" 123298 ⟨[⟨["Formiga", "Piracanjuba", "CaldasNovas"], dist "Piracanjuba" "CaldasNovas" + (dist "Formiga" "Piracanjuba" + 0), dist "Goiania" "CaldasNovas"⟩, ⟨["Goiania", "BelaVista", "Hidrolandia", "ProfJamil"], dist "Hidrolandia" "ProfJamil" + (dist "BelaVista" "Hidrolandia" + (dist "Goiania" "BelaVista" + 0)), dist "Goiania" "ProfJamil"⟩, ⟨["Goiania", "BelaVista", "Cristianopolis"], dist "BelaVista" "Cristianopolis" + (dist "Goiania" "BelaVista" + 0), dist "Goiania" "Cristianopolis"⟩, ⟨["Formiga", "Piracanjuba", "Cristianopolis"], dist "Piracanjuba" "Cristianopolis" + (dist "Formiga" "Piracanjuba" + 0), dist "Goiania" "Cristianopolis"⟩, ⟨["Goiania", "BelaVista", "Piracanjuba"], dist "BelaVista" "Piracanjuba" + (dist "Goiania" "BelaVista" + 0), dist "Goiania" "Piracanjuba"⟩, ⟨["Formiga", "Piracanjuba", "ProfJamil"], dist "Piracanjuba" "ProfJamil" + (dist "Formiga" "Piracanjuba" + 0), dist "Goiania" "ProfJamil"⟩], ["Goiania", "BelaVista", "Hidrolandia", "Formiga", "Piracanjuba"]⟩ := by
  rw [stepB1, show (123301 : ℕ) = 123300 + 1 from by norm_num,
    stepB2, show (123300 : ℕ) = 123299 + 1 from by norm_num,
    stepB3, show (123299 : ℕ) = 123298 + 1 from by norm_num,
    stepB4]

theorem Inv_S2_FG : Inv (⟨[⟨["Formiga"], 0, dist "Formiga" "Goiania"⟩, ⟨["Goiania", "BelaVista"], dist "Goiania" "BelaVista" + 0, dist "Hidrolandia" "BelaVista"⟩], ["Goiania"]⟩ : GPSState) := by
  intro r hr
  rcases List.mem_cons.mp hr with rfl | hr
  · exact ⟨by simp, by intro c hc; simp at hc⟩
  rcases List.mem_cons.mp hr with rfl | hr
  · refine ⟨by simp, ?_⟩
    intro c hc
    simp only [List.dropLast] at hc
    simpa using hc
  · cases hr

/-- The dirty `Formiga → Goiania` run returns `None`: `Goiania` is on the
visited list, so no route ending there is ever inserted, and the loop
terminates by the potential argument. -/
theorem searchLoop_FG_notFound :
    (searchLoop "Formiga" "Goiania" (potM ([⟨["Formiga"], 0, dist "Formiga" "Goiania"⟩, ⟨["Goiania", "BelaVista"], dist "Goiania" "BelaVista" + 0, dist "Hidrolandia" "BelaVista"⟩] : List Route) + 1)
        ⟨[⟨["Formiga"], 0, dist "Formiga" "Goiania"⟩, ⟨["Goiania", "BelaVista"], dist "Goiania" "BelaVista" + 0, dist "Hidrolandia" "BelaVista"⟩], ["Goiania"]⟩).1 = .notFound := by
  have hlasts : ∀ r ∈ ([⟨["Formiga"], 0, dist "Formiga" "Goiania"⟩, ⟨["Goiania", "BelaVista"], dist "Goiania" "BelaVista" + 0, dist "Hidrolandia" "BelaVista"⟩] : List Route),
      r.last_city_id ≠ "Goiania" := by
    intro r hr
    rcases List.mem_cons.mp hr with rfl | hr
    · have h1 : Route.last_city_id (⟨["Formiga"], 0, dist "Formiga" "Goiania"⟩ : Route) = "Formiga" := rfl
      rw [h1]; decide
    rcases List.mem_cons.mp hr with rfl | hr
    · have h1 : Route.last_city_id (⟨["Goiania", "BelaVista"], dist "Goiania" "BelaVista" + 0, dist "Hidrolandia" "BelaVista"⟩ : Route) = "BelaVista" := rfl
      rw [h1]; decide
    · cases hr
  rcases searchLoop_stuck (potM ([⟨["Formiga"], 0, dist "Formiga" "Goiania"⟩, ⟨["Goiania", "BelaVista"], dist "Goiania" "BelaVista" + 0, dist "Hidrolandia" "BelaVista"⟩] : List Route) + 1)
      ⟨[⟨["Formiga"], 0, dist "Formiga" "Goiania"⟩, ⟨["Goiania", "BelaVista"], dist "Goiania" "BelaVista" + 0, dist "Hidrolandia" "BelaVista"⟩], ["Goiania"]⟩ "Formiga" "Goiania" (by simp) hlasts with h | h
  · exact h
  · exact absurd h (searchLoop_no_fuelOut _ _ "Formiga" "Goiania" Inv_S2_FG
      (Nat.lt_succ_self _))

theorem FG_tail_notFound :
    (searchLoop "Formiga" "Goiania" 123298 ⟨[⟨["Formiga", "Piracanjuba", "CaldasNovas"], dist "Piracanjuba" "CaldasNovas" + (dist "Formiga" "Piracanjuba" + 0), dist "Goiania" "CaldasNovas"⟩, ⟨["Goiania", "BelaVista", "Hidrolandia", "ProfJamil"], dist "Hidrolandia" "ProfJamil" + (dist "BelaVista" "Hidrolandia" + (dist "Goiania" "BelaVista" + 0)), dist "Goiania" "ProfJamil"⟩, ⟨["Goiania", "BelaVista", "Cristianopolis"], dist "BelaVista" "Cristianopolis" + (dist "Goiania" "BelaVista" + 0), dist "Goiania" "Cristianopolis"⟩, ⟨["Formiga", "Piracanjuba", "Cristianopolis"], dist "Piracanjuba" "Cristianopolis" + (dist "Formiga" "Piracanjuba" + 0), dist "Goiania" "Cristianopolis"⟩, ⟨["Goiania", "BelaVista", "Piracanjuba"], dist "BelaVista" "Piracanjuba" + (dist "Goiania" "BelaVista" + 0), dist "Goiania" "Piracanjuba"⟩, ⟨["Formiga", "Piracanjuba", "ProfJamil"], dist "Piracanjuba" "ProfJamil" + (dist "Formiga" "Piracanjuba" + 0), dist "Goiania" "ProfJamil"⟩], ["Goiania", "BelaVista", "Hidrolandia", "Formiga", "Piracanjuba"]⟩).1 = .notFound := by
  have h := searchLoop_FG_notFound
  rw [potM_FG, FG_chain] at h
  exact h

/-- After the fourth iteration, the visited list has five entries and the
six fringe routes all get popped and appended before the run returns
`None`: the final visited list has at least 11 entries and contains
`Piracanjuba` at least twice. -/
theorem FG_tail_ge : ∀ sf : GPSState,
    searchLoop "Formiga" "Goiania" 123298 ⟨[⟨["Formiga", "Piracanjuba", "CaldasNovas"], dist "Piracanjuba" "CaldasNovas" + (dist "Formiga" "Piracanjuba" + 0), dist "Goiania" "CaldasNovas"⟩, ⟨["Goiania", "BelaVista", "Hidrolandia", "ProfJamil"], dist "Hidrolandia" "ProfJamil" + (dist "BelaVista" "Hidrolandia" + (dist "Goiania" "BelaVista" + 0)), dist "Goiania" "ProfJamil"⟩, ⟨["Goiania", "BelaVista", "Cristianopolis"], dist "BelaVista" "Cristianopolis" + (dist "Goiania" "BelaVista" + 0), dist "Goiania" "Cristianopolis"⟩, ⟨["Formiga", "Piracanjuba", "Cristianopolis"], dist "Piracanjuba" "Cristianopolis" + (dist "Formiga" "Piracanjuba" + 0), dist "Goiania" "Cristianopolis"⟩, ⟨["Goiania", "BelaVista", "Piracanjuba"], dist "BelaVista" "Piracanjuba" + (dist "Goiania" "BelaVista" + 0), dist "Goiania" "Piracanjuba"⟩, ⟨["Formiga", "Piracanjuba", "ProfJamil"], dist "Piracanjuba" "ProfJamil" + (dist "Formiga" "Piracanjuba" + 0), dist "Goiania" "ProfJamil"⟩], ["Goiania", "BelaVista", "Hidrolandia", "Formiga", "Piracanjuba"]⟩ = (.notFound, sf) →
    11 ≤ sf.visited.length ∧ 2 ≤ sf.visited.count "Piracanjuba" := by
  intro sf h
  have hms := searchLoop_visited_multiset 123298 ⟨[⟨["Formiga", "Piracanjuba", "CaldasNovas"], dist "Piracanjuba" "CaldasNovas" + (dist "Formiga" "Piracanjuba" + 0), dist "Goiania" "CaldasNovas"⟩, ⟨["Goiania", "BelaVista", "Hidrolandia", "ProfJamil"], dist "Hidrolandia" "ProfJamil" + (dist "BelaVista" "Hidrolandia" + (dist "Goiania" "BelaVista" + 0)), dist "Goiania" "ProfJamil"⟩, ⟨["Goiania", "BelaVista", "Cristianopolis"], dist "BelaVista" "Cristianopolis" + (dist "Goiania" "BelaVista" + 0), dist "Goiania" "Cristianopolis"⟩, ⟨["Formiga", "Piracanjuba", "Cristianopolis"], dist "Piracanjuba" "Cristianopolis" + (dist "Formiga" "Piracanjuba" + 0), dist "Goiania" "Cristianopolis"⟩, ⟨["Goiania", "BelaVista", "Piracanjuba"], dist "BelaVista" "Piracanjuba" + (dist "Goiania" "BelaVista" + 0), dist "Goiania" "Piracanjuba"⟩, ⟨["Formiga", "Piracanjuba", "ProfJamil"], dist "Piracanjuba" "ProfJamil" + (dist "Formiga" "Piracanjuba" + 0), dist "Goiania" "ProfJamil"⟩], ["Goiania", "BelaVista", "Hidrolandia", "Formiga", "Piracanjuba"]⟩
    "Formiga" "Goiania" sf h
  have hms2 : (((["Goiania", "BelaVista", "Hidrolandia", "Formiga", "Piracanjuba"] : List String) : Multiset String)
      + (↑(([⟨["Formiga", "Piracanjuba", "CaldasNovas"], dist "Piracanjuba" "CaldasNovas" + (dist "Formiga" "Piracanjuba" + 0), dist "Goiania" "CaldasNovas"⟩, ⟨["Goiania", "BelaVista", "Hidrolandia", "ProfJamil"], dist "Hidrolandia" "ProfJamil" + (dist "BelaVista" "Hidrolandia" + (dist "Goiania" "BelaVista" + 0)), dist "Goiania" "ProfJamil"⟩, ⟨["Goiania", "BelaVista", "Cristianopolis"], dist "BelaVista" "Cristianopolis" + (dist "Goiania" "BelaVista" + 0), dist "Goiania" "Cristianopolis"⟩, ⟨["Formiga", "Piracanjuba", "Cristianopolis"], dist "Piracanjuba" "Cristianopolis" + (dist "Formiga" "Piracanjuba" + 0), dist "Goiania" "Cristianopolis"⟩, ⟨["Goiania", "BelaVista", "Piracanjuba"], dist "BelaVista" "Piracanjuba" + (dist "Goiania" "BelaVista" + 0), dist "Goiania" "Piracanjuba"⟩, ⟨["Formiga", "Piracanjuba", "ProfJamil"], dist "Piracanjuba" "ProfJamil" + (dist "Formiga" "Piracanjuba" + 0), dist "Goiania" "ProfJamil"⟩] : List Route).map Route.last_city_id) : Multiset String))
      ≤ (↑sf.visited : Multiset String) := hms
  have hmap : ([⟨["Formiga", "Piracanjuba", "CaldasNovas"], dist "Piracanjuba" "CaldasNovas" + (dist "Formiga" "Piracanjuba" + 0), dist "Goiania" "CaldasNovas"⟩, ⟨["Goiania", "BelaVista", "Hidrolandia", "ProfJamil"], dist "Hidrolandia" "ProfJamil" + (dist "BelaVista" "Hidrolandia" + (dist "Goiania" "BelaVista" + 0)), dist "Goiania" "ProfJamil"⟩, ⟨["Goiania", "BelaVista", "Cristianopolis"], dist "BelaVista" "Cristianopolis" + (dist "Goiania" "BelaVista" + 0), dist "Goiania" "Cristianopolis"⟩, ⟨["Formiga", "Piracanjuba", "Cristianopolis"], dist "Piracanjuba" "Cristianopolis" + (dist "Formiga" "Piracanjuba" + 0), dist "Goiania" "Cristianopolis"⟩, ⟨["Goiania", "BelaVista", "Piracanjuba"], dist "BelaVista" "Piracanjuba" + (dist "Goiania" "BelaVista" + 0), dist "Goiania" "Piracanjuba"⟩, ⟨["Formiga", "Piracanjuba", "ProfJamil"], dist "Piracanjuba" "ProfJamil" + (dist "Formiga" "Piracanjuba" + 0), dist "Goiania" "ProfJamil"⟩] : List Route).map Route.last_city_id = ["CaldasNovas", "ProfJamil", "Cristianopolis", "Cristianopolis", "Piracanjuba", "ProfJamil"] := rfl
  rw [hmap] at hms2
  constructor
  · have hcard := Multiset.card_le_card hms2
    simpa using hcard
  · have hcnt := Multiset.count_le_of_le "Piracanjuba" hms2
    have h1 : Multiset.count "Piracanjuba" ((["Goiania", "BelaVista", "Hidrolandia", "Formiga", "Piracanjuba"] : List String) : Multiset String) = 1 := rfl
    have h2 : Multiset.count "Piracanjuba" ((["CaldasNovas", "ProfJamil", "Cristianopolis", "Cristianopolis", "Piracanjuba", "ProfJamil"] : List String) : Multiset String) = 1 := rfl
    rw [Multiset.count_add, h1, h2] at hcnt
    simpa using hcnt

/-! ## Counterexamples and amended claims for C2, C4 and C7 -/

/-- C2 (counterexample): `search` does not reset the visited list.  After
`search(Goiania, Hidrolandia)` on a fresh engine the state carries
`visited = [Goiania]` and a leftover fringe route; running
`search(BelaVista, Goiania)` on that state returns `None`, while the same
call with the visited list cleared finds the direct route
`[BelaVista, Goiania]` — so the visited set is NOT a new empty set at the
start of the second call. -/
theorem search_visited_not_reset_cex :
    (search initState "Goiania" "Hidrolandia").2
        = (⟨[⟨["Goiania", "BelaVista"], dist "Goiania" "BelaVista" + 0, dist "Hidrolandia" "BelaVista"⟩], ["Goiania"]⟩ : GPSState) ∧
    (search ⟨[⟨["Goiania", "BelaVista"], dist "Goiania" "BelaVista" + 0, dist "Hidrolandia" "BelaVista"⟩], ["Goiania"]⟩ "BelaVista" "Goiania").1 = .notFound ∧
    (search ⟨[⟨["Goiania", "BelaVista"], dist "Goiania" "BelaVista" + 0, dist "Hidrolandia" "BelaVista"⟩], []⟩ "BelaVista" "Goiania").1 = .found ⟨["BelaVista", "Goiania"], dist "BelaVista" "Goiania" + 0, dist "Goiania" "Goiania"⟩ ∧
    (search ⟨[⟨["Goiania", "BelaVista"], dist "Goiania" "BelaVista" + 0, dist "Hidrolandia" "BelaVista"⟩], ["Goiania"]⟩ "BelaVista" "Goiania").1
      ≠ (search ⟨[⟨["Goiania", "BelaVista"], dist "Goiania" "BelaVista" + 0, dist "Hidrolandia" "BelaVista"⟩], []⟩ "BelaVista" "Goiania").1 := by
  refine ⟨by rw [search_GH_run], search_BG_dirty_notFound, by rw [search_BG_clean_run], ?_⟩
  rw [search_BG_dirty_notFound, search_BG_clean_run]
  simp

/-- C4 (counterexample): the demo-style usage `search(Goiania,
Hidrolandia)` then `search(Formiga, Goiania)` on the same engine leaves
the second call's loop unfinished after 9 = (number of nodes) iterations:
with the loop fuel capped at 9 the run is cut off, because popped routes
whose last city is already visited are appended to the visited list again
and re-expanded. -/
theorem search_exceeds_node_bound_cex :
    (search initState "Goiania" "Hidrolandia").2
        = (⟨[⟨["Goiania", "BelaVista"], dist "Goiania" "BelaVista" + 0, dist "Hidrolandia" "BelaVista"⟩], ["Goiania"]⟩ : GPSState) ∧
    keys.length = 9 ∧
    search (⟨[⟨["Goiania", "BelaVista"], dist "Goiania" "BelaVista" + 0, dist "Hidrolandia" "BelaVista"⟩], ["Goiania"]⟩ : GPSState) "Formiga" "Goiania"
      = searchLoop "Formiga" "Goiania" (potM ([⟨["Formiga"], 0, dist "Formiga" "Goiania"⟩, ⟨["Goiania", "BelaVista"], dist "Goiania" "BelaVista" + 0, dist "Hidrolandia" "BelaVista"⟩] : List Route) + 1)
          ⟨[⟨["Formiga"], 0, dist "Formiga" "Goiania"⟩, ⟨["Goiania", "BelaVista"], dist "Goiania" "BelaVista" + 0, dist "Hidrolandia" "BelaVista"⟩], ["Goiania"]⟩ ∧
    (searchLoop "Formiga" "Goiania" 9 ⟨[⟨["Formiga"], 0, dist "Formiga" "Goiania"⟩, ⟨["Goiania", "BelaVista"], dist "Goiania" "BelaVista" + 0, dist "Hidrolandia" "BelaVista"⟩], ["Goiania"]⟩).1 = .fuelOut := by
  refine ⟨by rw [search_GH_run], rfl, search_FG_eq, ?_⟩
  by_contra hne
  have hpair9 : searchLoop "Formiga" "Goiania" 9 ⟨[⟨["Formiga"], 0, dist "Formiga" "Goiania"⟩, ⟨["Goiania", "BelaVista"], dist "Goiania" "BelaVista" + 0, dist "Hidrolandia" "BelaVista"⟩], ["Goiania"]⟩
      = ((searchLoop "Formiga" "Goiania" 9 ⟨[⟨["Formiga"], 0, dist "Formiga" "Goiania"⟩, ⟨["Goiania", "BelaVista"], dist "Goiania" "BelaVista" + 0, dist "Hidrolandia" "BelaVista"⟩], ["Goiania"]⟩).1,
         (searchLoop "Formiga" "Goiania" 9 ⟨[⟨["Formiga"], 0, dist "Formiga" "Goiania"⟩, ⟨["Goiania", "BelaVista"], dist "Goiania" "BelaVista" + 0, dist "Hidrolandia" "BelaVista"⟩], ["Goiania"]⟩).2) := rfl
  have hmono := searchLoop_mono 9 ⟨[⟨["Formiga"], 0, dist "Formiga" "Goiania"⟩, ⟨["Goiania", "BelaVista"], dist "Goiania" "BelaVista" + 0, dist "Hidrolandia" "BelaVista"⟩], ["Goiania"]⟩ "Formiga" "Goiania"
      _ _ hpair9 hne 123293
  rw [show (9 : ℕ) + 123293 = 123301 + 1 from by norm_num, FG_chain] at hmono
  have hfst := congrArg Prod.fst hmono
  rw [FG_tail_notFound] at hfst
  have hp1 : (searchLoop "Formiga" "Goiania" 9 ⟨[⟨["Formiga"], 0, dist "Formiga" "Goiania"⟩, ⟨["Goiania", "BelaVista"], dist "Goiania" "BelaVista" + 0, dist "Hidrolandia" "BelaVista"⟩], ["Goiania"]⟩).1
      = .notFound := hfst.symm
  have hrun9 : searchLoop "Formiga" "Goiania" 9 ⟨[⟨["Formiga"], 0, dist "Formiga" "Goiania"⟩, ⟨["Goiania", "BelaVista"], dist "Goiania" "BelaVista" + 0, dist "Hidrolandia" "BelaVista"⟩], ["Goiania"]⟩
      = (.notFound,
         (searchLoop "Formiga" "Goiania" 9 ⟨[⟨["Formiga"], 0, dist "Formiga" "Goiania"⟩, ⟨["Goiania", "BelaVista"], dist "Goiania" "BelaVista" + 0, dist "Hidrolandia" "BelaVista"⟩], ["Goiania"]⟩).2) := by
    rw [hpair9, hp1]
  have hlen9 := searchLoop_visited_length 9 ⟨[⟨["Formiga"], 0, dist "Formiga" "Goiania"⟩, ⟨["Goiania", "BelaVista"], dist "Goiania" "BelaVista" + 0, dist "Hidrolandia" "BelaVista"⟩], ["Goiania"]⟩
      "Formiga" "Goiania" _ hrun9
  have hrun6 : searchLoop "Formiga" "Goiania" 123298 ⟨[⟨["Formiga", "Piracanjuba", "CaldasNovas"], dist "Piracanjuba" "CaldasNovas" + (dist "Formiga" "Piracanjuba" + 0), dist "Goiania" "CaldasNovas"⟩, ⟨["Goiania", "BelaVista", "Hidrolandia", "ProfJamil"], dist "Hidrolandia" "ProfJamil" + (dist "BelaVista" "Hidrolandia" + (dist "Goiania" "BelaVista" + 0)), dist "Goiania" "ProfJamil"⟩, ⟨["Goiania", "BelaVista", "Cristianopolis"], dist "BelaVista" "Cristianopolis" + (dist "Goiania" "BelaVista" + 0), dist "Goiania" "Cristianopolis"⟩, ⟨["Formiga", "Piracanjuba", "Cristianopolis"], dist "Piracanjuba" "Cristianopolis" + (dist "Formiga" "Piracanjuba" + 0), dist "Goiania" "Cristianopolis"⟩, ⟨["Goiania", "BelaVista", "Piracanjuba"], dist "BelaVista" "Piracanjuba" + (dist "Goiania" "BelaVista" + 0), dist "Goiania" "Piracanjuba"⟩, ⟨["Formiga", "Piracanjuba", "ProfJamil"], dist "Piracanjuba" "ProfJamil" + (dist "Formiga" "Piracanjuba" + 0), dist "Goiania" "ProfJamil"⟩], ["Goiania", "BelaVista", "Hidrolandia", "Formiga", "Piracanjuba"]⟩
      = (.notFound,
         (searchLoop "Formiga" "Goiania" 9 ⟨[⟨["Formiga"], 0, dist "Formiga" "Goiania"⟩, ⟨["Goiania", "BelaVista"], dist "Goiania" "BelaVista" + 0, dist "Hidrolandia" "BelaVista"⟩], ["Goiania"]⟩).2) := by
    rw [hmono, hp1]
  have hge := (FG_tail_ge _ hrun6).1
  have hv1 : ((⟨[⟨["Formiga"], 0, dist "Formiga" "Goiania"⟩, ⟨["Goiania", "BelaVista"], dist "Goiania" "BelaVista" + 0, dist "Hidrolandia" "BelaVista"⟩], ["Goiania"]⟩ : GPSState)).visited.length = 1 := rfl
  rw [hv1] at hlen9
  omega

/-- C7 (counterexample): in the same two-call usage, the second call
`search(Formiga, Goiania)` drains its fringe without reaching the
destination and returns `None` — but `Piracanjuba`, reachable from the
origin `Formiga` (it is its direct neighbour), ends up on the visited
list at least twice, not exactly once. -/
theorem unreachable_visited_multiplicity_cex :
    (search initState "Goiania" "Hidrolandia").2
        = (⟨[⟨["Goiania", "BelaVista"], dist "Goiania" "BelaVista" + 0, dist "Hidrolandia" "BelaVista"⟩], ["Goiania"]⟩ : GPSState) ∧
    "Piracanjuba" ∈ get_neighbours "Formiga" ∧
    (search (⟨[⟨["Goiania", "BelaVista"], dist "Goiania" "BelaVista" + 0, dist "Hidrolandia" "BelaVista"⟩], ["Goiania"]⟩ : GPSState) "Formiga" "Goiania").1 = .notFound ∧
    2 ≤ ((search (⟨[⟨["Goiania", "BelaVista"], dist "Goiania" "BelaVista" + 0, dist "Hidrolandia" "BelaVista"⟩], ["Goiania"]⟩ : GPSState) "Formiga" "Goiania").2).visited.count
          "Piracanjuba" := by
  refine ⟨by rw [search_GH_run], by decide, ?_, ?_⟩
  · rw [search_FG_eq]
    exact searchLoop_FG_notFound
  · rw [search_FG_eq, potM_FG, FG_chain]
    exact (FG_tail_ge _ (Prod.ext FG_tail_notFound rfl)).2

/-- The loop itself never produces the `error` outcome: that result only
arises in `search` when the key lookup fails. -/
theorem searchLoop_ne_error :
    ∀ (fuel : ℕ) (s : GPSState) (o d : String),
      (searchLoop o d fuel s).1 ≠ .error := by
  intro fuel
  induction fuel with
  | zero =>
      intro s o d
      obtain ⟨fr, v⟩ := s
      cases fr with
      | nil => rw [searchLoop]; simp
      | cons c f => rw [searchLoop]; simp
  | succ n ih =>
      intro s o d
      obtain ⟨fr, v⟩ := s
      cases fr with
      | nil => rw [searchLoop]; simp
      | cons c f =>
          rw [searchLoop]
          by_cases hgoal : (next_route (c :: f)).last_city_id == d
          · simp only [hgoal, if_true]
            simp
          · simp only [hgoal, if_false]
            exact ih _ o d

/-- C2 (amended): the visited list is created empty by `__init__` and is
never reset by `search`; each call only appends to it, so the list at the
start of a call is exactly the list left by the previous calls, and the
entries carry over. -/
theorem visited_carries_over :
    initState.visited = [] ∧
    ∀ (s : GPSState) (o d : String), s.visited <+: (search s o d).2.visited := by
  refine ⟨rfl, ?_⟩
  intro s o d
  unfold search
  cases h : calc_cartesian_distance o d with
  | none => exact List.prefix_refl _
  | some e =>
      show s.visited <+: (searchLoop o d
          (potM (add_route s.fringe ⟨[o], 0, e⟩) + 1)
          ⟨add_route s.fringe ⟨[o], 0, e⟩, s.visited⟩).2.visited
      exact searchLoop_visited_prefix
        (potM (add_route s.fringe ⟨[o], 0, e⟩) + 1)
        ⟨add_route s.fringe ⟨[o], 0, e⟩, s.visited⟩ o d

/-- C4 (amended): every `search` call on a well-formed engine state
terminates — the fringe-potential fuel supplied to the loop is never
exhausted — but the iteration count is bounded by the fringe potential,
not by the number of nodes: a popped route whose last city is already
visited is appended to the visited list again and re-expanded, so a node
can account for more than one iteration (see the counterexample). -/
theorem search_terminates :
    ∀ (s : GPSState) (o d : String), Inv s → (search s o d).1 ≠ .fuelOut := by
  intro s o d hInv
  unfold search
  cases h : calc_cartesian_distance o d with
  | none => simp
  | some e =>
      apply searchLoop_no_fuelOut
      · intro r hr
        rw [(add_route_perm s.fringe ⟨[o], 0, e⟩).mem_iff] at hr
        rcases List.mem_cons.mp hr with rfl | hr
        · exact ⟨by simp, by intro c hc; simp at hc⟩
        · exact hInv r hr
      · exact Nat.lt_succ_self _

/-- Witness for C4 (amended) at a fresh engine. -/
theorem search_terminates_witness :
    Inv initState ∧ (search initState "Goiania" "CaldasNovas").1 ≠ .fuelOut := by
  have hInv : Inv initState := by
    intro r hr
    cases hr
  exact ⟨hInv, search_terminates initState "Goiania" "CaldasNovas" hInv⟩

/-- C7 (amended): on valid keys and a well-formed state, `search` never
raises and never exhausts its fuel; and if it returns `None` — the fringe
drained without reaching the destination — then the origin and the last
city of every route that was on the fringe when the call started have all
been appended to the visited list by the end (possibly more than once
each, see the counterexample). -/
theorem exhausted_returns_none :
    ∀ (s : GPSState) (o d : String), Inv s → o ∈ keys → d ∈ keys →
      (search s o d).1 ≠ .error ∧ (search s o d).1 ≠ .fuelOut ∧
      ∀ sf, search s o d = (.notFound, sf) →
        o ∈ sf.visited ∧ ∀ r ∈ s.fringe, r.last_city_id ∈ sf.visited := by
  intro s o d hInv ho hd
  rcases find_city_of_mem ho with ⟨co, hco, _⟩
  rcases find_city_of_mem hd with ⟨cd, hcd, _⟩
  have hcalc : calc_cartesian_distance o d = some (dist o d) := calc_eq_dist hco hcd
  refine ⟨?_, ?_, ?_⟩
  · unfold search
    rw [hcalc]
    show (searchLoop o d
        (potM (add_route s.fringe ⟨[o], 0, dist o d⟩) + 1)
        ⟨add_route s.fringe ⟨[o], 0, dist o d⟩, s.visited⟩).1 ≠ .error
    exact searchLoop_ne_error _ _ o d
  · exact search_terminates s o d hInv
  · intro sf hrun
    unfold search at hrun
    rw [hcalc] at hrun
    have hms := searchLoop_visited_multiset
      (potM (add_route s.fringe ⟨[o], 0, dist o d⟩) + 1)
      ⟨add_route s.fringe ⟨[o], 0, dist o d⟩, s.visited⟩ o d sf hrun
    have hsub : ∀ x : String,
        x ∈ (add_route s.fringe ⟨[o], 0, dist o d⟩).map Route.last_city_id →
        x ∈ sf.visited := by
      intro x hx
      have hx2 : x ∈ (↑s.visited + ↑((add_route s.fringe
          ⟨[o], 0, dist o d⟩).map Route.last_city_id) : Multiset String) := by
        rw [Multiset.mem_add]
        exact Or.inr (by simpa using hx)
      simpa using Multiset.mem_of_le hms hx2
    constructor
    · refine hsub o (List.mem_map.mpr ⟨⟨[o], 0, dist o d⟩, ?_, rfl⟩)
      rw [(add_route_perm _ _).mem_iff]
      exact List.mem_cons_self _ _
    · intro r hr
      refine hsub r.last_city_id (List.mem_map.mpr ⟨r, ?_, rfl⟩)
      rw [(add_route_perm _ _).mem_iff]
      exact List.mem_cons_of_mem _ hr

/-- Witness for C7 (amended) at the fresh same-key search. -/
theorem exhausted_returns_none_witness :
    Inv initState ∧ "Goiania" ∈ keys ∧ "CaldasNovas" ∈ keys ∧
    (search initState "Goiania" "CaldasNovas").1 ≠ .error := by
  have hInv : Inv initState := by
    intro r hr
    cases hr
  exact ⟨hInv, by decide, by decide,
    (exhausted_returns_none initState "Goiania" "CaldasNovas" hInv (by decide) (by decide)).1⟩

end GPSBestFirst
